import Mathlib

/-!
# Verification development for the kopsik API facade (`src/kopsik_api.cc`, `src/user.h`)

Shallow embedding of the C facade of the time-tracking agent.

Modelling conventions
* A `std::string` / `const char *` is a Lean `String`, one `Char` per `char`; strings
  hold no NUL character, so that `c_str()` and `strdup` copy them whole.
* `Poco::UInt64`, `unsigned int` identifiers and timestamps are `Nat`; signed
  durations are `Int`, wrapped explicitly where the source accumulates them.
* The error buffer is represented by the message handed to
  `strncpy(errmsg, message, errlen)`; `none` means that the buffer was not touched.
* `poco_assert` on pointer arguments and on `errlen` is the calling convention of
  the C interface; assertions on values the model represents (`at`, the looked-up
  time entry, a time entry GUID, the id of the user) are part of the functions
  below: a failed assertion inside `try` ends in the `catch` of `Poco::Exception`.
* Calls of the logger are not part of the model.
-/

namespace Kopsik

/-! ## Strings -/

/-- The call `value.find(needle)` of `std::string`: the lowest position at which
`needle` occurs in `value`; `none` stands for `std::string::npos`. -/
def std_find : List Char → List Char → Option Nat
  | [], needle => if needle = [] then some 0 else none
  | c :: cs, needle =>
    if needle.isPrefixOf (c :: cs) then some 0
    else (std_find cs needle).map (· + 1)

/-- Lexicographic comparison of two character sequences by the values of the
characters; a proper prefix is smaller. -/
def lex_lt : List Char → List Char → Bool
  | _, [] => false
  | [], _ :: _ => true
  | a :: as, b :: bs =>
    if a.toNat < b.toNat then true
    else if b.toNat < a.toNat then false
    else lex_lt as bs

/-- The comparison `a < b` of `std::string` (`operator<`, i.e. `compare`). -/
def std_string_lt (a b : String) : Bool := lex_lt a.data b.data

/-- The test `value.find(needle) != std::string::npos`. -/
def found (value needle : String) : Bool :=
  (std_find value.data needle.data).isSome

/-- Embedding of `kopsik_is_networking_error` (kopsik_api.cc, lines 38-67). -/
def kopsik_is_networking_error (error : String) : Int :=
  let value := error
  if found value "Host not found" then 1
  else if found value "Cannot upgrade to WebSocket connection" then 1
  else if found value "No message received" then 1
  else if found value "Connection refused" then 1
  else if found value "Connection timed out" then 1
  else if found value "connect timed out" then 1
  else if found value "SSL connection unexpectedly closed" then 1
  else if found value "Network is down" then 1
  else 0

/-- The eight substrings that the specification lists as transient network errors. -/
def networkingErrorSubstrings : List String :=
  ["Host not found", "Cannot upgrade to WebSocket connection", "No message received",
   "Connection refused", "Connection timed out", "connect timed out",
   "SSL connection unexpectedly closed", "Network is down"]

/-- Specification-side notion: `needle` occurs in `value` at some position. -/
def Contains (value needle : String) : Prop :=
  ∃ pre post : List Char, value.data = pre ++ needle.data ++ post

instance (value needle : String) : Decidable (Contains value needle) :=
  decidable_of_iff (needle.data <:+: value.data)
    ⟨fun ⟨pre, post, h⟩ => ⟨pre, post, h.symm⟩, fun ⟨pre, post, h⟩ => ⟨pre, post, h.symm⟩⟩

/-- Specification-side notion: `message` begins with `start`. -/
def BeginsWith (message start : String) : Prop :=
  ∃ rest : List Char, message.data = start.data ++ rest

instance (message start : String) : Decidable (BeginsWith message start) :=
  decidable_of_iff (start.data <+: message.data)
    ⟨fun ⟨rest, h⟩ => ⟨rest, h.symm⟩, fun ⟨rest, h⟩ => ⟨rest, h.symm⟩⟩

/-! ## Data model -/

/-- Modelled from the spec: `types.h` is not among the sources. A `kopsik::error` is a
string (the facade copies it with `c_str()`), `kopsik::noError` is the success
sentinel. -/
abbrev error := String

/-- Modelled from the spec: the success sentinel `kopsik::noError` of `types.h`. -/
def noError : error := ""

/-- Modelled from the spec: `kopsik_api.h` is not among the sources; the two values a
facade call returns. -/
inductive kopsik_api_result where
  | KOPSIK_API_SUCCESS
  | KOPSIK_API_FAILURE
  deriving DecidableEq, Repr

export kopsik_api_result (KOPSIK_API_SUCCESS KOPSIK_API_FAILURE)

/-- Modelled from the spec: `workspace.h` is not among the sources (spec section 3). -/
structure Workspace where
  id : Nat
  name : String
  premium : Bool
  admin : Bool
  only_admins_may_create_projects : Bool
  deriving DecidableEq, Repr

/-- Modelled from the spec: `client.h` is not among the sources (spec section 3). -/
structure Client where
  id : Nat
  guid : String
  wid : Nat
  name : String
  deriving DecidableEq, Repr

/-- Modelled from the spec: `project.h` is not among the sources. Attributes of spec
section 3 plus the two soft-deletion marks of invariant 5; `ID`, `CID`, `ColorCode`,
`Active` and `Billable` are the accessors the facade calls. -/
structure Project where
  id : Nat
  guid : String
  wid : Nat
  cid : Nat
  name : String
  color_code : String
  active : Bool
  billable : Bool
  server_deleted_at : Nat
  deleted_at : Nat
  deriving DecidableEq, Repr

/-- Modelled from the spec: `task.h` is not among the sources. Attributes of spec
section 3 plus the two soft-deletion marks of invariant 5. -/
structure Task where
  id : Nat
  wid : Nat
  pid : Nat
  name : String
  active : Bool
  server_deleted_at : Nat
  deleted_at : Nat
  deriving DecidableEq, Repr

/-- Modelled from the spec: `tag.h` is not among the sources (spec section 3). -/
structure Tag where
  id : Nat
  guid : String
  wid : Nat
  name : String
  deriving DecidableEq, Repr

/-- Modelled from the spec: `time_entry.h` is not among the sources. Attributes of spec
section 3; `dirty` is the flag behind the accessor `Dirty()` that the facade tests
(as `dirty_` in user.h). -/
structure TimeEntry where
  local_id : Nat
  id : Nat
  guid : String
  wid : Nat
  pid : Nat
  tid : Nat
  description : String
  tags : String
  billable : Bool
  start : Nat
  stop : Nat
  duration_in_seconds : Int
  created_with : String
  ui_modified_at : Nat
  server_deleted_at : Nat
  deleted_at : Nat
  dirty : Bool
  deriving DecidableEq, Repr

/-- Accessor `DeletedAt()`: the local deletion mark. -/
def TimeEntry.DeletedAt (te : TimeEntry) : Nat := te.deleted_at

/-- Modelled from the spec: `IsMarkedAsDeletedOnServer()` holds when
`server_deleted_at > 0` (invariant 5). -/
def TimeEntry.IsMarkedAsDeletedOnServer (te : TimeEntry) : Bool :=
  decide (0 < te.server_deleted_at)

/-- Modelled from the spec: `IsMarkedAsDeletedOnServer()` of a task. -/
def Task.IsMarkedAsDeletedOnServer (t : Task) : Bool :=
  decide (0 < t.server_deleted_at)

/-- Modelled from the spec: `IsMarkedAsDeletedOnServer()` of a project. -/
def Project.IsMarkedAsDeletedOnServer (p : Project) : Bool :=
  decide (0 < p.server_deleted_at)

/-- Soft-deleted time entry (invariant 5): deleted on the server or locally. -/
def TimeEntry.softDeleted (te : TimeEntry) : Prop :=
  0 < te.server_deleted_at ∨ 0 < te.deleted_at

/-- Soft-deleted task (invariant 5). -/
def Task.softDeleted (t : Task) : Prop :=
  0 < t.server_deleted_at ∨ 0 < t.deleted_at

/-- Soft-deleted project (invariant 5). -/
def Project.softDeleted (p : Project) : Prop :=
  0 < p.server_deleted_at ∨ 0 < p.deleted_at

instance (te : TimeEntry) : Decidable te.softDeleted := by
  unfold TimeEntry.softDeleted; infer_instance

instance (t : Task) : Decidable t.softDeleted := by
  unfold Task.softDeleted; infer_instance

instance (p : Project) : Decidable p.softDeleted := by
  unfold Project.softDeleted; infer_instance

/-- Modelled from the spec: `related_data.h` is not among the sources; the aggregate
of the entity vectors that the facade iterates (`related.TimeEntries`, ...). -/
structure RelatedData where
  Workspaces : List Workspace := []
  Clients : List Client := []
  Projects : List Project := []
  Tasks : List Task := []
  Tags : List Tag := []
  TimeEntries : List TimeEntry := []
  deriving DecidableEq, Repr

/-- The class `kopsik::User` of user.h: its public and private data members.
`store_start_and_stop_time_` is `none` while it has not been assigned. -/
structure User where
  BasicAuthUsername : String
  BasicAuthPassword : String
  related : RelatedData
  local_id_ : Int
  id_ : Nat
  api_token_ : String
  default_wid_ : Nat
  since_ : Nat
  dirty_ : Bool
  fullname_ : String
  app_name_ : String
  app_version_ : String
  email_ : String
  record_timeline_ : Bool
  store_start_and_stop_time_ : Option Bool
  deriving DecidableEq, Repr

/-- The constructor `User(app_name, app_version)` of user.h (lines 27-41): the member
initialiser list; `store_start_and_stop_time_` is not in the list. -/
def User.new (app_name app_version : String) : User where
  BasicAuthUsername := ""
  BasicAuthPassword := ""
  related := {}
  local_id_ := 0
  id_ := 0
  api_token_ := ""
  default_wid_ := 0
  since_ := 0
  dirty_ := false
  fullname_ := ""
  app_name_ := app_name
  app_version_ := app_version
  email_ := ""
  record_timeline_ := false
  store_start_and_stop_time_ := none

/-- Accessor `ID()` of user.h. -/
def User.ID (u : User) : Nat := u.id_

/-- Accessor `APIToken()` of user.h. -/
def User.APIToken (u : User) : String := u.api_token_

/-- A `TimeEntry *` handed out by the user object: the position of the pointee in
`related.TimeEntries`; `none`, or a position outside of the vector, is the null
pointer. -/
abbrev TimeEntryPtr := Option Nat

/-- Dereference of a `TimeEntry *`. -/
def User.deref (u : User) (p : TimeEntryPtr) : Option TimeEntry :=
  p.bind fun i => u.related.TimeEntries[i]?

/-- Assignment through a `TimeEntry *`: `f` is applied to the pointee. -/
def User.update (u : User) (p : TimeEntryPtr) (f : TimeEntry → TimeEntry) : User :=
  match p with
  | none => u
  | some i =>
    { u with related := { u.related with TimeEntries := u.related.TimeEntries.modify f i } }

/-- Position of the first time entry with the given GUID. -/
def indexOfGUID (GUID : String) : List TimeEntry → Option Nat
  | [] => none
  | te :: rest =>
    if te.guid = GUID then some 0 else (indexOfGUID GUID rest).map (· + 1)

/-- Modelled from the spec: `User::GetTimeEntryByGUID` is declared in user.h, its body
is not among the sources; lookup of the time entry by GUID (spec section 4.3). -/
def User.GetTimeEntryByGUID (u : User) (GUID : String) : TimeEntryPtr :=
  indexOfGUID GUID u.related.TimeEntries

/-- Modelled from the spec: `User::GetTaskByID`, lookup by remote id (section 4.3). -/
def User.GetTaskByID (u : User) (id : Nat) : Option Task :=
  u.related.Tasks.find? fun t => t.id == id

/-- Modelled from the spec: `User::GetProjectByID`, lookup by remote id (section 4.3). -/
def User.GetProjectByID (u : User) (id : Nat) : Option Project :=
  u.related.Projects.find? fun p => p.id == id

/-- Modelled from the spec: `User::GetClientByID`, lookup by remote id (section 4.3). -/
def User.GetClientByID (u : User) (id : Nat) : Option Client :=
  u.related.Clients.find? fun c => c.id == id

/-- Modelled from the spec: `User::SortTimeEntriesByStart` is declared in user.h, its
body is not among the sources; a stable sort, descending by start (section 4.3). -/
def User.SortTimeEntriesByStart (u : User) : User :=
  { u with related := { u.related with
      TimeEntries := u.related.TimeEntries.insertionSort fun a b => b.start ≤ a.start } }

/-! ## Context, view items and the functions the facade calls -/

/-- Modelled from the spec: `context.h` is not among the sources; the members of
`Context` that the facade reads and writes. `DB` is the state of the store behind
`ctx->db`, `websocket_url` the URL the websocket client was configured with. -/
structure Context (DB : Type) where
  user : Option User
  db : DB
  app_name : String
  app_version : String
  api_url : String
  timeline_upload_url : String
  websocket_url : String
  update_channel : String
  feedback_subject : String
  feedback_details : String

/-- The change record `kopsik::ModelChange(model_type, change_type, model_id, GUID)`. -/
structure ModelChange where
  model_type : String
  change_type : String
  model_id : Nat
  GUID : String
  deriving DecidableEq, Repr

/-- Observable steps of a facade call, in the order in which they happen: taking and
releasing `ctx->mutex` (a `Poco::Mutex::ScopedLock`), the calls of `ctx->Save()`
(with the error it returned) and `ctx->PartialSync()`, the invocation of the change
callback, the HTTPS request of `User::Login`, and the accesses to the store. -/
inductive Event where
  | mutex_lock
  | mutex_unlock
  | Save (err : error)
  | PartialSync
  | change_callback (result : kopsik_api_result) (errmsg : Option String)
      (change : ModelChange)
  | Login
  | LoadUserByID
  | SetCurrentAPIToken
  deriving DecidableEq, Repr

/-- The struct `KopsikTimeEntryViewItem` with the fields that
`kopsik_time_entry_view_item_init` and `kopsik_time_entry_view_item_clear` name;
a `char *` is `none` when null. -/
structure KopsikTimeEntryViewItem where
  DurationInSeconds : Int := 0
  Description : Option String := none
  ProjectAndTaskLabel : Option String := none
  PID : Nat := 0
  TID : Nat := 0
  Duration : Option String := none
  Color : Option String := none
  GUID : Option String := none
  Billable : Int := 0
  Tags : Option String := none
  Started : Nat := 0
  Ended : Nat := 0
  UpdatedAt : Nat := 0
  DateHeader : Option String := none
  DurOnly : Int := 0
  DateDuration : Option String := none
  deriving DecidableEq, Repr

/-- Embedding of `kopsik_time_entry_view_item_init` (kopsik_api.cc, lines 1110-1128). -/
def kopsik_time_entry_view_item_init : KopsikTimeEntryViewItem := {}

/-- The constants `KOPSIK_AUTOCOMPLETE_TE`, `_TASK`, `_PROJECT`. -/
inductive AutocompleteType where
  | KOPSIK_AUTOCOMPLETE_TE
  | KOPSIK_AUTOCOMPLETE_TASK
  | KOPSIK_AUTOCOMPLETE_PROJECT
  deriving DecidableEq, Repr

export AutocompleteType (KOPSIK_AUTOCOMPLETE_TE KOPSIK_AUTOCOMPLETE_TASK
  KOPSIK_AUTOCOMPLETE_PROJECT)

/-- Modelled from the spec: `KopsikAutocompleteItem` and `autocomplete_item_init` are
declared in headers that are not among the sources; the fields are those that
`kopsik_autocomplete_items` assigns, a fresh item holds null strings and zero ids.
`Type_` is the member `Type`, `none` until it is assigned. -/
structure KopsikAutocompleteItem where
  Text : Option String := none
  Description : Option String := none
  ProjectAndTaskLabel : Option String := none
  ProjectColor : Option String := none
  ProjectID : Nat := 0
  TaskID : Nat := 0
  Type_ : Option AutocompleteType := none
  deriving DecidableEq, Repr

/-- See `KopsikAutocompleteItem`: the fresh item. -/
def autocomplete_item_init : KopsikAutocompleteItem := {}

/-- The functions of the repository that the facade calls and whose bodies are not
among the sources (`context.h`, `user.cc`, `database.h`, `time_entry.h`,
`formatter.h`, `kopsik_api_private.h`), and the text of the Poco exception behind a
failed `poco_assert`. They are parameters of the embedding. Methods of `User` that
change the user return the changed user. -/
structure Externals (DB : Type) where
  /-- `Context::Save()`. -/
  Save : Context DB → error × Context DB
  /-- `User::Login(https_client, email, password)`, the client built on `api_url`. -/
  Login : User → String → String → String → error × User
  /-- `User::LoadFromJSONString(json, with_related_data, full_sync)`. -/
  LoadFromJSONString : User → String → Bool → Bool → User
  /-- `Database::LoadUserByID(id, user, with_related_data)`. -/
  LoadUserByID : DB → Nat → User → Bool → error × User
  /-- `Database::SetCurrentAPIToken(token)`. -/
  SetCurrentAPIToken : DB → String → error × DB
  /-- `User::Start(description, duration, task_id, project_id)`. -/
  Start : User → String → String → Nat → Nat → TimeEntryPtr × User
  /-- `User::Continue(GUID)`. -/
  Continue : User → String → TimeEntryPtr × User
  /-- `User::Latest()`. -/
  Latest : User → TimeEntryPtr
  /-- `User::Stop()`. -/
  Stop : User → List Nat × User
  /-- `User::StopAt(at)`. -/
  StopAt : User → Nat → TimeEntryPtr × User
  /-- `User::SplitAt(at)`. -/
  SplitAt : User → Nat → TimeEntryPtr × User
  /-- `User::JoinTaskName(task, project, client)`. -/
  JoinTaskName : Option Task → Option Project → Option Client → String
  /-- `TimeEntry::SetDeletedAt`. -/
  SetDeletedAt : TimeEntry → Nat → TimeEntry
  /-- `TimeEntry::SetUIModifiedAt`. -/
  SetUIModifiedAt : TimeEntry → Nat → TimeEntry
  /-- `TimeEntry::SetDurationString`. -/
  SetDurationString : TimeEntry → String → TimeEntry
  /-- `TimeEntry::SetStartString`. -/
  SetStartString : TimeEntry → String → TimeEntry
  /-- `TimeEntry::SetStopString`. -/
  SetStopString : TimeEntry → String → TimeEntry
  /-- `TimeEntry::SetTags`. -/
  SetTags : TimeEntry → String → TimeEntry
  /-- `TimeEntry::SetDescription`. -/
  SetDescription : TimeEntry → String → TimeEntry
  /-- `TimeEntry::SetBillable`. -/
  SetBillable : TimeEntry → Bool → TimeEntry
  /-- `TimeEntry::SetTID`. -/
  SetTID : TimeEntry → Nat → TimeEntry
  /-- `TimeEntry::SetPID`. -/
  SetPID : TimeEntry → Nat → TimeEntry
  /-- `TimeEntry::NeedsPush()`. -/
  NeedsPush : TimeEntry → Bool
  /-- `TimeEntry::DateHeaderString()`. -/
  DateHeaderString : TimeEntry → String
  /-- `Formatter::FormatDurationInSecondsHHMM(duration, type)`. -/
  FormatDurationInSecondsHHMM : Int → Int → String
  /-- `time_entry_to_view_item(te, user, view_item, date_duration)`: the filled item. -/
  time_entry_to_view_item : Option TimeEntry → Option User → String →
    KopsikTimeEntryViewItem
  /-- `compareAutocompleteItems`, the comparator handed to `std::sort`. -/
  compareAutocompleteItems : KopsikAutocompleteItem → KopsikAutocompleteItem → Bool
  /-- `displayText()` of the exception thrown by a failed `poco_assert(cond)`. -/
  assertionText : String → String

/-- What a facade call that works on time entries hands back through its out
parameters; `none` when the call did not write the parameter. -/
structure Outputs where
  view_item : Option KopsikTimeEntryViewItem := none
  was_found : Option Int := none
  deriving DecidableEq, Repr

/-- The observable result of a facade call: the returned value, the message copied
into the error buffer (`none`: buffer untouched), the context after the call, the
trace of events and the out parameters. -/
structure Outcome (DB : Type) (α : Type) where
  result : kopsik_api_result
  errmsg : Option String
  ctx : Context DB
  trace : List Event
  out : α

/-- `std::sort(first, last, comp)`: the range ordered by the comparator. -/
def std_sort {α : Type} (comp : α → α → Bool) (l : List α) : List α :=
  l.insertionSort fun a b => comp b a = false

/-- Two's-complement wrap of an integer into `Poco::Int64`. -/
def wrapInt64 (x : Int) : Int := (x + 2 ^ 63) % 2 ^ 64 - 2 ^ 63

/-- Two's-complement wrap of an integer into a 32-bit `int`. -/
def wrapInt32 (x : Int) : Int := (x + 2 ^ 31) % 2 ^ 32 - 2 ^ 31

/-! ## Session calls -/

section Facade

variable {DB : Type}

/-- A return of `KOPSIK_API_FAILURE` after `strncpy(errmsg, message, errlen)`. -/
def failure {α : Type} (ctx : Context DB) (message : String) (trace : List Event)
    (out : α) : Outcome DB α :=
  { result := KOPSIK_API_FAILURE, errmsg := some message, ctx := ctx, trace := trace,
    out := out }

/-- A return of `KOPSIK_API_SUCCESS`; the error buffer is left alone. -/
def success {α : Type} (ctx : Context DB) (trace : List Event) (out : α) :
    Outcome DB α :=
  { result := KOPSIK_API_SUCCESS, errmsg := none, ctx := ctx, trace := trace, out := out }

/-- The pointee of `te` in the user of the context. -/
def Context.deref (ctx : Context DB) (te : TimeEntryPtr) : Option TimeEntry :=
  ctx.user.bind fun u => u.deref te

/-- The test `te && te->NeedsPush()` followed by `ctx->PartialSync()`. -/
def syncIfNeedsPush (ext : Externals DB) (ctx : Context DB) (te : TimeEntryPtr) :
    List Event :=
  match ctx.deref te with
  | none => []
  | some e => if ext.NeedsPush e then [Event.PartialSync] else []

/-- Embedding of `kopsik_login` (kopsik_api.cc, lines 569-652). -/
def kopsik_login (ext : Externals DB) (ctx : Context DB) (in_email in_password : String) :
    Outcome DB Unit :=
  let email := in_email
  let password := in_password
  if email = "" then failure ctx "Empty email" [] ()
  else if password = "" then failure ctx "Empty password" [] ()
  else
    let user := User.new ctx.app_name ctx.app_version
    let r := ext.Login user ctx.api_url email password
    let err := r.1
    let user := r.2
    if err ≠ noError then failure ctx err [.Login] ()
    else if user.ID = 0 then
      failure ctx (ext.assertionText "user->ID() > 0") [.Login] ()
    else
      let r := ext.LoadUserByID ctx.db user.ID user true
      let err := r.1
      let user := r.2
      if err ≠ noError then failure ctx err [.Login, .LoadUserByID] ()
      else
        let r := ext.SetCurrentAPIToken ctx.db user.APIToken
        let err := r.1
        let ctx := { ctx with db := r.2 }
        if err ≠ noError then
          failure ctx err
            [.Login, .LoadUserByID, .mutex_lock, .SetCurrentAPIToken, .mutex_unlock] ()
        else
          let ctx := { ctx with user := some user }
          let r := ext.Save ctx
          let err := r.1
          let ctx := r.2
          if err ≠ noError then
            failure ctx err
              [.Login, .LoadUserByID, .mutex_lock, .SetCurrentAPIToken, .Save err,
                .mutex_unlock] ()
          else
            success ctx
              [.Login, .LoadUserByID, .mutex_lock, .SetCurrentAPIToken, .Save err,
                .mutex_unlock] ()

/-- Embedding of `kopsik_set_logged_in_user` (kopsik_api.cc, lines 516-567). -/
def kopsik_set_logged_in_user (ext : Externals DB) (ctx : Context DB) (json : String) :
    Outcome DB Unit :=
  let user := User.new ctx.app_name ctx.app_version
  let user := ext.LoadFromJSONString user json true true
  let r := ext.SetCurrentAPIToken ctx.db user.APIToken
  let err := r.1
  let ctx := { ctx with db := r.2 }
  if err ≠ noError then
    failure ctx err [.mutex_lock, .SetCurrentAPIToken, .mutex_unlock] ()
  else
    let ctx := { ctx with user := some user }
    let r := ext.Save ctx
    let err := r.1
    let ctx := r.2
    if err ≠ noError then
      failure ctx err [.mutex_lock, .SetCurrentAPIToken, .Save err, .mutex_unlock] ()
    else
      success ctx [.mutex_lock, .SetCurrentAPIToken, .Save err, .mutex_unlock] ()

/-! ## Time tracking calls -/

/-- Embedding of `kopsik_start` (kopsik_api.cc, lines 1191-1250); a null
`description` or `duration` is `none`. -/
def kopsik_start (ext : Externals DB) (ctx : Context DB)
    (description duration : Option String) (task_id project_id : Nat) :
    Outcome DB Outputs :=
  match ctx.user with
  | none => failure ctx "Please login to start time tracking" [] {}
  | some user =>
    let desc := description.getD ""
    let dur := duration.getD ""
    let r := ext.Start user desc dur task_id project_id
    let te := r.1
    let r := ext.Save { ctx with user := some r.2 }
    let err := r.1
    let ctx := r.2
    if err ≠ noError then failure ctx err [.mutex_lock, .Save err, .mutex_unlock] {}
    else
      let view_item := ext.time_entry_to_view_item (ctx.deref te) ctx.user ""
      success ctx ([.mutex_lock, .Save err] ++ syncIfNeedsPush ext ctx te ++ [.mutex_unlock])
        { view_item := some view_item }

/-- Embedding of `kopsik_time_entry_view_item_by_guid` (kopsik_api.cc, lines
1252-1301). -/
def kopsik_time_entry_view_item_by_guid (ext : Externals DB) (ctx : Context DB)
    (guid : String) : Outcome DB Outputs :=
  let GUID := guid
  if GUID = "" then failure ctx "Missing GUID" [] {}
  else
    match ctx.user with
    | none => failure ctx "Please login to load time entry data" [] {}
    | some user =>
      match user.deref (user.GetTimeEntryByGUID GUID) with
      | some te =>
        success ctx []
          { was_found := some 1,
            view_item := some (ext.time_entry_to_view_item (some te) ctx.user "") }
      | none => success ctx [] { was_found := some 0 }

/-- Embedding of `kopsik_continue` (kopsik_api.cc, lines 1303-1365). When
`User::Continue` returns null the function returns `KOPSIK_API_FAILURE` after having
sent its message to the logger only. -/
def kopsik_continue (ext : Externals DB) (ctx : Context DB) (guid : String) :
    Outcome DB Outputs :=
  let GUID := guid
  if GUID = "" then failure ctx "Missing GUID" [] {}
  else
    match ctx.user with
    | none => failure ctx "Please login to continue time tracking" [] {}
    | some user =>
      let r := ext.Continue user GUID
      let te := r.1
      let ctx := { ctx with user := some r.2 }
      match r.2.deref te with
      | none =>
        { result := KOPSIK_API_FAILURE, errmsg := none, ctx := ctx,
          trace := [.mutex_lock, .mutex_unlock], out := {} }
      | some _ =>
        let r := ext.Save ctx
        let err := r.1
        let ctx := r.2
        if err ≠ noError then failure ctx err [.mutex_lock, .Save err, .mutex_unlock] {}
        else
          let view_item := ext.time_entry_to_view_item (ctx.deref te) ctx.user ""
          success ctx
            ([.mutex_lock, .Save err] ++ syncIfNeedsPush ext ctx te ++ [.mutex_unlock])
            { view_item := some view_item }

/-- Embedding of `kopsik_continue_latest` (kopsik_api.cc, lines 1367-1429). When
`ctx->Save()` returns an error the function copies it into the error buffer and
returns `KOPSIK_API_SUCCESS` (line 1410). -/
def kopsik_continue_latest (ext : Externals DB) (ctx : Context DB) : Outcome DB Outputs :=
  match ctx.user with
  | none => failure ctx "Please login to continue tracking last time entry" [] {}
  | some user =>
    let user := user.SortTimeEntriesByStart
    match user.deref (ext.Latest user) with
    | none =>
      success { ctx with user := some user } [.mutex_lock, .mutex_unlock]
        { was_found := some 0 }
    | some latest =>
      let r := ext.Continue user latest.guid
      let te := r.1
      let ctx := { ctx with user := some r.2 }
      match r.2.deref te with
      | none =>
        { result := KOPSIK_API_FAILURE, errmsg := none, ctx := ctx,
          trace := [.mutex_lock, .mutex_unlock], out := {} }
      | some _ =>
        let r := ext.Save ctx
        let err := r.1
        let ctx := r.2
        if err ≠ noError then
          { result := KOPSIK_API_SUCCESS, errmsg := some err, ctx := ctx,
            trace := [.mutex_lock, .Save err, .mutex_unlock], out := {} }
        else
          let view_item := ext.time_entry_to_view_item (ctx.deref te) ctx.user ""
          success ctx
            ([.mutex_lock, .Save err] ++ syncIfNeedsPush ext ctx te ++ [.mutex_unlock])
            { was_found := some 1, view_item := some view_item }

/-- Embedding of `kopsik_delete_time_entry` (kopsik_api.cc, lines 1431-1490);
`now1` and `now2` are the values of the two calls of `time(0)`. -/
def kopsik_delete_time_entry (ext : Externals DB) (ctx : Context DB) (guid : String)
    (now1 now2 : Nat) : Outcome DB Outputs :=
  let GUID := guid
  if GUID = "" then failure ctx "Missing GUID" [] {}
  else
    match ctx.user with
    | none => failure ctx "Please login to delete time entry" [] {}
    | some user =>
      let te := user.GetTimeEntryByGUID GUID
      match user.deref te with
      | none => failure ctx (ext.assertionText "te") [.mutex_lock, .mutex_unlock] {}
      | some _ =>
        let user := user.update te fun e => ext.SetDeletedAt e now1
        let user := user.update te fun e => ext.SetUIModifiedAt e now2
        let mc : ModelChange :=
          { model_type := "time_entry", change_type := "delete",
            model_id := ((user.deref te).map (·.id)).getD 0,
            GUID := ((user.deref te).map (·.guid)).getD "" }
        let r := ext.Save { ctx with user := some user }
        let err := r.1
        let ctx := r.2
        if err ≠ noError then
          failure ctx err
            [.mutex_lock, .change_callback KOPSIK_API_SUCCESS none mc, .Save err,
              .mutex_unlock] {}
        else
          success ctx
            [.mutex_lock, .change_callback KOPSIK_API_SUCCESS none mc, .Save err,
              .PartialSync, .mutex_unlock] {}

/-- The body that the seven `kopsik_set_time_entry_*` functions share: the GUID
check, the login check with the message of the function, the lookup with
`poco_assert(te)`, the typed setters `set` of the function, `SetUIModifiedAt(time(0))`
when the entry is dirty, `ctx->Save()` and the partial sync. -/
def set_time_entry (ext : Externals DB) (ctx : Context DB) (guid : String) (now : Nat)
    (login_message : String) (set : User → TimeEntry → TimeEntry) : Outcome DB Outputs :=
  let GUID := guid
  if GUID = "" then failure ctx "Missing GUID" [] {}
  else
    match ctx.user with
    | none => failure ctx login_message [] {}
    | some user =>
      let te := user.GetTimeEntryByGUID GUID
      match user.deref te with
      | none => failure ctx (ext.assertionText "te") [.mutex_lock, .mutex_unlock] {}
      | some _ =>
        let user := user.update te (set user)
        let user :=
          if ((user.deref te).map (·.dirty)).getD false then
            user.update te fun e => ext.SetUIModifiedAt e now
          else user
        let r := ext.Save { ctx with user := some user }
        let err := r.1
        let ctx := r.2
        if err ≠ noError then failure ctx err [.mutex_lock, .Save err, .mutex_unlock] {}
        else
          success ctx
            ([.mutex_lock, .Save err] ++ syncIfNeedsPush ext ctx te ++ [.mutex_unlock]) {}

/-- Embedding of `kopsik_set_time_entry_duration` (kopsik_api.cc, lines 1492-1553). -/
def kopsik_set_time_entry_duration (ext : Externals DB) (ctx : Context DB)
    (guid value : String) (now : Nat) : Outcome DB Outputs :=
  set_time_entry ext ctx guid now "Please login to set time entry duration"
    fun _ te => ext.SetDurationString te value

/-- Embedding of `kopsik_set_time_entry_project` (kopsik_api.cc, lines 1555-1620). -/
def kopsik_set_time_entry_project (ext : Externals DB) (ctx : Context DB)
    (guid : String) (task_id project_id : Nat) (now : Nat) : Outcome DB Outputs :=
  set_time_entry ext ctx guid now "Please login to select project"
    fun user te =>
      let te :=
        if project_id ≠ 0 then
          match user.GetProjectByID project_id with
          | some p => ext.SetBillable te p.billable
          | none => te
        else te
      let te := ext.SetTID te task_id
      ext.SetPID te project_id

/-- Embedding of `kopsik_set_time_entry_start_iso_8601` (kopsik_api.cc, lines
1622-1683). -/
def kopsik_set_time_entry_start_iso_8601 (ext : Externals DB) (ctx : Context DB)
    (guid value : String) (now : Nat) : Outcome DB Outputs :=
  set_time_entry ext ctx guid now "Please login to change time entry start time"
    fun _ te => ext.SetStartString te value

/-- Embedding of `kopsik_set_time_entry_end_iso_8601` (kopsik_api.cc, lines
1685-1745). -/
def kopsik_set_time_entry_end_iso_8601 (ext : Externals DB) (ctx : Context DB)
    (guid value : String) (now : Nat) : Outcome DB Outputs :=
  set_time_entry ext ctx guid now "Please login to change time entry end time"
    fun _ te => ext.SetStopString te value

/-- Embedding of `kopsik_set_time_entry_tags` (kopsik_api.cc, lines 1747-1807). -/
def kopsik_set_time_entry_tags (ext : Externals DB) (ctx : Context DB)
    (guid value : String) (now : Nat) : Outcome DB Outputs :=
  set_time_entry ext ctx guid now "Please login to change time entry tags"
    fun _ te => ext.SetTags te value

/-- Embedding of `kopsik_set_time_entry_billable` (kopsik_api.cc, lines 1809-1873). -/
def kopsik_set_time_entry_billable (ext : Externals DB) (ctx : Context DB)
    (guid : String) (value : Int) (now : Nat) : Outcome DB Outputs :=
  set_time_entry ext ctx guid now "Please login to change time entry billable state"
    fun _ te => if value ≠ 0 then ext.SetBillable te true else ext.SetBillable te false

/-- Embedding of `kopsik_set_time_entry_description` (kopsik_api.cc, lines
1875-1935). -/
def kopsik_set_time_entry_description (ext : Externals DB) (ctx : Context DB)
    (guid value : String) (now : Nat) : Outcome DB Outputs :=
  set_time_entry ext ctx guid now "Please login to change time entry description"
    fun _ te => ext.SetDescription te value

/-- Embedding of `kopsik_stop` (kopsik_api.cc, lines 1937-1991). -/
def kopsik_stop (ext : Externals DB) (ctx : Context DB) : Outcome DB Outputs :=
  match ctx.user with
  | none => failure ctx "Please login to stop time tracking" [] {}
  | some user =>
    let r := ext.Stop user
    let stopped := r.1
    let ctx := { ctx with user := some r.2 }
    match stopped with
    | [] => success ctx [.mutex_lock, .mutex_unlock] { was_found := some 0 }
    | first :: _ =>
      let r := ext.Save ctx
      let err := r.1
      let ctx := r.2
      if err ≠ noError then
        failure ctx err [.mutex_lock, .Save err, .mutex_unlock] { was_found := some 1 }
      else
        let te : TimeEntryPtr := some first
        let view_item := ext.time_entry_to_view_item (ctx.deref te) ctx.user ""
        success ctx
          ([.mutex_lock, .Save err] ++ syncIfNeedsPush ext ctx te ++ [.mutex_unlock])
          { was_found := some 1, view_item := some view_item }

/-- Embedding of `kopsik_split_running_time_entry_at` (kopsik_api.cc, lines
1993-2046), `poco_assert(at)` included. -/
def kopsik_split_running_time_entry_at (ext : Externals DB) (ctx : Context DB)
    (at_ : Nat) : Outcome DB Outputs :=
  if at_ = 0 then failure ctx (ext.assertionText "at") [] {}
  else
    match ctx.user with
    | none => failure ctx "Please login to split time entry" [] {}
    | some user =>
      let r := ext.SplitAt user at_
      let running := r.1
      let ctx := { ctx with user := some r.2 }
      let out : Outputs :=
        match ctx.deref running with
        | some te =>
          { was_found := some 1,
            view_item := some (ext.time_entry_to_view_item (some te) ctx.user "") }
        | none => { was_found := some 0 }
      let r := ext.Save ctx
      let err := r.1
      let ctx := r.2
      if err ≠ noError then failure ctx err [.mutex_lock, .Save err, .mutex_unlock] out
      else
        success ctx
          ([.mutex_lock, .Save err] ++ syncIfNeedsPush ext ctx running ++ [.mutex_unlock])
          out

/-- Embedding of `kopsik_stop_running_time_entry_at` (kopsik_api.cc, lines
2048-2101), `poco_assert(at)` included. -/
def kopsik_stop_running_time_entry_at (ext : Externals DB) (ctx : Context DB)
    (at_ : Nat) : Outcome DB Outputs :=
  if at_ = 0 then failure ctx (ext.assertionText "at") [] {}
  else
    match ctx.user with
    | none => failure ctx "Please login to stop running time entry" [] {}
    | some user =>
      let r := ext.StopAt user at_
      let stopped := r.1
      let ctx := { ctx with user := some r.2 }
      let out : Outputs :=
        match ctx.deref stopped with
        | some te =>
          { was_found := some 1,
            view_item := some (ext.time_entry_to_view_item (some te) ctx.user "") }
        | none => { was_found := some 0 }
      let r := ext.Save ctx
      let err := r.1
      let ctx := r.2
      if err ≠ noError then failure ctx err [.mutex_lock, .Save err, .mutex_unlock] out
      else
        success ctx
          ([.mutex_lock, .Save err] ++ syncIfNeedsPush ext ctx stopped ++ [.mutex_unlock])
          out

/-! ## Queries -/

/-- One pass of the time entry loop of `kopsik_autocomplete_items` (lines 877-935):
the item pushed for `te`, `none` when the pass ends in `continue`. -/
def autocomplete_time_entry_item (ext : Externals DB) (user : User) (te : TimeEntry) :
    Option KopsikAutocompleteItem :=
  if te.DeletedAt ≠ 0 ∨ te.IsMarkedAsDeletedOnServer = true ∨ te.description = "" then none
  else
    let t : Option Task := if te.tid ≠ 0 then user.GetTaskByID te.tid else none
    let p : Option Project :=
      match t with
      | some task =>
        if task.pid ≠ 0 then user.GetProjectByID task.pid
        else if te.pid ≠ 0 then user.GetProjectByID te.pid else none
      | none => if te.pid ≠ 0 then user.GetProjectByID te.pid else none
    if (p.map fun x => !x.active).getD false then none
    else
      let c : Option Client :=
        match p with
        | some project => if project.cid ≠ 0 then user.GetClientByID project.cid else none
        | none => none
      let project_label := ext.JoinTaskName t p c
      let description := te.description
      let text :=
        if project_label ≠ "" then te.description ++ " - " ++ project_label
        else te.description
      if text = "" then none
      else
        some
          { autocomplete_item_init with
            Description := some description
            Text := some text
            ProjectAndTaskLabel := some project_label
            ProjectColor := p.map (·.color_code)
            ProjectID := (p.map (·.id)).getD 0
            TaskID := (t.map (·.id)).getD 0
            Type_ := some KOPSIK_AUTOCOMPLETE_TE }

/-- One pass of the task loop of `kopsik_autocomplete_items` (lines 941-979). -/
def autocomplete_task_item (ext : Externals DB) (user : User) (t : Task) :
    Option KopsikAutocompleteItem :=
  if t.IsMarkedAsDeletedOnServer = true then none
  else
    let p : Option Project := if t.pid ≠ 0 then user.GetProjectByID t.pid else none
    if (p.map fun x => !x.active).getD false then none
    else
      let c : Option Client :=
        match p with
        | some project => if project.cid ≠ 0 then user.GetClientByID project.cid else none
        | none => none
      let text := ext.JoinTaskName (some t) p c
      if text = "" then none
      else
        some
          { autocomplete_item_init with
            Text := some text
            ProjectAndTaskLabel := some text
            TaskID := t.id
            ProjectColor := p.map (·.color_code)
            ProjectID := (p.map (·.id)).getD 0
            Type_ := some KOPSIK_AUTOCOMPLETE_TASK }

/-- One pass of the project loop of `kopsik_autocomplete_items` (lines 985-1011). -/
def autocomplete_project_item (ext : Externals DB) (user : User) (p : Project) :
    Option KopsikAutocompleteItem :=
  if p.active = false then none
  else
    let c : Option Client := if p.cid ≠ 0 then user.GetClientByID p.cid else none
    let text := ext.JoinTaskName none (some p) c
    if text = "" then none
    else
      some
        { autocomplete_item_init with
          Text := some text
          ProjectAndTaskLabel := some text
          ProjectID := p.id
          ProjectColor := some p.color_code
          Type_ := some KOPSIK_AUTOCOMPLETE_PROJECT }

/-- The vector `autocomplete_items` before it is sorted: the items of the three
loops, each loop run when its include flag is non-zero. -/
def autocomplete_items_unsorted (ext : Externals DB) (user : User)
    (include_time_entries include_tasks include_projects : Nat) :
    List KopsikAutocompleteItem :=
  (if include_time_entries ≠ 0 then
      user.related.TimeEntries.filterMap (autocomplete_time_entry_item ext user)
    else [])
  ++ (if include_tasks ≠ 0 then
      user.related.Tasks.filterMap (autocomplete_task_item ext user)
    else [])
  ++ (if include_projects ≠ 0 then
      user.related.Projects.filterMap (autocomplete_project_item ext user)
    else [])

/-- Embedding of `kopsik_autocomplete_items` (kopsik_api.cc, lines 849-1043); the out
value is the content of `list->ViewItems`, `none` when the list was not written. -/
def kopsik_autocomplete_items (ext : Externals DB) (ctx : Context DB)
    (include_time_entries include_tasks include_projects : Nat) :
    Outcome DB (Option (List KopsikAutocompleteItem)) :=
  match ctx.user with
  | none => success ctx [] none
  | some user =>
    let autocomplete_items :=
      autocomplete_items_unsorted ext user include_time_entries include_tasks
        include_projects
    success ctx [] (some (std_sort ext.compareAutocompleteItems autocomplete_items))

/-- The first loop of `kopsik_tags` (lines 1062-1072) from the state
`(unique_names, tags)`. -/
def tags_loop : List Tag → List String × List String → List String × List String
  | [], acc => acc
  | tag :: rest, (unique_names, tags) =>
    if tag.name ∈ unique_names then tags_loop rest (unique_names, tags)
    else tags_loop rest (tag.name :: unique_names, tags ++ [tag.name])

/-- The call `std::sort(tags.rbegin(), tags.rend())` with `operator<` of
`std::string`: the reversed range is put in ascending order. -/
def sort_reverse_range (tags : List String) : List String :=
  (std_sort std_string_lt tags.reverse).reverse

/-- The second loop of `kopsik_tags` (lines 1076-1085): every name becomes the new
head of the linked list; the list is read from `*first` along `Next`. -/
def tags_linked_list (tags : List String) : List String :=
  tags.foldl (fun first name => name :: first) []

/-- Embedding of `kopsik_tags` (kopsik_api.cc, lines 1047-1088). The function reads
`ctx->user->related` without a null check: with no user the result is `none`
(undefined behaviour). The out value is the list of the names of the view items. -/
def kopsik_tags (ctx : Context DB) : Option (Outcome DB (List String)) :=
  match ctx.user with
  | none => none
  | some user =>
    let tags := (tags_loop user.related.Tags ([], [])).2
    let tags := sort_reverse_range tags
    some (success ctx [] (tags_linked_list tags))

/-- The first loop of `kopsik_time_entry_view_items` (lines 2193-2210) from the state
`(visible, date_durations)`; `none` when `poco_assert(!te->GUID().empty())` fails. -/
def view_items_loop (ext : Externals DB) :
    List TimeEntry → List TimeEntry × (String → Int) →
      Option (List TimeEntry × (String → Int))
  | [], acc => some acc
  | te :: rest, (visible, date_durations) =>
    if te.guid = "" then none
    else if te.duration_in_seconds < 0 then view_items_loop ext rest (visible, date_durations)
    else if te.DeletedAt > 0 then view_items_loop ext rest (visible, date_durations)
    else
      let date_header := ext.DateHeaderString te
      let duration := wrapInt64 (date_durations date_header + te.duration_in_seconds)
      view_items_loop ext rest
        (visible ++ [te], fun key => if key = date_header then duration else date_durations key)

/-- Embedding of `kopsik_time_entry_view_items` (kopsik_api.cc, lines 2165-2247); the
out value is the content of `out_list->ViewItems`, `none` when the list was not
written. -/
def kopsik_time_entry_view_items (ext : Externals DB) (ctx : Context DB) :
    Outcome DB (Option (List KopsikTimeEntryViewItem)) :=
  match ctx.user with
  | none => success ctx [] none
  | some user =>
    let user := user.SortTimeEntriesByStart
    let ctx := { ctx with user := some user }
    match view_items_loop ext user.related.TimeEntries ([], fun _ => 0) with
    | none =>
      failure ctx (ext.assertionText "!te->GUID().empty()") [.mutex_lock, .mutex_unlock]
        none
    | some (visible, date_durations) =>
      if visible = [] then success ctx [.mutex_lock, .mutex_unlock] none
      else
        success ctx [.mutex_lock, .mutex_unlock]
          (some (visible.map fun te =>
            let duration := date_durations (ext.DateHeaderString te)
            let formatted := ext.FormatDurationInSecondsHHMM duration 2
            ext.time_entry_to_view_item (some te) (some user) formatted))

/-- The loop of `kopsik_duration_for_date_header` (lines 2273-2283) from the value
`sum` of the `int` accumulator. -/
def date_header_sum (ext : Externals DB) (date_header : String) :
    List TimeEntry → Int → Int
  | [], sum => sum
  | te :: rest, sum =>
    if 0 ≤ te.duration_in_seconds ∧ te.DeletedAt = 0
        ∧ ext.DateHeaderString te = date_header then
      date_header_sum ext date_header rest (wrapInt32 (sum + te.duration_in_seconds))
    else date_header_sum ext date_header rest sum

/-- Embedding of `kopsik_duration_for_date_header` (kopsik_api.cc, lines 2249-2297);
the out value is the string copied into `duration`. -/
def kopsik_duration_for_date_header (ext : Externals DB) (ctx : Context DB)
    (date : String) : Outcome DB (Option String) :=
  match ctx.user with
  | none => failure ctx "Please login to access time entry" [] none
  | some user =>
    let sum := date_header_sum ext date user.related.TimeEntries 0
    success ctx [] (some (ext.FormatDurationInSecondsHHMM sum 0))

end Facade

/-! ## The groups of calls of the facade -/

section Calls

variable {DB : Type}

/-- The calls of the mutation group of the public surface (spec section 6), with
their arguments. -/
inductive MutationCall where
  | start (description duration : Option String) (task_id project_id : Nat)
  | continue_ (guid : String)
  | continue_latest
  | stop
  | stop_running_time_entry_at (at_ : Nat)
  | split_running_time_entry_at (at_ : Nat)
  | delete_time_entry (guid : String) (now1 now2 : Nat)
  | set_time_entry_duration (guid value : String) (now : Nat)
  | set_time_entry_project (guid : String) (task_id project_id : Nat) (now : Nat)
  | set_time_entry_start_iso_8601 (guid value : String) (now : Nat)
  | set_time_entry_end_iso_8601 (guid value : String) (now : Nat)
  | set_time_entry_tags (guid value : String) (now : Nat)
  | set_time_entry_billable (guid : String) (value : Int) (now : Nat)
  | set_time_entry_description (guid value : String) (now : Nat)

/-- The facade function behind a call of the mutation group. -/
def MutationCall.run (ext : Externals DB) (ctx : Context DB) :
    MutationCall → Outcome DB Outputs
  | .start description duration task_id project_id =>
    kopsik_start ext ctx description duration task_id project_id
  | .continue_ guid => kopsik_continue ext ctx guid
  | .continue_latest => kopsik_continue_latest ext ctx
  | .stop => kopsik_stop ext ctx
  | .stop_running_time_entry_at at_ => kopsik_stop_running_time_entry_at ext ctx at_
  | .split_running_time_entry_at at_ => kopsik_split_running_time_entry_at ext ctx at_
  | .delete_time_entry guid now1 now2 => kopsik_delete_time_entry ext ctx guid now1 now2
  | .set_time_entry_duration guid value now =>
    kopsik_set_time_entry_duration ext ctx guid value now
  | .set_time_entry_project guid task_id project_id now =>
    kopsik_set_time_entry_project ext ctx guid task_id project_id now
  | .set_time_entry_start_iso_8601 guid value now =>
    kopsik_set_time_entry_start_iso_8601 ext ctx guid value now
  | .set_time_entry_end_iso_8601 guid value now =>
    kopsik_set_time_entry_end_iso_8601 ext ctx guid value now
  | .set_time_entry_tags guid value now => kopsik_set_time_entry_tags ext ctx guid value now
  | .set_time_entry_billable guid value now =>
    kopsik_set_time_entry_billable ext ctx guid value now
  | .set_time_entry_description guid value now =>
    kopsik_set_time_entry_description ext ctx guid value now

/-- The GUID argument of a call of the mutation group, when it takes one. -/
def MutationCall.guid : MutationCall → Option String
  | .continue_ guid => some guid
  | .delete_time_entry guid _ _ => some guid
  | .set_time_entry_duration guid _ _ => some guid
  | .set_time_entry_project guid _ _ _ => some guid
  | .set_time_entry_start_iso_8601 guid _ _ => some guid
  | .set_time_entry_end_iso_8601 guid _ _ => some guid
  | .set_time_entry_tags guid _ _ => some guid
  | .set_time_entry_billable guid _ _ => some guid
  | .set_time_entry_description guid _ _ => some guid
  | _ => none

/-- The argument `at` of a call of the mutation group, when it takes one. -/
def MutationCall.at_ : MutationCall → Option Nat
  | .stop_running_time_entry_at a => some a
  | .split_running_time_entry_at a => some a
  | _ => none

/-- The calls of the facade that take the GUID of a time entry, with their other
arguments. -/
inductive GuidCall where
  | time_entry_view_item_by_guid
  | continue_
  | delete_time_entry (now1 now2 : Nat)
  | set_time_entry_duration (value : String) (now : Nat)
  | set_time_entry_project (task_id project_id : Nat) (now : Nat)
  | set_time_entry_start_iso_8601 (value : String) (now : Nat)
  | set_time_entry_end_iso_8601 (value : String) (now : Nat)
  | set_time_entry_tags (value : String) (now : Nat)
  | set_time_entry_billable (value : Int) (now : Nat)
  | set_time_entry_description (value : String) (now : Nat)

/-- The facade function behind a GUID-taking call, applied to the GUID. -/
def GuidCall.run (ext : Externals DB) (ctx : Context DB) (guid : String) :
    GuidCall → Outcome DB Outputs
  | .time_entry_view_item_by_guid => kopsik_time_entry_view_item_by_guid ext ctx guid
  | .continue_ => kopsik_continue ext ctx guid
  | .delete_time_entry now1 now2 => kopsik_delete_time_entry ext ctx guid now1 now2
  | .set_time_entry_duration value now =>
    kopsik_set_time_entry_duration ext ctx guid value now
  | .set_time_entry_project task_id project_id now =>
    kopsik_set_time_entry_project ext ctx guid task_id project_id now
  | .set_time_entry_start_iso_8601 value now =>
    kopsik_set_time_entry_start_iso_8601 ext ctx guid value now
  | .set_time_entry_end_iso_8601 value now =>
    kopsik_set_time_entry_end_iso_8601 ext ctx guid value now
  | .set_time_entry_tags value now => kopsik_set_time_entry_tags ext ctx guid value now
  | .set_time_entry_billable value now =>
    kopsik_set_time_entry_billable ext ctx guid value now
  | .set_time_entry_description value now =>
    kopsik_set_time_entry_description ext ctx guid value now

end Calls

/-! ## A concrete environment

An instance of the externals on which the embedding can be evaluated: the store holds
the current API token and never fails, a login yields user 1, `Continue` and `Latest`
hand out the entry that was asked for, and the formatting functions are simple
stand-ins (the date header is the number of the day, a duration is shown in
minutes). -/

/-- Stand-in for `User::JoinTaskName`: the names of the parts that are present,
joined by ". " (spec section 4.3). -/
def sampleJoinTaskName (t : Option Task) (p : Option Project) (c : Option Client) : String :=
  ". ".intercalate
    ((t.map (·.name)).toList ++ (p.map (·.name)).toList ++ (c.map (·.name)).toList)

/-- A time entry with the given GUID, start and duration, all other attributes
empty. -/
def sampleTimeEntry (guid : String) (start : Nat) (duration_in_seconds : Int) : TimeEntry :=
  { local_id := 0, id := 0, guid := guid, wid := 0, pid := 0, tid := 0, description := "",
    tags := "", billable := false, start := start, stop := 0,
    duration_in_seconds := duration_in_seconds, created_with := "", ui_modified_at := 0,
    server_deleted_at := 0, deleted_at := 0, dirty := false }

/-- The concrete environment. -/
def sampleExternals : Externals String where
  Save := fun ctx => (noError, ctx)
  Login := fun user _ email _ =>
    (noError, { user with id_ := 1, api_token_ := "token", email_ := email })
  LoadFromJSONString := fun user _ _ _ => user
  LoadUserByID := fun _ _ user _ => (noError, user)
  SetCurrentAPIToken := fun _ token => (noError, token)
  Start := fun user description _ task_id project_id =>
    (some user.related.TimeEntries.length,
      { user with related := { user.related with
          TimeEntries := user.related.TimeEntries ++
            [{ sampleTimeEntry "new" 0 0 with
                description := description, tid := task_id, pid := project_id }] } })
  Continue := fun user GUID => (user.GetTimeEntryByGUID GUID, user)
  Latest := fun user => if user.related.TimeEntries = [] then none else some 0
  Stop := fun user => ([], user)
  StopAt := fun user _ => (none, user)
  SplitAt := fun user _ => (none, user)
  JoinTaskName := sampleJoinTaskName
  SetDeletedAt := fun te value => { te with deleted_at := value }
  SetUIModifiedAt := fun te value => { te with ui_modified_at := value }
  SetDurationString := fun te _ => te
  SetStartString := fun te _ => te
  SetStopString := fun te _ => te
  SetTags := fun te value =>
    if te.tags = value then te else { te with tags := value, dirty := true }
  SetDescription := fun te value =>
    if te.description = value then te else { te with description := value, dirty := true }
  SetBillable := fun te value =>
    if te.billable = value then te else { te with billable := value, dirty := true }
  SetTID := fun te value =>
    if te.tid = value then te else { te with tid := value, dirty := true }
  SetPID := fun te value =>
    if te.pid = value then te else { te with pid := value, dirty := true }
  NeedsPush := fun te => decide (0 < te.ui_modified_at ∨ te.id = 0 ∨ 0 < te.deleted_at)
  DateHeaderString := fun te => "day " ++ toString (te.start / 86400)
  FormatDurationInSecondsHHMM := fun duration _ => toString (duration / 60) ++ " min"
  time_entry_to_view_item := fun te _ date_duration =>
    match te with
    | none => {}
    | some te =>
      { DurationInSeconds := te.duration_in_seconds, Description := some te.description,
        PID := te.pid, TID := te.tid, GUID := some te.guid, Tags := some te.tags,
        Started := te.start, Ended := te.stop, UpdatedAt := te.ui_modified_at,
        DateDuration := some date_duration }
  compareAutocompleteItems := fun a b => std_string_lt (a.Text.getD "") (b.Text.getD "")
  assertionText := fun cond => "Assertion violation: " ++ cond

/-- The environment in which `ctx->Save()` fails with a store error. -/
def failingSaveExternals : Externals String :=
  { sampleExternals with Save := fun ctx => ("database is locked", ctx) }

/-- A context with the given user over the store of the concrete environment. -/
def sampleContext (user : Option User) : Context String :=
  { user := user, db := "token", app_name := "kopsik", app_version := "1.0",
    api_url := "https://www.toggl.com", timeline_upload_url := "https://timeline.toggl.com",
    websocket_url := "https://stream.toggl.com", update_channel := "stable",
    feedback_subject := "", feedback_details := "" }

/-- A logged-in user with the given time entries, projects and tags. -/
def sampleUser (time_entries : List TimeEntry) (projects : List Project)
    (tags : List Tag) : User :=
  { User.new "kopsik" "1.0" with
    id_ := 1
    api_token_ := "token"
    related := { TimeEntries := time_entries, Projects := projects, Tags := tags } }

/-- A stopped time entry of 60 seconds, not deleted. -/
def stoppedTimeEntry : TimeEntry :=
  { sampleTimeEntry "guid-1" 100 60 with id := 9, description := "write spec", stop := 160 }

/-- A stopped time entry of 60 seconds that a pull has marked as deleted on the
server (`server_deleted_at > 0`) and that carries no local deletion mark. -/
def serverDeletedTimeEntry : TimeEntry :=
  { stoppedTimeEntry with server_deleted_at := 1000 }

/-- An active project that a pull has marked as deleted on the server. -/
def serverDeletedProject : Project :=
  { id := 7, guid := "project-7", wid := 1, cid := 0, name := "Old project",
    color_code := "#ff0000", active := true, billable := false, server_deleted_at := 1000,
    deleted_at := 0 }

/-! ## Contracts of the functions that are not among the sources -/

section Contracts

variable {DB : Type}

/-- The attributes of a time entry apart from the two that the store writes: the
local id, which the store assigns, and the in-memory flag behind `Dirty()`, which
`Save` clears. Two entries with the same image agree in every other attribute. -/
def TimeEntry.attributes (te : TimeEntry) : TimeEntry :=
  { te with local_id := 0, dirty := false }

/-- Modelled from the spec: the time entries of the graph before and after a
successful `save` (sections 3 and 4.2), whose body is not among the sources. The
store assigns the local id on first insert and keeps it from then on, upserts the
dirty entities, clears the dirty flags, and deletes the entities whose deletion the
server has confirmed (`server_deleted_at > 0`). So every entry comes back in its
place with the attributes it had, and with the local id it had when that was
assigned already (`keep`), or it is gone, which only an entry deleted on the server
may be (`drop`). The flag that `save` clears is the in-memory flag behind `Dirty()`;
`ui_modified_at`, which marks the entry for the push (invariant 4), is an attribute
and stays (scenario S1: the entry is still dirty after the committed `stop`). -/
inductive SavedEntries : List TimeEntry → List TimeEntry → Prop where
  | nil : SavedEntries [] []
  | keep (a b : TimeEntry) (l l' : List TimeEntry) :
      b.attributes = a.attributes → (a.local_id ≠ 0 → b.local_id = a.local_id) →
      SavedEntries l l' → SavedEntries (a :: l) (b :: l')
  | drop (a : TimeEntry) (l l' : List TimeEntry) :
      0 < a.server_deleted_at → SavedEntries l l' → SavedEntries (a :: l) l'

/-- Modelled from the spec: the contract of a typed setter of `time_entry.h`, whose
body is not among the sources (spec section 3: entities are mutated through typed
setters, and only when the value actually changes). The setter leaves the entry as
it is or it raises the flag behind `Dirty()`, and it does not write
`ui_modified_at`, which the facade refreshes. -/
def TypedSetter (f : TimeEntry → TimeEntry) : Prop :=
  ∀ te, (f te = te ∨ (f te).dirty = true) ∧ (f te).ui_modified_at = te.ui_modified_at

/-- Modelled from the spec: the contracts of the setters of `time_entry.h` and of
`Context::Save()`, whose bodies are not among the sources.
* `SetDeletedAt` and `SetUIModifiedAt` write their attribute (and possibly the dirty
  flag) and nothing else.
* `SetTID`, `SetPID`, `SetBillable`, `SetTags` and `SetDescription` write their
  attribute and raise the dirty flag when the value differs, and leave the entry as
  it is otherwise (spec sections 3 and 4.5).
* `SetDurationString`, `SetStartString` and `SetStopString` parse their argument;
  they are typed setters in the sense of `TypedSetter`.
* `Save` writes to the store (spec sections 3 and 4.2): when it succeeds, the session
  user is still there and its time entries are related to those handed over by
  `SavedEntries`. A `Save` that fails is not constrained. -/
structure Contracts (ext : Externals DB) : Prop where
  SetDeletedAt : ∀ te value, ∃ d,
    ext.SetDeletedAt te value = { te with deleted_at := value, dirty := d }
  SetUIModifiedAt : ∀ te value, ∃ d,
    ext.SetUIModifiedAt te value = { te with ui_modified_at := value, dirty := d }
  SetTID : ∀ te value,
    ext.SetTID te value = if te.tid = value then te else { te with tid := value, dirty := true }
  SetPID : ∀ te value,
    ext.SetPID te value = if te.pid = value then te else { te with pid := value, dirty := true }
  SetBillable : ∀ te value,
    ext.SetBillable te value
      = if te.billable = value then te else { te with billable := value, dirty := true }
  SetTags : ∀ te value,
    ext.SetTags te value
      = if te.tags = value then te else { te with tags := value, dirty := true }
  SetDescription : ∀ te value,
    ext.SetDescription te value
      = if te.description = value then te else { te with description := value, dirty := true }
  SetDurationString : ∀ value, TypedSetter fun te => ext.SetDurationString te value
  SetStartString : ∀ value, TypedSetter fun te => ext.SetStartString te value
  SetStopString : ∀ value, TypedSetter fun te => ext.SetStopString te value
  Save : ∀ ctx user, ctx.user = some user → (ext.Save ctx).1 = noError →
    ∃ user_after, (ext.Save ctx).2.user = some user_after
      ∧ SavedEntries user.related.TimeEntries user_after.related.TimeEntries

/-- Modelled from the spec: what a setter of `time_entry.h` whose body is not among
the sources leaves alone whatever it parses (spec section 3: the GUID is the stable
identity of the entity, and `server_deleted_at` is written by a pull, section 4.5):
the GUID and the deletion mark of the server. -/
def KeepsIdentity (f : TimeEntry → TimeEntry) : Prop :=
  ∀ te, (f te).guid = te.guid ∧ (f te).server_deleted_at = te.server_deleted_at

/-- Modelled from the spec: the setters of `time_entry.h` that parse a string
(`SetDurationString`, `SetStartString`, `SetStopString`) write the duration, the
start and the stop of the entry; they keep its identity in the sense of
`KeepsIdentity`. -/
structure ParsingSetters (ext : Externals DB) : Prop where
  SetDurationString : ∀ value, KeepsIdentity fun te => ext.SetDurationString te value
  SetStartString : ∀ value, KeepsIdentity fun te => ext.SetStartString te value
  SetStopString : ∀ value, KeepsIdentity fun te => ext.SetStopString te value

/-- The seven `kopsik_set_time_entry_*` calls with their value arguments. -/
inductive SetterCall where
  | set_time_entry_duration (value : String)
  | set_time_entry_project (task_id project_id : Nat)
  | set_time_entry_start_iso_8601 (value : String)
  | set_time_entry_end_iso_8601 (value : String)
  | set_time_entry_tags (value : String)
  | set_time_entry_billable (value : Int)
  | set_time_entry_description (value : String)

/-- The facade function behind a setter call, applied to the GUID and to the value
`now` of `time(0)`. -/
def SetterCall.run (ext : Externals DB) (ctx : Context DB) (guid : String) (now : Nat) :
    SetterCall → Outcome DB Outputs
  | .set_time_entry_duration value => kopsik_set_time_entry_duration ext ctx guid value now
  | .set_time_entry_project task_id project_id =>
    kopsik_set_time_entry_project ext ctx guid task_id project_id now
  | .set_time_entry_start_iso_8601 value =>
    kopsik_set_time_entry_start_iso_8601 ext ctx guid value now
  | .set_time_entry_end_iso_8601 value =>
    kopsik_set_time_entry_end_iso_8601 ext ctx guid value now
  | .set_time_entry_tags value => kopsik_set_time_entry_tags ext ctx guid value now
  | .set_time_entry_billable value => kopsik_set_time_entry_billable ext ctx guid value now
  | .set_time_entry_description value =>
    kopsik_set_time_entry_description ext ctx guid value now

/-- The typed setters that a setter call of the facade runs on the time entry, in the
order of the source (for the project: `SetBillable` with the flag of the project when
the project is found, then `SetTID`, then `SetPID`). -/
def SetterCall.typed (ext : Externals DB) : SetterCall → User → TimeEntry → TimeEntry
  | .set_time_entry_duration value => fun _ te => ext.SetDurationString te value
  | .set_time_entry_project task_id project_id => fun user te =>
    let te :=
      if project_id ≠ 0 then
        match user.GetProjectByID project_id with
        | some p => ext.SetBillable te p.billable
        | none => te
      else te
    let te := ext.SetTID te task_id
    ext.SetPID te project_id
  | .set_time_entry_start_iso_8601 value => fun _ te => ext.SetStartString te value
  | .set_time_entry_end_iso_8601 value => fun _ te => ext.SetStopString te value
  | .set_time_entry_tags value => fun _ te => ext.SetTags te value
  | .set_time_entry_billable value => fun _ te =>
    if value ≠ 0 then ext.SetBillable te true else ext.SetBillable te false
  | .set_time_entry_description value => fun _ te => ext.SetDescription te value

/-- The time entry as a setter of the facade hands it to `ctx->Save()`: the typed
setters have run, then `SetUIModifiedAt(time(0))` when the entry is dirty. -/
def set_time_entry_entry (ext : Externals DB) (now : Nat) (typed : TimeEntry → TimeEntry)
    (te : TimeEntry) : TimeEntry :=
  if (typed te).dirty then ext.SetUIModifiedAt (typed te) now else typed te

/-- The calls of the facade that edit one time entry found by its GUID: the seven
setters and `kopsik_delete_time_entry`, with the values of their calls of `time(0)`. -/
inductive EntryCall where
  | setter (call : SetterCall) (now : Nat)
  | delete (now1 now2 : Nat)

/-- The facade function behind an entry call, applied to the GUID. -/
def EntryCall.run (ext : Externals DB) (ctx : Context DB) (guid : String) :
    EntryCall → Outcome DB Outputs
  | .setter call now => call.run ext ctx guid now
  | .delete now1 now2 => kopsik_delete_time_entry ext ctx guid now1 now2

/-- The time entry as an entry call hands it to `ctx->Save()`. -/
def EntryCall.entry (ext : Externals DB) (user : User) (te : TimeEntry) :
    EntryCall → TimeEntry
  | .setter call now => set_time_entry_entry ext now (call.typed ext user) te
  | .delete now1 now2 => ext.SetUIModifiedAt (ext.SetDeletedAt te now1) now2

end Contracts

section CommitSteps

variable {DB : Type}

/-- The end of a setter of the facade from the context it has prepared: the call of
`ctx->Save()`, the error return, and the partial sync when the entry `te` needs
push. -/
def save_and_sync (ext : Externals DB) (ctx : Context DB) (te : TimeEntryPtr) :
    Outcome DB Outputs :=
  let r := ext.Save ctx
  if r.1 ≠ noError then failure r.2 r.1 [.mutex_lock, .Save r.1, .mutex_unlock] {}
  else
    success r.2 ([.mutex_lock, .Save r.1] ++ syncIfNeedsPush ext r.2 te ++ [.mutex_unlock]) {}

/-- The end of `kopsik_delete_time_entry` from the context it has prepared: the
change callback with the record `mc`, the call of `ctx->Save()`, the error return,
and the partial sync. -/
def notify_save_and_sync (ext : Externals DB) (ctx : Context DB) (mc : ModelChange) :
    Outcome DB Outputs :=
  let r := ext.Save ctx
  if r.1 ≠ noError then
    failure r.2 r.1
      [.mutex_lock, .change_callback KOPSIK_API_SUCCESS none mc, .Save r.1, .mutex_unlock] {}
  else
    success r.2
      [.mutex_lock, .change_callback KOPSIK_API_SUCCESS none mc, .Save r.1, .PartialSync,
        .mutex_unlock] {}

/-- The change record of `kopsik_delete_time_entry` for the entry `te`. -/
def deleteChange (te : TimeEntry) : ModelChange :=
  { model_type := "time_entry", change_type := "delete", model_id := te.id, GUID := te.guid }

end CommitSteps

section TraceNotions

variable {DB : Type}

/-- The number of invocations of the change callback in a trace. -/
def callbackCount : List Event → Nat
  | [] => 0
  | .change_callback _ _ _ :: rest => 1 + callbackCount rest
  | _ :: rest => callbackCount rest

/-- The number of invocations of the change callback in a trace that happen while
`ctx->mutex` is held: between a `mutex_lock` and the next `mutex_unlock`. `held`
tells whether the mutex is held where the trace starts. -/
def callbacksUnderLock : List Event → Bool → Nat
  | [], _ => 0
  | .mutex_lock :: rest, _ => callbacksUnderLock rest true
  | .mutex_unlock :: rest, _ => callbacksUnderLock rest false
  | .change_callback _ _ _ :: rest, held =>
    (if held then 1 else 0) + callbacksUnderLock rest held
  | _ :: rest, held => callbacksUnderLock rest held

/-- Whether a call of the mutation group is a `kopsik_delete_time_entry` that gets
past its checks: the GUID is not empty, a user is logged in and the time entry is
found. -/
def MutationCall.deletes (ctx : Context DB) : MutationCall → Bool
  | .delete_time_entry guid _ _ =>
    match ctx.user with
    | some user =>
      decide (guid ≠ "") && (user.deref (user.GetTimeEntryByGUID guid)).isSome
    | none => false
  | _ => false

/-- The `TimeEntry *` that a call of the mutation group works on and tests with
`NeedsPush()`: the pointer it gets from `Start`, `Continue`, `Stop` (the first
stopped entry), `StopAt`, `SplitAt` or `GetTimeEntryByGUID`. -/
def MutationCall.entry (ext : Externals DB) (ctx : Context DB) : MutationCall → TimeEntryPtr
  | .start description duration task_id project_id =>
    ctx.user.bind fun user =>
      (ext.Start user (description.getD "") (duration.getD "") task_id project_id).1
  | .continue_ guid => ctx.user.bind fun user => (ext.Continue user guid).1
  | .continue_latest =>
    ctx.user.bind fun user =>
      (user.SortTimeEntriesByStart.deref (ext.Latest user.SortTimeEntriesByStart)).bind
        fun latest => (ext.Continue user.SortTimeEntriesByStart latest.guid).1
  | .stop => ctx.user.bind fun user => (ext.Stop user).1.head?
  | .stop_running_time_entry_at a => ctx.user.bind fun user => (ext.StopAt user a).1
  | .split_running_time_entry_at a => ctx.user.bind fun user => (ext.SplitAt user a).1
  | .delete_time_entry guid _ _ => ctx.user.bind fun user => user.GetTimeEntryByGUID guid
  | .set_time_entry_duration guid _ _ =>
    ctx.user.bind fun user => user.GetTimeEntryByGUID guid
  | .set_time_entry_project guid _ _ _ =>
    ctx.user.bind fun user => user.GetTimeEntryByGUID guid
  | .set_time_entry_start_iso_8601 guid _ _ =>
    ctx.user.bind fun user => user.GetTimeEntryByGUID guid
  | .set_time_entry_end_iso_8601 guid _ _ =>
    ctx.user.bind fun user => user.GetTimeEntryByGUID guid
  | .set_time_entry_tags guid _ _ => ctx.user.bind fun user => user.GetTimeEntryByGUID guid
  | .set_time_entry_billable guid _ _ =>
    ctx.user.bind fun user => user.GetTimeEntryByGUID guid
  | .set_time_entry_description guid _ _ =>
    ctx.user.bind fun user => user.GetTimeEntryByGUID guid

/-- The clock value that an entry call writes into `ui_modified_at`: the value of
`time(0)` of a setter, the value of the second `time(0)` of the deletion. -/
def EntryCall.clock : EntryCall → Nat
  | .setter _ now => now
  | .delete _ now2 => now2

/-- Whether an entry call changes the entry in the sense of the facade: the deletion
always, a setter when the entry is dirty after its typed setters ran. -/
def EntryCall.leavesDirty (ext : Externals DB) (user : User) (te : TimeEntry) :
    EntryCall → Bool
  | .setter call _ => (call.typed ext user te).dirty
  | .delete _ _ => true

/-- Specification-side notion: the visible entries of a list of time entries, those
with a duration of at least 0 and without local deletion mark. -/
def visibleEntries (time_entries : List TimeEntry) : List TimeEntry :=
  time_entries.filter fun te => decide (0 ≤ te.duration_in_seconds ∧ te.deleted_at = 0)

/-- Specification-side notion: the sum of `DurationInSeconds` over the visible
entries whose date header equals `date_header`. -/
def day_total (ext : Externals DB) (time_entries : List TimeEntry) (date_header : String) :
    Int :=
  (((visibleEntries time_entries).filter fun te =>
    decide (ext.DateHeaderString te = date_header)).map fun te => te.duration_in_seconds).sum

end TraceNotions

/-- A billable project with id 7. -/
def billableProject : Project :=
  { id := 7, guid := "project-7", wid := 1, cid := 0, name := "Billable project",
    color_code := "#00ff00", active := true, billable := true, server_deleted_at := 0,
    deleted_at := 0 }

/-- The user "old@example.com" with the API token "old-token". -/
def oldUser : User :=
  { sampleUser [] [] [] with
    id_ := 5
    email_ := "old@example.com"
    api_token_ := "old-token" }

/-- A context of the concrete environment in which `oldUser` is logged in and the
stored API token is "old-token". -/
def oldSessionContext : Context String :=
  { sampleContext (some oldUser) with db := "old-token" }

/-- The time entry "guid-1" after an edit at the clock time 500. -/
def editedTimeEntry : TimeEntry :=
  { stoppedTimeEntry with ui_modified_at := 500 }

/-- The time entry "guid-1" with the project 7, not billable and not dirty. -/
def projectTimeEntry : TimeEntry :=
  { stoppedTimeEntry with pid := 7 }

/-- Five time entries: two stopped ones on day 0, a stopped one on day 1, a locally
deleted one on day 0 and a running one on day 1. -/
def dayEntries : List TimeEntry :=
  [ sampleTimeEntry "guid-1" 100 60,
    sampleTimeEntry "guid-2" 200 120,
    sampleTimeEntry "guid-3" 90000 300,
    { sampleTimeEntry "guid-4" 300 6000 with deleted_at := 5 },
    sampleTimeEntry "guid-5" 90100 (-90100) ]

/-! ## The error buffer as an array of `char` -/

section ErrorBuffer

variable {DB : Type}

/-- The terminating character of a C string. -/
def NUL : Char := Char.ofNat 0

/-- The function `strncpy(dest, src, n)` of the C library, on the array `dest` of
`char` and the characters `src` of a C string (its terminator left out): exactly `n`
characters are written, the first `n` characters of `src` and, when `src` is shorter
than `n`, NUL characters up to `n`. The result is `none` when the array is shorter
than `n`: the write runs over its end. -/
def strncpy (dest src : List Char) (n : Nat) : Option (List Char) :=
  if n ≤ dest.length then
    some (src.take n ++ List.replicate (n - src.length) NUL ++ dest.drop n)
  else none

/-- The C string that a reader finds in an array of `char`: the characters before
the first NUL. The result is `none` when the array holds no NUL: the read runs over
its end. -/
def c_string (buffer : List Char) : Option (List Char) :=
  if NUL ∈ buffer then some (buffer.takeWhile fun c => c ≠ NUL) else none

/-- The array behind `errmsg` after a facade call that was handed the array `errmsg`
and the length `errlen`: the call has run `strncpy(errmsg, message, errlen)` with its
message, or it has left the array alone. -/
def Outcome.errmsgBuffer {α : Type} (o : Outcome DB α) (errmsg : List Char) (errlen : Nat) :
    Option (List Char) :=
  match o.errmsg with
  | none => some errmsg
  | some message => strncpy errmsg message.data errlen

end ErrorBuffer

/-! ## Logout and the clearing of the cache -/

section SessionCalls

variable {DB : Type}

/-- The functions of `context.h` and `database.h` that `kopsik_logout` and
`kopsik_clear_cache` call; their bodies are not among the sources, they are
parameters of the embedding. `DeleteUser` takes the user by pointer and returns the
error, the store and the user after the call. -/
structure SessionExternals (DB : Type) where
  /-- `Context::Shutdown()`. -/
  Shutdown : Context DB → Context DB
  /-- `Database::ClearCurrentAPIToken()`. -/
  ClearCurrentAPIToken : DB → error × DB
  /-- `Database::DeleteUser(user, with_related_data)`. -/
  DeleteUser : DB → User → Bool → error × DB × User

/-- Observable steps of `kopsik_logout` and `kopsik_clear_cache`, in the order in
which they happen; `logout` is the call of `kopsik_logout` by `kopsik_clear_cache`. -/
inductive SessionStep where
  | mutex_lock
  | mutex_unlock
  | Shutdown
  | ClearCurrentAPIToken
  | DeleteUser (with_related_data : Bool)
  | logout
  deriving DecidableEq, Repr

/-- The observable result of `kopsik_logout` and `kopsik_clear_cache`: the returned
value, the message copied into the error buffer (`none`: buffer untouched), the
context after the call and the steps. -/
structure SessionOutcome (DB : Type) where
  result : kopsik_api_result
  errmsg : Option String
  ctx : Context DB
  steps : List SessionStep

/-- Embedding of `kopsik_logout` (kopsik_api.cc, lines 654-696). -/
def kopsik_logout (sx : SessionExternals DB) (ctx : Context DB) : SessionOutcome DB :=
  match ctx.user with
  | none => { result := KOPSIK_API_SUCCESS, errmsg := none, ctx := ctx, steps := [] }
  | some _ =>
    let ctx := sx.Shutdown ctx
    let r := sx.ClearCurrentAPIToken ctx.db
    let err := r.1
    let ctx := { ctx with db := r.2 }
    if err ≠ noError then
      { result := KOPSIK_API_FAILURE, errmsg := some err, ctx := ctx,
        steps := [.Shutdown, .mutex_lock, .ClearCurrentAPIToken, .mutex_unlock] }
    else
      { result := KOPSIK_API_SUCCESS, errmsg := none, ctx := { ctx with user := none },
        steps := [.Shutdown, .mutex_lock, .ClearCurrentAPIToken, .mutex_unlock] }

/-- Embedding of `kopsik_clear_cache` (kopsik_api.cc, lines 698-733); the scoped lock
ends with the `try` block, ahead of the call of `kopsik_logout`. -/
def kopsik_clear_cache (sx : SessionExternals DB) (ctx : Context DB) : SessionOutcome DB :=
  match ctx.user with
  | none => { result := KOPSIK_API_SUCCESS, errmsg := none, ctx := ctx, steps := [] }
  | some user =>
    let r := sx.DeleteUser ctx.db user true
    let err := r.1
    let ctx := { ctx with db := r.2.1, user := some r.2.2 }
    if err ≠ noError then
      { result := KOPSIK_API_FAILURE, errmsg := some err, ctx := ctx,
        steps := [.mutex_lock, .DeleteUser true, .mutex_unlock] }
    else
      let o := kopsik_logout sx ctx
      { o with steps := [.mutex_lock, .DeleteUser true, .mutex_unlock, .logout] ++ o.steps }

/-- A store for the session calls: the current API token and the ids of the users
it holds. -/
structure SampleStore where
  token : Option String
  users : List Nat
  locked : Bool
  deriving DecidableEq, Repr

/-- The session functions over `SampleStore`: a locked store refuses to write. -/
def sampleSessionExternals : SessionExternals SampleStore where
  Shutdown := fun ctx => ctx
  ClearCurrentAPIToken := fun db =>
    if db.locked then ("database is locked", db) else (noError, { db with token := none })
  DeleteUser := fun db user _ =>
    if db.locked then ("database is locked", db, user)
    else (noError, { db with users := db.users.filter fun id => id != user.id_ }, user)

/-- A context over `SampleStore` with the given user and store. -/
def sampleSessionContext (user : Option User) (db : SampleStore) : Context SampleStore :=
  { user := user, db := db, app_name := "kopsik", app_version := "1.0",
    api_url := "https://www.toggl.com", timeline_upload_url := "https://timeline.toggl.com",
    websocket_url := "https://stream.toggl.com", update_channel := "stable",
    feedback_subject := "", feedback_details := "" }

end SessionCalls

/-- The context that `kopsik_clear_cache` leaves behind its call of
`Database::DeleteUser(ctx->user, true)`, for the logged-in user `user`. -/
def contextAfterDeleteUser {DB : Type} (sx : SessionExternals DB) (ctx : Context DB)
    (user : User) : Context DB :=
  { ctx with db := (sx.DeleteUser ctx.db user true).2.1,
             user := some (sx.DeleteUser ctx.db user true).2.2 }

/-- A logged-in context over an unlocked `SampleStore` that holds the user and the
API token. -/
def loggedInSessionContext : Context SampleStore :=
  sampleSessionContext (some (sampleUser [] [] []))
    { token := some "token", users := [1], locked := false }

/-! ## The accessors of `User` and the timeline calls -/

section Timeline

variable {DB : Type}

/-- Accessor `LocalID()` of user.h (line 99). -/
def User.LocalID (u : User) : Int := u.local_id_

/-- Accessor `DefaultWID()` of user.h (line 108). -/
def User.DefaultWID (u : User) : Nat := u.default_wid_

/-- Accessor `Since()` of user.h (line 112). -/
def User.Since (u : User) : Nat := u.since_

/-- Accessor `Dirty()` of user.h (line 115). -/
def User.Dirty (u : User) : Bool := u.dirty_

/-- Accessor `Fullname()` of user.h (line 118). -/
def User.Fullname (u : User) : String := u.fullname_

/-- Accessor `Email()` of user.h (line 121). -/
def User.Email (u : User) : String := u.email_

/-- Accessor `RecordTimeline()` of user.h (line 124). -/
def User.RecordTimeline (u : User) : Bool := u.record_timeline_

/-- Accessor `StoreStartAndStopTime()` of user.h (line 129): it returns the member
`store_start_and_stop_time_`; `none` is the read of a member that has not been
assigned, whose value is indeterminate. -/
def User.StoreStartAndStopTime (u : User) : Option Bool := u.store_start_and_stop_time_

/-- The functions of `user.cc` and `context.h` that
`kopsik_timeline_toggle_recording` calls; their bodies are not among the sources,
they are parameters of the embedding. -/
structure TimelineExternals (DB : Type) where
  /-- `User::SetRecordTimeline(value)`. -/
  SetRecordTimeline : User → Bool → User
  /-- `Context::TimelineUpdateServerSettings()`. -/
  TimelineUpdateServerSettings : Context DB → Context DB
  /-- `Context::SwitchTimelineOn()`. -/
  SwitchTimelineOn : Context DB → Context DB
  /-- `Context::SwitchTimelineOff()`. -/
  SwitchTimelineOff : Context DB → Context DB

/-- Observable steps of `kopsik_timeline_toggle_recording`, in the order in which
they happen. -/
inductive TimelineStep where
  | mutex_lock
  | mutex_unlock
  | Save (err : error)
  | on_error_callback (message : String)
  | TimelineUpdateServerSettings
  | SwitchTimelineOn
  | SwitchTimelineOff
  deriving DecidableEq, Repr

/-- Embedding of `kopsik_timeline_toggle_recording` (kopsik_api.cc, lines 2357-2390):
the context after the call and the steps. The function reads `ctx->user->...`
without a null check: with no user the result is `none` (undefined behaviour). -/
def kopsik_timeline_toggle_recording (ext : Externals DB) (tx : TimelineExternals DB)
    (ctx : Context DB) : Option (Context DB × List TimelineStep) :=
  match ctx.user with
  | none => none
  | some user =>
    let user := tx.SetRecordTimeline user (!user.RecordTimeline)
    let r := ext.Save { ctx with user := some user }
    let err := r.1
    let ctx := r.2
    if err ≠ noError then
      some (ctx, [.mutex_lock, .Save err, .on_error_callback err, .mutex_unlock])
    else
      let ctx := tx.TimelineUpdateServerSettings ctx
      match ctx.user with
      | none => none
      | some user =>
        if user.RecordTimeline then
          some (tx.SwitchTimelineOn ctx,
            [.mutex_lock, .Save err, .TimelineUpdateServerSettings, .SwitchTimelineOn,
              .mutex_unlock])
        else
          some (tx.SwitchTimelineOff ctx,
            [.mutex_lock, .Save err, .TimelineUpdateServerSettings, .SwitchTimelineOff,
              .mutex_unlock])

/-- Embedding of `kopsik_timeline_is_recording_enabled` (kopsik_api.cc, lines
2392-2402); a null `context` is `none`. -/
def kopsik_timeline_is_recording_enabled (context : Option (Context DB)) : Int :=
  match context with
  | none => 0
  | some ctx =>
    match ctx.user with
    | none => 0
    | some user => if user.RecordTimeline then 1 else 0

/-- The timeline functions of the concrete environment. -/
def sampleTimelineExternals : TimelineExternals String where
  SetRecordTimeline := fun user value => { user with record_timeline_ := value, dirty_ := true }
  TimelineUpdateServerSettings := fun ctx => ctx
  SwitchTimelineOn := fun ctx => ctx
  SwitchTimelineOff := fun ctx => ctx

end Timeline

/-- The user-input error messages that kopsik_api.cc holds as string literals:
"Missing GUID" (ten calls), "Empty email" and "Empty password" (lines 589 and 593),
"Missing topic" and "Missing details" (lines 2423 and 2428), and the nineteen
"Please login ..." messages. -/
def userInputErrorLiterals : List String :=
  ["Missing GUID", "Empty email", "Empty password", "Missing topic", "Missing details",
   "Please login to check if you have premium workspaces",
   "Please login to check if sync is required",
   "Please login to start time tracking",
   "Please login to load time entry data",
   "Please login to continue time tracking",
   "Please login to continue tracking last time entry",
   "Please login to delete time entry",
   "Please login to set time entry duration",
   "Please login to select project",
   "Please login to change time entry start time",
   "Please login to change time entry end time",
   "Please login to change time entry tags",
   "Please login to change time entry billable state",
   "Please login to change time entry description",
   "Please login to stop time tracking",
   "Please login to split time entry",
   "Please login to stop running time entry",
   "Please login to access tracking time entry",
   "Please login to access time entry"]

/-! ## The context object -/

section ContextInit

variable {DB ChangeCallback ErrorCallback UpdateCallback : Type}

/-- The `Context` object together with its three callback members
(`change_callback`, `on_error_callback`, `check_updates_callback`), which the calls
embedded above do not read. A callback is a function pointer; its type is a
parameter. -/
structure ContextObject (DB ChangeCallback ErrorCallback UpdateCallback : Type)
    extends Context DB where
  change_callback : ChangeCallback
  on_error_callback : ErrorCallback
  check_updates_callback : UpdateCallback

/-- Embedding of `kopsik_context_init` (kopsik_api.cc, lines 71-96). `fresh` is the
object that `new Context()` yields (the constructor is in `context.h`, not among the
sources); the websocket client is built on "https://stream.toggl.com". -/
def kopsik_context_init (fresh : Context DB) (app_name app_version : String)
    (change_callback : ChangeCallback) (on_error_callback : ErrorCallback)
    (check_updates_callback : UpdateCallback) :
    ContextObject DB ChangeCallback ErrorCallback UpdateCallback :=
  { toContext :=
      { fresh with
        app_name := app_name
        app_version := app_version
        api_url := "https://www.toggl.com"
        timeline_upload_url := "https://timeline.toggl.com"
        websocket_url := "https://stream.toggl.com" }
    change_callback := change_callback
    on_error_callback := on_error_callback
    check_updates_callback := check_updates_callback }

/-- Embedding of `kopsik_set_api_url` (kopsik_api.cc, lines 351-362): the assignment
`ctx->api_url = api_url` under the scoped lock. -/
def kopsik_set_api_url (ctx : ContextObject DB ChangeCallback ErrorCallback UpdateCallback)
    (api_url : String) : ContextObject DB ChangeCallback ErrorCallback UpdateCallback :=
  { ctx with api_url := api_url }

end ContextInit

/-! ## The resolved task, project and client of a time entry -/

section Resolved

variable {DB : Type}

/-- Specification-side notion: the task of a time entry, looked up by the task id
of the entry when that id is set. -/
def resolvedTask (user : User) (te : TimeEntry) : Option Task :=
  if te.tid = 0 then none else user.GetTaskByID te.tid

/-- Specification-side notion: the id under which the project of a time entry is
looked up: the project id of its task when the task exists and has a non-zero
project id, the project id of the entry otherwise. -/
def resolvedProjectID (user : User) (te : TimeEntry) : Nat :=
  match resolvedTask user te with
  | some t => if t.pid ≠ 0 then t.pid else te.pid
  | none => te.pid

/-- Specification-side notion: the project of a time entry, looked up by
`resolvedProjectID` when that id is set. -/
def resolvedProject (user : User) (te : TimeEntry) : Option Project :=
  if resolvedProjectID user te = 0 then none
  else user.GetProjectByID (resolvedProjectID user te)

/-- Specification-side notion: the client of the resolved project of a time entry,
looked up when the project has a client id. -/
def resolvedClient (user : User) (te : TimeEntry) : Option Client :=
  match resolvedProject user te with
  | some p => if p.cid = 0 then none else user.GetClientByID p.cid
  | none => none

/-- Specification-side notion: the label "Task. Project. Client" of a time entry,
joined by `User::JoinTaskName` from its resolved task, project and client. -/
def timeEntryLabel (ext : Externals DB) (user : User) (te : TimeEntry) : String :=
  ext.JoinTaskName (resolvedTask user te) (resolvedProject user te) (resolvedClient user te)

/-- Specification-side notion: the autocomplete item of type TE of a time entry:
its description, its label, and as text the description alone when the label is
empty and the description, " - " and the label otherwise. -/
def timeEntryItem (ext : Externals DB) (user : User) (te : TimeEntry) :
    KopsikAutocompleteItem :=
  { autocomplete_item_init with
    Description := some te.description
    Text := some (if timeEntryLabel ext user te = "" then te.description
      else te.description ++ " - " ++ timeEntryLabel ext user te)
    ProjectAndTaskLabel := some (timeEntryLabel ext user te)
    ProjectColor := (resolvedProject user te).map (·.color_code)
    ProjectID := ((resolvedProject user te).map (·.id)).getD 0
    TaskID := ((resolvedTask user te).map (·.id)).getD 0
    Type_ := some KOPSIK_AUTOCOMPLETE_TE }

end Resolved

/-- The inactive project 8. -/
def inactiveProject : Project :=
  { id := 8, guid := "project-8", wid := 1, cid := 0, name := "Closed project",
    color_code := "#0000ff", active := false, billable := false, server_deleted_at := 0,
    deleted_at := 0 }

/-- The graph of the autocomplete examples: the active project 7 and the inactive
project 8, the task 3 of project 8, and four time entries: "write spec" on project
7, one without description, "lunch" without project, and "old work" with the task 3
and the project 7. -/
def autocompleteRelated : RelatedData :=
  { Projects := [billableProject, inactiveProject]
    Tasks := [{ id := 3, wid := 1, pid := 8, name := "Archive", active := true,
                server_deleted_at := 0, deleted_at := 0 }]
    TimeEntries :=
      [{ sampleTimeEntry "guid-1" 100 60 with description := "write spec", pid := 7 },
       { sampleTimeEntry "guid-2" 200 60 with pid := 7 },
       { sampleTimeEntry "guid-3" 300 60 with description := "lunch" },
       { sampleTimeEntry "guid-4" 400 60 with description := "old work", tid := 3, pid := 7 }] }

/-- A logged-in user with the graph `autocompleteRelated`. -/
def autocompleteUser : User :=
  { sampleUser [] [] [] with related := autocompleteRelated }

/-- Specification-side notion: the billable flag of a time entry after the project
`project_id` was selected for it: the flag of the project with that id when
`project_id` is non-zero and such a project exists, the flag of the entry
otherwise. -/
def selectedBillable (user : User) (te : TimeEntry) (project_id : Nat) : Bool :=
  match (if project_id ≠ 0 then user.GetProjectByID project_id else none) with
  | some p => p.billable
  | none => te.billable

/-! ## A store that assigns local ids -/

/-- Modelled from the spec: the time entries after a successful `save` (sections 3
and 4.2), whose body is not among the sources; `next` is the local id that the store
assigns next. An entry whose deletion the server has confirmed
(`server_deleted_at > 0`) is removed; an entry without a local id gets the next one;
the dirty flag is cleared. -/
def savedTimeEntries : Nat → List TimeEntry → List TimeEntry
  | _, [] => []
  | next, te :: rest =>
    if 0 < te.server_deleted_at then savedTimeEntries next rest
    else if te.local_id = 0 then
      { te with local_id := next, dirty := false } :: savedTimeEntries (next + 1) rest
    else { te with dirty := false } :: savedTimeEntries next rest

/-- The local id that the store assigns next: one more than every local id of the
graph. -/
def nextLocalID (time_entries : List TimeEntry) : Nat :=
  (time_entries.map fun te => te.local_id).foldl max 0 + 1

/-- Modelled from the spec: the user after a successful `save`, with the dirty flag
of the user cleared and the time entries as `savedTimeEntries` leaves them. -/
def savedUser (user : User) : User :=
  { user with
    dirty_ := false
    related := { user.related with
      TimeEntries :=
        savedTimeEntries (nextLocalID user.related.TimeEntries) user.related.TimeEntries } }

/-- Modelled from the spec: a `Context::Save()` that succeeds, see `savedUser`. -/
def specSave (ctx : Context String) : error × Context String :=
  (noError, { ctx with user := ctx.user.map savedUser })

/-- The concrete environment with the store that assigns local ids. -/
def specExternals : Externals String :=
  { sampleExternals with Save := specSave }

/-- The environment in which the HTTP login fails. -/
def failingLoginExternals : Externals String :=
  { sampleExternals with Login := fun user _ _ _ => ("403 Forbidden", user) }

/-- The environment in which `LoadUserByID` fails with a store error. -/
def failingLoadExternals : Externals String :=
  { sampleExternals with LoadUserByID := fun _ _ user _ => ("disk I/O error", user) }

/-- The environment in which `SetCurrentAPIToken` fails with a store error and leaves
the stored token as it was. -/
def failingTokenExternals : Externals String :=
  { sampleExternals with SetCurrentAPIToken := fun db _ => ("database is locked", db) }

/-- A second time entry, without local id, next to "guid-1". -/
def otherTimeEntry : TimeEntry :=
  { sampleTimeEntry "guid-2" 200 120 with id := 10, description := "lunch", stop := 320 }

/-- The time entry "guid-1" as the store holds it under the local id 4. -/
def storedTimeEntry : TimeEntry :=
  { stoppedTimeEntry with local_id := 4 }

section LoginSteps

variable {DB : Type}

/-- The result of `user->Login(&https_client, email, password)` in `kopsik_login`
(kopsik_api.cc, line 604) on the fresh user object. -/
def loginResponse (ext : Externals DB) (ctx : Context DB) (email password : String) :
    error × User :=
  ext.Login (User.new ctx.app_name ctx.app_version) ctx.api_url email password

/-- The result of `ctx->db->LoadUserByID(user->ID(), user, true)` in `kopsik_login`
on the user that `Login` returned. -/
def loginLoadedUser (ext : Externals DB) (ctx : Context DB) (email password : String) :
    error × User :=
  ext.LoadUserByID ctx.db (loginResponse ext ctx email password).2.ID
    (loginResponse ext ctx email password).2 true

/-- The result of `ctx->db->SetCurrentAPIToken(user->APIToken())` in `kopsik_login`
with the token of the loaded user. -/
def loginStoredToken (ext : Externals DB) (ctx : Context DB) (email password : String) :
    error × DB :=
  ext.SetCurrentAPIToken ctx.db (loginLoadedUser ext ctx email password).2.APIToken

/-- The context on which `kopsik_login` calls `ctx->Save()`: the store as
`SetCurrentAPIToken` left it and the new user as session user. -/
def loginCommitContext (ext : Externals DB) (ctx : Context DB) (email password : String) :
    Context DB :=
  { ctx with
    db := (loginStoredToken ext ctx email password).2
    user := some (loginLoadedUser ext ctx email password).2 }

end LoginSteps

section GraphLookup

variable {DB : Type}

/-- The time entry that `ctx->user->GetTimeEntryByGUID(guid)` points to in the graph
of the context: none when nobody is logged in or when the lookup returns the null
pointer. -/
def Context.timeEntryByGUID (ctx : Context DB) (guid : String) : Option TimeEntry :=
  ctx.user.bind fun user => user.deref (user.GetTimeEntryByGUID guid)

end GraphLookup

/-- A logged-in context whose graph holds the time entries "guid-1" and "guid-2",
neither with a local id yet, and the billable project 7. -/
def unsavedContext : Context String :=
  sampleContext (some (sampleUser [stoppedTimeEntry, otherTimeEntry] [billableProject] []))

/-- A logged-in context whose graph holds the time entry "guid-1" under the local id
4 and the time entry "guid-2" without local id, and the billable project 7. -/
def storedContext : Context String :=
  sampleContext (some (sampleUser [storedTimeEntry, otherTimeEntry] [billableProject] []))

theorem std_find_isSome_iff (value needle : List Char) :
    (std_find value needle).isSome = true ↔ needle <:+: value := by
  induction value with
  | nil =>
    by_cases h : needle = []
    · simp [std_find, h]
    · simp [std_find, h]
  | cons c cs ih =>
    rw [List.infix_cons_iff]
    by_cases h : needle.isPrefixOf (c :: cs) = true
    · simp only [std_find, h, if_true, Option.isSome_some, true_iff]
      exact Or.inl (List.isPrefixOf_iff_prefix.mp h)
    · have hp : ¬ needle <+: c :: cs := fun hp => h (List.isPrefixOf_iff_prefix.mpr hp)
      have hs : std_find (c :: cs) needle = (std_find cs needle).map (· + 1) := by
        simp only [std_find, h]
        rfl
      rw [hs, Option.isSome_map', ih]
      simp [hp]

theorem found_iff_Contains (value needle : String) :
    found value needle = true ↔ Contains value needle := by
  unfold found Contains
  rw [std_find_isSome_iff]
  constructor
  · rintro ⟨pre, post, h⟩
    exact ⟨pre, post, h.symm⟩
  · rintro ⟨pre, post, h⟩
    exact ⟨pre, post, h.symm⟩

/-- C1: `kopsik_is_networking_error` returns 1 exactly on the messages that contain
one of the eight listed substrings (case-sensitively, at any position) and 0 on all
others; it returns 1 on "Host not found: x" and 0 on "Missing GUID". -/
theorem kopsik_is_networking_error_classifies :
    (∀ m : String,
        (kopsik_is_networking_error m = 1 ↔
            ∃ s, s ∈ networkingErrorSubstrings ∧ Contains m s)
        ∧ (kopsik_is_networking_error m = 1 ∨ kopsik_is_networking_error m = 0))
      ∧ kopsik_is_networking_error "Host not found: x" = 1
      ∧ kopsik_is_networking_error "Missing GUID" = 0 := by
  refine ⟨fun m => ⟨?_, ?_⟩, by decide, by decide⟩
  · simp only [networkingErrorSubstrings, List.mem_cons, List.mem_singleton,
      List.not_mem_nil, or_false, ← found_iff_Contains]
    simp only [kopsik_is_networking_error]
    constructor
    · intro h
      split_ifs at h with h1 h2 h3 h4 h5 h6 h7 h8
      · exact ⟨_, Or.inl rfl, h1⟩
      · exact ⟨_, Or.inr (Or.inl rfl), h2⟩
      · exact ⟨_, Or.inr (Or.inr (Or.inl rfl)), h3⟩
      · exact ⟨_, Or.inr (Or.inr (Or.inr (Or.inl rfl))), h4⟩
      · exact ⟨_, Or.inr (Or.inr (Or.inr (Or.inr (Or.inl rfl)))), h5⟩
      · exact ⟨_, Or.inr (Or.inr (Or.inr (Or.inr (Or.inr (Or.inl rfl))))), h6⟩
      · exact ⟨_, Or.inr (Or.inr (Or.inr (Or.inr (Or.inr (Or.inr (Or.inl rfl)))))), h7⟩
      · exact ⟨_, Or.inr (Or.inr (Or.inr (Or.inr (Or.inr (Or.inr (Or.inr rfl)))))), h8⟩
      · exact absurd h (by decide)
    · rintro ⟨s, hs, hf⟩
      rcases hs with rfl | rfl | rfl | rfl | rfl | rfl | rfl | rfl <;> simp [hf]
  · simp only [kopsik_is_networking_error]
    split_ifs <;> simp

section FacadeTheorems

variable {DB : Type}

theorem beginsWith_of_isPrefixOf (message start : String)
    (h : start.data.isPrefixOf message.data = true) : BeginsWith message start := by
  obtain ⟨rest, hrest⟩ := List.isPrefixOf_iff_prefix.mp h
  exact ⟨rest, hrest.symm⟩

theorem set_time_entry_logged_out (ext : Externals DB) (ctx : Context DB)
    (guid : String) (now : Nat) (login_message : String)
    (set : User → TimeEntry → TimeEntry) (hguid : guid ≠ "") (huser : ctx.user = none) :
    set_time_entry ext ctx guid now login_message set = failure ctx login_message [] {} := by
  simp [set_time_entry, hguid, huser]

theorem rejected_of_eq_failure {start : String} (ctx : Context DB)
    (o : Outcome DB Outputs) (message : String) (ho : o = failure ctx message [] {})
    (hm : start.data.isPrefixOf message.data = true) :
    o.result = KOPSIK_API_FAILURE
      ∧ (∃ message, o.errmsg = some message ∧ BeginsWith message start)
      ∧ o.trace = [] ∧ o.ctx = ctx ∧ o.out = {} := by
  subst ho
  exact ⟨rfl, ⟨message, rfl, beginsWith_of_isPrefixOf _ _ hm⟩, rfl, rfl, rfl⟩

theorem beginsWith_iff_isPrefixOf (message start : String) :
    BeginsWith message start ↔ start.data.isPrefixOf message.data = true := by
  constructor
  · rintro ⟨rest, hrest⟩
    exact List.isPrefixOf_iff_prefix.mpr ⟨rest, hrest.symm⟩
  · exact beginsWith_of_isPrefixOf message start

/-- C2, as stated, fails: with no user logged in, `kopsik_stop_running_time_entry_at`
called with `at = 0` fails at `poco_assert(at)`, which precedes the test of
`ctx->user`: the call returns `KOPSIK_API_FAILURE` with the text of the assertion in
the error buffer, and that text does not begin with "Please login". -/
theorem stop_at_zero_logged_out_reports_assertion :
    (sampleContext none).user = none
      ∧ (MutationCall.stop_running_time_entry_at 0).guid ≠ some ""
      ∧ ((MutationCall.stop_running_time_entry_at 0).run sampleExternals
          (sampleContext none)).result = KOPSIK_API_FAILURE
      ∧ ((MutationCall.stop_running_time_entry_at 0).run sampleExternals
          (sampleContext none)).errmsg = some (sampleExternals.assertionText "at")
      ∧ ¬ BeginsWith (sampleExternals.assertionText "at") "Please login" := by
  refine ⟨rfl, by decide, rfl, rfl, ?_⟩
  rw [beginsWith_iff_isPrefixOf]
  decide

/-- C2, amended: a call of the mutation group made while no user is logged in, with
a non-empty GUID where the call takes one and with a non-zero `at` in the two `*_at`
calls, returns `KOPSIK_API_FAILURE`, copies a message that begins with
"Please login" into the error buffer, leaves the context as it was, writes no out
parameter and performs no step at all: no save, no partial sync, no callback. -/
theorem mutation_rejected_when_logged_out (ext : Externals DB) (ctx : Context DB)
    (call : MutationCall) (huser : ctx.user = none) (hguid : call.guid ≠ some "")
    (hat : call.at_ ≠ some 0) :
    (call.run ext ctx).result = KOPSIK_API_FAILURE
      ∧ (∃ message, (call.run ext ctx).errmsg = some message
          ∧ BeginsWith message "Please login")
      ∧ (call.run ext ctx).trace = []
      ∧ (call.run ext ctx).ctx = ctx
      ∧ (call.run ext ctx).out = {} := by
  cases call with
  | start description duration task_id project_id =>
    refine rejected_of_eq_failure ctx _ "Please login to start time tracking" ?_ (by decide)
    simp only [MutationCall.run, kopsik_start, huser]
  | continue_ guid =>
    have hg : guid ≠ "" := fun h => hguid (by simp [MutationCall.guid, h])
    refine rejected_of_eq_failure ctx _ "Please login to continue time tracking" ?_
      (by decide)
    simp only [MutationCall.run, kopsik_continue, huser, hg, if_false]
  | continue_latest =>
    refine rejected_of_eq_failure ctx _
      "Please login to continue tracking last time entry" ?_ (by decide)
    simp only [MutationCall.run, kopsik_continue_latest, huser]
  | stop =>
    refine rejected_of_eq_failure ctx _ "Please login to stop time tracking" ?_ (by decide)
    simp only [MutationCall.run, kopsik_stop, huser]
  | stop_running_time_entry_at a =>
    have ha : a ≠ 0 := fun h => hat (by simp [MutationCall.at_, h])
    refine rejected_of_eq_failure ctx _ "Please login to stop running time entry" ?_
      (by decide)
    simp only [MutationCall.run, kopsik_stop_running_time_entry_at, huser, ha, if_false]
  | split_running_time_entry_at a =>
    have ha : a ≠ 0 := fun h => hat (by simp [MutationCall.at_, h])
    refine rejected_of_eq_failure ctx _ "Please login to split time entry" ?_ (by decide)
    simp only [MutationCall.run, kopsik_split_running_time_entry_at, huser, ha, if_false]
  | delete_time_entry guid now1 now2 =>
    have hg : guid ≠ "" := fun h => hguid (by simp [MutationCall.guid, h])
    refine rejected_of_eq_failure ctx _ "Please login to delete time entry" ?_ (by decide)
    simp only [MutationCall.run, kopsik_delete_time_entry, huser, hg, if_false]
  | set_time_entry_duration guid value now =>
    have hg : guid ≠ "" := fun h => hguid (by simp [MutationCall.guid, h])
    exact rejected_of_eq_failure ctx _ "Please login to set time entry duration"
      (set_time_entry_logged_out ext ctx guid now _ _ hg huser) (by decide)
  | set_time_entry_project guid task_id project_id now =>
    have hg : guid ≠ "" := fun h => hguid (by simp [MutationCall.guid, h])
    exact rejected_of_eq_failure ctx _ "Please login to select project"
      (set_time_entry_logged_out ext ctx guid now _ _ hg huser) (by decide)
  | set_time_entry_start_iso_8601 guid value now =>
    have hg : guid ≠ "" := fun h => hguid (by simp [MutationCall.guid, h])
    exact rejected_of_eq_failure ctx _ "Please login to change time entry start time"
      (set_time_entry_logged_out ext ctx guid now _ _ hg huser) (by decide)
  | set_time_entry_end_iso_8601 guid value now =>
    have hg : guid ≠ "" := fun h => hguid (by simp [MutationCall.guid, h])
    exact rejected_of_eq_failure ctx _ "Please login to change time entry end time"
      (set_time_entry_logged_out ext ctx guid now _ _ hg huser) (by decide)
  | set_time_entry_tags guid value now =>
    have hg : guid ≠ "" := fun h => hguid (by simp [MutationCall.guid, h])
    exact rejected_of_eq_failure ctx _ "Please login to change time entry tags"
      (set_time_entry_logged_out ext ctx guid now _ _ hg huser) (by decide)
  | set_time_entry_billable guid value now =>
    have hg : guid ≠ "" := fun h => hguid (by simp [MutationCall.guid, h])
    exact rejected_of_eq_failure ctx _ "Please login to change time entry billable state"
      (set_time_entry_logged_out ext ctx guid now _ _ hg huser) (by decide)
  | set_time_entry_description guid value now =>
    have hg : guid ≠ "" := fun h => hguid (by simp [MutationCall.guid, h])
    exact rejected_of_eq_failure ctx _ "Please login to change time entry description"
      (set_time_entry_logged_out ext ctx guid now _ _ hg huser) (by decide)

/-- Witness of C2, amended: `kopsik_split_running_time_entry_at` with `at = 1400000000`,
called on a context without user. -/
theorem mutation_rejected_when_logged_out_witness :
    (sampleContext none).user = none
      ∧ (MutationCall.split_running_time_entry_at 1400000000).guid ≠ some ""
      ∧ (MutationCall.split_running_time_entry_at 1400000000).at_ ≠ some 0
      ∧ ((MutationCall.split_running_time_entry_at 1400000000).run sampleExternals
            (sampleContext none)).result = KOPSIK_API_FAILURE
      ∧ (∃ message,
          ((MutationCall.split_running_time_entry_at 1400000000).run sampleExternals
            (sampleContext none)).errmsg = some message
          ∧ BeginsWith message "Please login")
      ∧ ((MutationCall.split_running_time_entry_at 1400000000).run sampleExternals
            (sampleContext none)).trace = []
      ∧ ((MutationCall.split_running_time_entry_at 1400000000).run sampleExternals
            (sampleContext none)).ctx = sampleContext none
      ∧ ((MutationCall.split_running_time_entry_at 1400000000).run sampleExternals
            (sampleContext none)).out = {} :=
  ⟨rfl, by decide, by decide,
    mutation_rejected_when_logged_out sampleExternals (sampleContext none)
      (MutationCall.split_running_time_entry_at 1400000000) rfl (by decide)
      (by decide)⟩

theorem set_time_entry_missing_guid (ext : Externals DB) (ctx : Context DB)
    (now : Nat) (login_message : String) (set : User → TimeEntry → TimeEntry) :
    set_time_entry ext ctx "" now login_message set = failure ctx "Missing GUID" [] {} := by
  simp [set_time_entry]

/-- C3: every GUID-taking call invoked with the empty string as GUID, on any context
(logged in or not), returns `KOPSIK_API_FAILURE` with "Missing GUID" copied into the
error buffer, leaves the context (session, entity graph and store) as it was, writes
no out parameter and performs no step (no store access, no save, no callback); as
the context is arbitrary the GUID check precedes the logged-out check. -/
theorem missing_guid_rejected (ext : Externals DB) (ctx : Context DB) (call : GuidCall) :
    (call.run ext ctx "").result = KOPSIK_API_FAILURE
      ∧ (call.run ext ctx "").errmsg = some "Missing GUID"
      ∧ (call.run ext ctx "").ctx = ctx
      ∧ (call.run ext ctx "").trace = []
      ∧ (call.run ext ctx "").out = {} := by
  have key : call.run ext ctx "" = failure ctx "Missing GUID" [] {} := by
    cases call with
    | time_entry_view_item_by_guid =>
      simp [GuidCall.run, kopsik_time_entry_view_item_by_guid]
    | continue_ => simp [GuidCall.run, kopsik_continue]
    | delete_time_entry now1 now2 => simp [GuidCall.run, kopsik_delete_time_entry]
    | set_time_entry_duration value now =>
      simp only [GuidCall.run, kopsik_set_time_entry_duration, set_time_entry_missing_guid]
    | set_time_entry_project task_id project_id now =>
      simp only [GuidCall.run, kopsik_set_time_entry_project, set_time_entry_missing_guid]
    | set_time_entry_start_iso_8601 value now =>
      simp only [GuidCall.run, kopsik_set_time_entry_start_iso_8601, set_time_entry_missing_guid]
    | set_time_entry_end_iso_8601 value now =>
      simp only [GuidCall.run, kopsik_set_time_entry_end_iso_8601, set_time_entry_missing_guid]
    | set_time_entry_tags value now =>
      simp only [GuidCall.run, kopsik_set_time_entry_tags, set_time_entry_missing_guid]
    | set_time_entry_billable value now =>
      simp only [GuidCall.run, kopsik_set_time_entry_billable, set_time_entry_missing_guid]
    | set_time_entry_description value now =>
      simp only [GuidCall.run, kopsik_set_time_entry_description, set_time_entry_missing_guid]
  rw [key]
  exact ⟨rfl, rfl, rfl, rfl, rfl⟩

/-- C4: `kopsik_login` with an empty email (whatever the password, so the email
check comes first) returns `KOPSIK_API_FAILURE` with the message "Empty email", and
with a non-empty email and an empty password it returns `KOPSIK_API_FAILURE` with
the message "Empty password"; in both cases the context (session user and store) is
unchanged and the trace is empty: no HTTPS request and no store access. -/
theorem kopsik_login_rejects_empty_input (ext : Externals DB) (ctx : Context DB)
    (email password : String) (hemail : email ≠ "") :
    ((kopsik_login ext ctx "" password).result = KOPSIK_API_FAILURE
        ∧ (kopsik_login ext ctx "" password).errmsg = some "Empty email"
        ∧ (kopsik_login ext ctx "" password).ctx = ctx
        ∧ (kopsik_login ext ctx "" password).trace = [])
      ∧ ((kopsik_login ext ctx email "").result = KOPSIK_API_FAILURE
        ∧ (kopsik_login ext ctx email "").errmsg = some "Empty password"
        ∧ (kopsik_login ext ctx email "").ctx = ctx
        ∧ (kopsik_login ext ctx email "").trace = []) := by
  have h1 : kopsik_login ext ctx "" password = failure ctx "Empty email" [] () := by
    simp [kopsik_login]
  have h2 : kopsik_login ext ctx email "" = failure ctx "Empty password" [] () := by
    simp [kopsik_login, hemail]
  rw [h1, h2]
  exact ⟨⟨rfl, rfl, rfl, rfl⟩, rfl, rfl, rfl, rfl⟩

/-- Witness of C4: a login with the email "user@example.com" and an empty password,
next to a login with an empty email. -/
theorem kopsik_login_rejects_empty_input_witness :
    "user@example.com" ≠ ""
      ∧ ((kopsik_login sampleExternals (sampleContext none) "" "secret").result
            = KOPSIK_API_FAILURE
        ∧ (kopsik_login sampleExternals (sampleContext none) "" "secret").errmsg
            = some "Empty email"
        ∧ (kopsik_login sampleExternals (sampleContext none) "" "secret").ctx
            = sampleContext none
        ∧ (kopsik_login sampleExternals (sampleContext none) "" "secret").trace = [])
      ∧ ((kopsik_login sampleExternals (sampleContext none) "user@example.com" "").result
            = KOPSIK_API_FAILURE
        ∧ (kopsik_login sampleExternals (sampleContext none) "user@example.com" "").errmsg
            = some "Empty password"
        ∧ (kopsik_login sampleExternals (sampleContext none) "user@example.com" "").ctx
            = sampleContext none
        ∧ (kopsik_login sampleExternals (sampleContext none) "user@example.com" "").trace
            = []) :=
  ⟨by decide,
    kopsik_login_rejects_empty_input sampleExternals (sampleContext none)
      "user@example.com" "secret" (by decide)⟩

theorem sortTimeEntriesByStart_of_empty (user : User)
    (hempty : user.related.TimeEntries = []) : user.SortTimeEntriesByStart = user := by
  obtain ⟨a, b, related, c, d, e, f, g, h, i, j, k, l, m, n⟩ := user
  obtain ⟨ws, cs, ps, ts, tags, tes⟩ := related
  simp only at hempty
  subst hempty
  rfl

theorem deref_of_empty (user : User) (hempty : user.related.TimeEntries = [])
    (p : TimeEntryPtr) : user.deref p = none := by
  cases p with
  | none => rfl
  | some i => simp [User.deref, hempty]

/-- C5: for a logged-in context whose graph holds no time entry (so that
`User::Latest` has no entry to return), `kopsik_continue_latest` returns
`KOPSIK_API_SUCCESS` with `was_found` set to 0 and changes nothing: the context after
the call is the context before it (no time entry created or changed), the view item
and the error buffer are not written, and the only steps are taking and releasing the
mutex: `Save` is not called and no partial sync is scheduled. -/
theorem kopsik_continue_latest_empty_graph (ext : Externals DB) (ctx : Context DB)
    (user : User) (huser : ctx.user = some user)
    (hempty : user.related.TimeEntries = []) :
    (kopsik_continue_latest ext ctx).result = KOPSIK_API_SUCCESS
      ∧ (kopsik_continue_latest ext ctx).out.was_found = some 0
      ∧ (kopsik_continue_latest ext ctx).out.view_item = none
      ∧ (kopsik_continue_latest ext ctx).errmsg = none
      ∧ (kopsik_continue_latest ext ctx).ctx = ctx
      ∧ (kopsik_continue_latest ext ctx).trace = [Event.mutex_lock, Event.mutex_unlock] := by
  have hctx : ({ ctx with user := some user } : Context DB) = ctx := by
    cases ctx
    simp only at huser
    subst huser
    rfl
  have key : kopsik_continue_latest ext ctx
      = success ctx [Event.mutex_lock, Event.mutex_unlock] { was_found := some 0 } := by
    simp only [kopsik_continue_latest, huser, sortTimeEntriesByStart_of_empty user hempty,
      deref_of_empty user hempty, hctx]
  rw [key]
  exact ⟨rfl, rfl, rfl, rfl, rfl, rfl⟩

/-- Witness of C5: the logged-in user of the concrete environment without time
entries. -/
theorem kopsik_continue_latest_empty_graph_witness :
    (sampleContext (some (sampleUser [] [] []))).user = some (sampleUser [] [] [])
      ∧ (sampleUser [] [] []).related.TimeEntries = []
      ∧ (kopsik_continue_latest sampleExternals
            (sampleContext (some (sampleUser [] [] [])))).result = KOPSIK_API_SUCCESS
      ∧ (kopsik_continue_latest sampleExternals
            (sampleContext (some (sampleUser [] [] [])))).out.was_found = some 0
      ∧ (kopsik_continue_latest sampleExternals
            (sampleContext (some (sampleUser [] [] [])))).out.view_item = none
      ∧ (kopsik_continue_latest sampleExternals
            (sampleContext (some (sampleUser [] [] [])))).errmsg = none
      ∧ (kopsik_continue_latest sampleExternals
            (sampleContext (some (sampleUser [] [] [])))).ctx
          = sampleContext (some (sampleUser [] [] []))
      ∧ (kopsik_continue_latest sampleExternals
            (sampleContext (some (sampleUser [] [] [])))).trace
          = [Event.mutex_lock, Event.mutex_unlock] :=
  ⟨rfl, rfl,
    kopsik_continue_latest_empty_graph sampleExternals
      (sampleContext (some (sampleUser [] [] []))) (sampleUser [] [] []) rfl rfl⟩

/-- C6 (the code departs from the claim): in the logged-in context with the single
time entry "guid-1", with a store whose `Save` fails with "database is locked",
`kopsik_continue_latest` reaches `ctx->Save()`, copies the error into the error
buffer and returns `KOPSIK_API_SUCCESS`, whereas `kopsik_continue` on the same
context and entry returns `KOPSIK_API_FAILURE`. -/
theorem kopsik_continue_latest_save_error_returns_success :
    (kopsik_continue_latest failingSaveExternals
        (sampleContext (some (sampleUser [stoppedTimeEntry] [] [])))).trace
        = [Event.mutex_lock, Event.Save "database is locked", Event.mutex_unlock]
      ∧ (kopsik_continue_latest failingSaveExternals
        (sampleContext (some (sampleUser [stoppedTimeEntry] [] [])))).errmsg
        = some "database is locked"
      ∧ (kopsik_continue_latest failingSaveExternals
        (sampleContext (some (sampleUser [stoppedTimeEntry] [] [])))).result
        = KOPSIK_API_SUCCESS
      ∧ (kopsik_continue failingSaveExternals
        (sampleContext (some (sampleUser [stoppedTimeEntry] [] []))) "guid-1").result
        = KOPSIK_API_FAILURE := by
  decide

/-- C7 (the code departs from the claim): in the logged-in context with the single
time entry "guid-1", `kopsik_continue` with the GUID "guid-2" of no time entry
returns `KOPSIK_API_FAILURE` and leaves the error buffer untouched. -/
theorem kopsik_continue_not_found_writes_no_message :
    (kopsik_continue sampleExternals
        (sampleContext (some (sampleUser [stoppedTimeEntry] [] []))) "guid-2").result
        = KOPSIK_API_FAILURE
      ∧ (kopsik_continue sampleExternals
        (sampleContext (some (sampleUser [stoppedTimeEntry] [] []))) "guid-2").errmsg
        = none := by
  decide

/-- C8 (the code departs from the claim): a time entry of 60 seconds that is marked
as deleted on the server and has no local deletion mark is soft-deleted, yet it is
the one item of the list of `kopsik_time_entry_view_items`, its 60 seconds are the
total of its day in that call, and `kopsik_duration_for_date_header` sums the same 60
seconds for that day. -/
theorem server_deleted_time_entry_is_listed_and_counted :
    serverDeletedTimeEntry.softDeleted
      ∧ (kopsik_time_entry_view_items sampleExternals
          (sampleContext (some (sampleUser [serverDeletedTimeEntry] [] [])))).out
        = some [sampleExternals.time_entry_to_view_item (some serverDeletedTimeEntry)
            (some (sampleUser [serverDeletedTimeEntry] [] []))
            (sampleExternals.FormatDurationInSecondsHHMM 60 2)]
      ∧ (view_items_loop sampleExternals [serverDeletedTimeEntry] ([], fun _ => 0)).map
          (fun state => (state.1, state.2 "day 0"))
        = some ([serverDeletedTimeEntry], 60)
      ∧ date_header_sum sampleExternals "day 0" [serverDeletedTimeEntry] 0 = 60
      ∧ (kopsik_duration_for_date_header sampleExternals
          (sampleContext (some (sampleUser [serverDeletedTimeEntry] [] []))) "day 0").out
        = some (sampleExternals.FormatDurationInSecondsHHMM 60 0) := by
  decide

/-- C9 (the code departs from the claim): an active project that is marked as deleted
on the server is soft-deleted, yet the project loop of `kopsik_autocomplete_items`
turns it into an item, and the call with `include_projects` set returns that item, of
type `KOPSIK_AUTOCOMPLETE_PROJECT` and with the id of the project. -/
theorem server_deleted_project_is_offered :
    serverDeletedProject.softDeleted
      ∧ autocomplete_project_item sampleExternals
          (sampleUser [] [serverDeletedProject] []) serverDeletedProject
        = some { Text := some "Old project", ProjectAndTaskLabel := some "Old project",
                 ProjectColor := some "#ff0000", ProjectID := 7,
                 Type_ := some KOPSIK_AUTOCOMPLETE_PROJECT }
      ∧ (kopsik_autocomplete_items sampleExternals
          (sampleContext (some (sampleUser [] [serverDeletedProject] []))) 0 0 1).out
        = some [{ Text := some "Old project", ProjectAndTaskLabel := some "Old project",
                  ProjectColor := some "#ff0000", ProjectID := 7,
                  Type_ := some KOPSIK_AUTOCOMPLETE_PROJECT }] := by
  decide

/-! ### The order of `std::string` and the tag list -/

theorem char_eq_of_toNat_eq (a b : Char) (h : a.toNat = b.toNat) : a = b := by
  apply Char.ext
  apply UInt32.ext
  exact h

theorem lex_lt_asymm : ∀ (a b : List Char), lex_lt a b = true → lex_lt b a = false
  | _, [] => by intro h; simp [lex_lt] at h
  | [], _ :: _ => by intro _; simp [lex_lt]
  | a :: as, b :: bs => by
    intro h
    simp only [lex_lt] at h ⊢
    split_ifs at h ⊢ <;> first | omega | rfl | exact lex_lt_asymm as bs h

theorem lex_lt_trichotomy :
    ∀ (a b : List Char), lex_lt a b = false → lex_lt b a = false → a = b
  | [], [] => fun _ _ => rfl
  | [], _ :: _ => by intro h; simp [lex_lt] at h
  | _ :: _, [] => by intro _ h; simp [lex_lt] at h
  | a :: as, b :: bs => by
    intro h h2
    simp only [lex_lt] at h h2
    split_ifs at h h2
    have hab : a = b := char_eq_of_toNat_eq a b (by omega)
    rw [hab, lex_lt_trichotomy as bs h h2]

theorem lex_le_trans : ∀ (x y z : List Char),
    lex_lt y x = false → lex_lt z y = false → lex_lt z x = false
  | [], _, z => by intro _ _; cases z <;> simp [lex_lt]
  | _ :: _, [], _ => by intro h; simp [lex_lt] at h
  | _ :: _, _ :: _, [] => by intro _ h; simp [lex_lt] at h
  | a :: as, b :: bs, c :: cs => by
    intro h h2
    simp only [lex_lt] at h h2 ⊢
    split_ifs at h h2 ⊢ <;> first | omega | rfl | exact lex_le_trans as bs cs h h2

/-- Sorting distinct strings with `operator<` yields a strictly ascending sequence. -/
theorem std_sort_strings_ascending (l : List String) (hl : l.Nodup) :
    (std_sort std_string_lt l).Pairwise (fun a b => std_string_lt a b = true) := by
  have htotal : IsTotal String (fun a b => std_string_lt b a = false) :=
    ⟨fun a b => by
      cases h : std_string_lt b a
      · exact Or.inl rfl
      · exact Or.inr (lex_lt_asymm _ _ h)⟩
  have htrans : IsTrans String (fun a b => std_string_lt b a = false) :=
    ⟨fun a b c h h2 => lex_le_trans a.data b.data c.data h h2⟩
  have hs : (std_sort std_string_lt l).Pairwise (fun a b => std_string_lt b a = false) :=
    List.sorted_insertionSort _ l
  have hn : (std_sort std_string_lt l).Nodup :=
    (List.perm_insertionSort _ l).nodup_iff.mpr hl
  refine (hs.and hn).imp ?_
  intro a b hab
  cases h : std_string_lt a b
  · exact absurd (String.ext (lex_lt_trichotomy _ _ h hab.1)) hab.2
  · rfl

theorem mem_std_sort {α : Type} (comp : α → α → Bool) (l : List α) (x : α) :
    x ∈ std_sort comp l ↔ x ∈ l :=
  (List.perm_insertionSort _ l).mem_iff

/-- The first loop of `kopsik_tags` keeps `tags` free of repetitions and adds to it
exactly the names of the tags it runs over. -/
theorem tags_loop_spec : ∀ (l : List Tag) (unique_names tags : List String),
    (∀ x, x ∈ unique_names ↔ x ∈ tags) → tags.Nodup →
    (tags_loop l (unique_names, tags)).2.Nodup
      ∧ ∀ x, x ∈ (tags_loop l (unique_names, tags)).2 ↔ x ∈ tags ∨ x ∈ l.map Tag.name
  | [], unique_names, tags => by
    intro _ hn
    simp [tags_loop, hn]
  | tag :: rest, unique_names, tags => by
    intro hmem hn
    by_cases h : tag.name ∈ unique_names
    · have ih := tags_loop_spec rest unique_names tags hmem hn
      simp only [tags_loop, h, if_true]
      refine ⟨ih.1, fun x => ?_⟩
      rw [ih.2 x, List.map_cons, List.mem_cons]
      constructor
      · rintro (hx | hx)
        · exact Or.inl hx
        · exact Or.inr (Or.inr hx)
      · rintro (hx | hx | hx)
        · exact Or.inl hx
        · exact Or.inl (hx ▸ (hmem _).mp h)
        · exact Or.inr hx
    · have hnot : tag.name ∉ tags := fun ht => h ((hmem _).mpr ht)
      have hmem2 : ∀ x, x ∈ tag.name :: unique_names ↔ x ∈ tags ++ [tag.name] := by
        intro x
        simp only [List.mem_cons, List.mem_append, List.mem_singleton, List.not_mem_nil,
          or_false, hmem x]
        exact or_comm
      have hn2 : (tags ++ [tag.name]).Nodup := by
        rw [List.nodup_append]
        refine ⟨hn, List.nodup_singleton _, ?_⟩
        intro x hx hx2
        rw [List.mem_singleton] at hx2
        exact hnot (hx2 ▸ hx)
      have ih := tags_loop_spec rest (tag.name :: unique_names) (tags ++ [tag.name]) hmem2 hn2
      simp only [tags_loop, h, if_false]
      refine ⟨ih.1, fun x => ?_⟩
      rw [ih.2 x, List.map_cons, List.mem_cons, List.mem_append, List.mem_singleton]
      constructor
      · rintro ((hx | hx) | hx)
        · exact Or.inl hx
        · exact Or.inr (Or.inl hx)
        · exact Or.inr (Or.inr hx)
      · rintro (hx | hx | hx)
        · exact Or.inl (Or.inl hx)
        · exact Or.inl (Or.inr hx)
        · exact Or.inr hx

theorem tags_linked_list_eq_reverse (tags : List String) :
    tags_linked_list tags = tags.reverse := by
  have h : ∀ (l first : List String),
      l.foldl (fun first name => name :: first) first = l.reverse ++ first := by
    intro l
    induction l with
    | nil => intro first; rfl
    | cons a l ih => intro first; simp [List.foldl, ih]
  simp [tags_linked_list, h tags []]

/-- C10: for a logged-in user with any list of tags, `kopsik_tags` returns
`KOPSIK_API_SUCCESS` and a linked list whose names, read from the head along `Next`,
are in strictly ascending order of `std::string` (lexicographic by character value)
and in which every name of a tag of the user occurs exactly once and no other name
occurs. -/
theorem kopsik_tags_sorted_distinct (ctx : Context DB) (user : User)
    (huser : ctx.user = some user) :
    ∃ o, kopsik_tags ctx = some o
      ∧ o.result = KOPSIK_API_SUCCESS
      ∧ o.out.Pairwise (fun a b => std_string_lt a b = true)
      ∧ ∀ name : String,
          o.out.count name = if name ∈ user.related.Tags.map Tag.name then 1 else 0 := by
  obtain ⟨hnodup, hmem⟩ :=
    tags_loop_spec user.related.Tags [] [] (fun _ => Iff.rfl) List.nodup_nil
  have hout : tags_linked_list (sort_reverse_range (tags_loop user.related.Tags ([], [])).2)
      = std_sort std_string_lt (tags_loop user.related.Tags ([], [])).2.reverse := by
    rw [tags_linked_list_eq_reverse, sort_reverse_range, List.reverse_reverse]
  have hrev : (tags_loop user.related.Tags ([], [])).2.reverse.Nodup :=
    List.nodup_reverse.mpr hnodup
  have hsorted := std_sort_strings_ascending _ hrev
  refine ⟨success ctx []
    (tags_linked_list (sort_reverse_range (tags_loop user.related.Tags ([], [])).2)),
    by simp only [kopsik_tags, huser], rfl, ?_, ?_⟩
  · simp only [success]
    rw [hout]
    exact hsorted
  · intro name
    simp only [success]
    rw [hout]
    have hn : (std_sort std_string_lt
        (tags_loop user.related.Tags ([], [])).2.reverse).Nodup :=
      (List.perm_insertionSort _ _).nodup_iff.mpr hrev
    have hiff : name ∈ std_sort std_string_lt
        (tags_loop user.related.Tags ([], [])).2.reverse
          ↔ name ∈ user.related.Tags.map Tag.name := by
      rw [mem_std_sort, List.mem_reverse, hmem name]
      simp
    by_cases h : name ∈ user.related.Tags.map Tag.name
    · rw [if_pos h]
      exact List.count_eq_one_of_mem hn (hiff.mpr h)
    · rw [if_neg h]
      exact List.count_eq_zero_of_not_mem (fun hx => h (hiff.mp hx))

/-- Witness of C10: a user with the tags "b", "a", "b", "ab" in this order. -/
theorem kopsik_tags_sorted_distinct_witness :
    (sampleContext (some (sampleUser [] []
        [⟨1, "g1", 1, "b"⟩, ⟨2, "g2", 1, "a"⟩, ⟨3, "g3", 1, "b"⟩, ⟨4, "g4", 1, "ab"⟩]))).user
      = some (sampleUser [] []
        [⟨1, "g1", 1, "b"⟩, ⟨2, "g2", 1, "a"⟩, ⟨3, "g3", 1, "b"⟩, ⟨4, "g4", 1, "ab"⟩])
    ∧ ∃ o, kopsik_tags (sampleContext (some (sampleUser [] []
        [⟨1, "g1", 1, "b"⟩, ⟨2, "g2", 1, "a"⟩, ⟨3, "g3", 1, "b"⟩, ⟨4, "g4", 1, "ab"⟩])))
          = some o
      ∧ o.result = KOPSIK_API_SUCCESS
      ∧ o.out.Pairwise (fun a b => std_string_lt a b = true)
      ∧ ∀ name : String,
          o.out.count name
            = if name ∈ (sampleUser [] []
                [⟨1, "g1", 1, "b"⟩, ⟨2, "g2", 1, "a"⟩, ⟨3, "g3", 1, "b"⟩,
                  ⟨4, "g4", 1, "ab"⟩]).related.Tags.map Tag.name then 1 else 0 :=
  ⟨rfl, kopsik_tags_sorted_distinct _ _ rfl⟩

/-! ### Editing one time entry -/

theorem modify_const_of_getElem? {α : Type} (l : List α) (i : Nat) (a : α) (f : α → α)
    (h : l[i]? = some a) : l.modify f i = l.modify (fun _ => f a) i := by
  apply List.ext_getElem?
  intro m
  rw [List.getElem?_modify, List.getElem?_modify]
  by_cases him : i = m
  · subst him
    simp [h]
  · simp [him]

theorem deref_some_ptr (u : User) (p : TimeEntryPtr) (te : TimeEntry)
    (h : u.deref p = some te) : ∃ i, p = some i ∧ u.related.TimeEntries[i]? = some te := by
  cases p with
  | none => simp [User.deref] at h
  | some i => exact ⟨i, rfl, by simpa [User.deref] using h⟩

theorem update_congr (u : User) (p : TimeEntryPtr) (te : TimeEntry)
    (f : TimeEntry → TimeEntry) (h : u.deref p = some te) :
    u.update p f = u.update p (fun _ => f te) := by
  obtain ⟨i, rfl, hi⟩ := deref_some_ptr u p te h
  simp only [User.update, modify_const_of_getElem? _ i te f hi]

theorem deref_update (u : User) (p : TimeEntryPtr) (te : TimeEntry)
    (f : TimeEntry → TimeEntry) (h : u.deref p = some te) :
    (u.update p f).deref p = some (f te) := by
  obtain ⟨i, rfl, hi⟩ := deref_some_ptr u p te h
  simp [User.update, User.deref, hi]

theorem update_update (u : User) (p : TimeEntryPtr) (f g : TimeEntry → TimeEntry) :
    (u.update p f).update p g = u.update p (g ∘ f) := by
  cases p with
  | none => rfl
  | some i => simp [User.update, List.modify_modify_eq]

theorem set_time_entry_found (ext : Externals DB) (ctx : Context DB) (user : User)
    (guid : String) (now : Nat) (login_message : String)
    (set : User → TimeEntry → TimeEntry) (te : TimeEntry)
    (huser : ctx.user = some user) (hguid : guid ≠ "")
    (hte : user.deref (user.GetTimeEntryByGUID guid) = some te) :
    set_time_entry ext ctx guid now login_message set
      = save_and_sync ext
          { ctx with user := some (user.update (user.GetTimeEntryByGUID guid)
              fun _ => set_time_entry_entry ext now (set user) te) }
          (user.GetTimeEntryByGUID guid) := by
  have h1 : (user.update (user.GetTimeEntryByGUID guid) (set user)).deref
      (user.GetTimeEntryByGUID guid) = some (set user te) := deref_update _ _ _ _ hte
  have h2 : (if ((((user.update (user.GetTimeEntryByGUID guid) (set user)).deref
        (user.GetTimeEntryByGUID guid)).map (·.dirty)).getD false) = true then
      (user.update (user.GetTimeEntryByGUID guid) (set user)).update
        (user.GetTimeEntryByGUID guid) (fun e => ext.SetUIModifiedAt e now)
      else user.update (user.GetTimeEntryByGUID guid) (set user))
      = user.update (user.GetTimeEntryByGUID guid)
          (fun _ => set_time_entry_entry ext now (set user) te) := by
    rw [h1]
    simp only [Option.map_some', Option.getD_some, set_time_entry_entry]
    by_cases hd : (set user te).dirty = true
    · rw [if_pos hd, if_pos hd, update_update, update_congr user _ te _ hte]
      rfl
    · rw [if_neg hd, if_neg hd, update_congr user _ te _ hte]
  simp only [set_time_entry, hguid, if_false, huser, hte, h2, save_and_sync]

theorem kopsik_delete_time_entry_found (ext : Externals DB) (ctx : Context DB)
    (user : User) (guid : String) (now1 now2 : Nat) (te : TimeEntry)
    (huser : ctx.user = some user) (hguid : guid ≠ "")
    (hte : user.deref (user.GetTimeEntryByGUID guid) = some te) :
    kopsik_delete_time_entry ext ctx guid now1 now2
      = notify_save_and_sync ext
          { ctx with user := some (user.update (user.GetTimeEntryByGUID guid)
              fun _ => ext.SetUIModifiedAt (ext.SetDeletedAt te now1) now2) }
          (deleteChange (ext.SetUIModifiedAt (ext.SetDeletedAt te now1) now2)) := by
  have h1 : (user.update (user.GetTimeEntryByGUID guid) fun e => ext.SetDeletedAt e now1).update
        (user.GetTimeEntryByGUID guid) (fun e => ext.SetUIModifiedAt e now2)
      = user.update (user.GetTimeEntryByGUID guid)
          (fun _ => ext.SetUIModifiedAt (ext.SetDeletedAt te now1) now2) := by
    rw [update_update, update_congr user _ te _ hte]
    rfl
  have h2 : (user.update (user.GetTimeEntryByGUID guid)
        (fun _ => ext.SetUIModifiedAt (ext.SetDeletedAt te now1) now2)).deref
        (user.GetTimeEntryByGUID guid)
      = some (ext.SetUIModifiedAt (ext.SetDeletedAt te now1) now2) :=
    deref_update _ _ _ _ hte
  simp only [kopsik_delete_time_entry, hguid, if_false, huser, hte, h1, h2,
    notify_save_and_sync, deleteChange, Option.map_some', Option.getD_some]

theorem setterCall_run_eq (ext : Externals DB) (ctx : Context DB) (guid : String)
    (now : Nat) (call : SetterCall) :
    ∃ login_message,
      call.run ext ctx guid now
        = set_time_entry ext ctx guid now login_message (call.typed ext) := by
  cases call <;> exact ⟨_, rfl⟩

theorem save_and_sync_ctx (ext : Externals DB) (ctx : Context DB) (te : TimeEntryPtr) :
    (save_and_sync ext ctx te).ctx = (ext.Save ctx).2 := by
  simp only [save_and_sync]
  split <;> rfl

theorem notify_save_and_sync_ctx (ext : Externals DB) (ctx : Context DB)
    (mc : ModelChange) : (notify_save_and_sync ext ctx mc).ctx = (ext.Save ctx).2 := by
  simp only [notify_save_and_sync]
  split <;> rfl

theorem entryCall_run_ctx (ext : Externals DB) (ctx : Context DB) (user : User)
    (guid : String) (te : TimeEntry) (call : EntryCall)
    (huser : ctx.user = some user) (hguid : guid ≠ "")
    (hte : user.deref (user.GetTimeEntryByGUID guid) = some te) :
    (call.run ext ctx guid).ctx
      = (ext.Save { ctx with user := some (user.update (user.GetTimeEntryByGUID guid)
            fun _ => call.entry ext user te) }).2 := by
  cases call with
  | setter call now =>
    obtain ⟨login_message, hrun⟩ := setterCall_run_eq ext ctx guid now call
    simp only [EntryCall.run, EntryCall.entry, hrun,
      set_time_entry_found ext ctx user guid now login_message _ te huser hguid hte,
      save_and_sync_ctx]
  | delete now1 now2 =>
    simp only [EntryCall.run, EntryCall.entry,
      kopsik_delete_time_entry_found ext ctx user guid now1 now2 te huser hguid hte,
      notify_save_and_sync_ctx]

theorem savedEntries_refl : ∀ l : List TimeEntry, SavedEntries l l
  | [] => SavedEntries.nil
  | a :: l => SavedEntries.keep a a l l rfl (fun _ => rfl) (savedEntries_refl l)

theorem sampleExternals_contracts : Contracts sampleExternals where
  SetDeletedAt := fun te _ => ⟨te.dirty, rfl⟩
  SetUIModifiedAt := fun te _ => ⟨te.dirty, rfl⟩
  SetTID := fun _ _ => rfl
  SetPID := fun _ _ => rfl
  SetBillable := fun _ _ => rfl
  SetTags := fun _ _ => rfl
  SetDescription := fun _ _ => rfl
  SetDurationString := fun _ _ => ⟨Or.inl rfl, rfl⟩
  SetStartString := fun _ _ => ⟨Or.inl rfl, rfl⟩
  SetStopString := fun _ _ => ⟨Or.inl rfl, rfl⟩
  Save := fun _ user huser _ => ⟨user, huser, savedEntries_refl _⟩

theorem failingSaveExternals_contracts : Contracts failingSaveExternals where
  SetDeletedAt := fun te _ => ⟨te.dirty, rfl⟩
  SetUIModifiedAt := fun te _ => ⟨te.dirty, rfl⟩
  SetTID := fun _ _ => rfl
  SetPID := fun _ _ => rfl
  SetBillable := fun _ _ => rfl
  SetTags := fun _ _ => rfl
  SetDescription := fun _ _ => rfl
  SetDurationString := fun _ _ => ⟨Or.inl rfl, rfl⟩
  SetStartString := fun _ _ => ⟨Or.inl rfl, rfl⟩
  SetStopString := fun _ _ => ⟨Or.inl rfl, rfl⟩
  Save := fun _ _ _ herr =>
    absurd herr (show ("database is locked" : String) ≠ noError by decide)

theorem guid_of_indexOfGUID (GUID : String) :
    ∀ (l : List TimeEntry) (i : Nat) (te : TimeEntry),
      indexOfGUID GUID l = some i → l[i]? = some te → te.guid = GUID
  | [], _, _ => by intro h; simp [indexOfGUID] at h
  | head :: rest, i, te => by
    intro h hte
    by_cases hg : head.guid = GUID
    · simp only [indexOfGUID, hg, if_true, Option.some.injEq] at h
      subst h
      simp only [List.getElem?_cons_zero, Option.some.injEq] at hte
      exact hte ▸ hg
    · simp only [indexOfGUID, hg, if_false, Option.map_eq_some'] at h
      obtain ⟨j, hj, rfl⟩ := h
      simp only [List.getElem?_cons_succ] at hte
      exact guid_of_indexOfGUID GUID rest j te hj hte

theorem guid_of_found (user : User) (guid : String) (te : TimeEntry)
    (hte : user.deref (user.GetTimeEntryByGUID guid) = some te) : te.guid = guid := by
  obtain ⟨i, hi, hget⟩ := deref_some_ptr user _ te hte
  exact guid_of_indexOfGUID guid _ i te hi hget

/-! ### Deleting a time entry -/

/-- C12, as stated, fails: in the logged-in context with the time entry "guid-1" and
a store whose `Save` fails, `kopsik_delete_time_entry` invokes the change callback
with the record of the deletion before it calls `ctx->Save()`, and the record has
been emitted although `Save` fails and the call returns `KOPSIK_API_FAILURE`. -/
theorem kopsik_delete_time_entry_notifies_although_save_fails :
    (kopsik_delete_time_entry failingSaveExternals
        (sampleContext (some (sampleUser [stoppedTimeEntry] [] []))) "guid-1" 500 500).trace
        = [Event.mutex_lock,
            Event.change_callback KOPSIK_API_SUCCESS none
              { model_type := "time_entry", change_type := "delete", model_id := 9,
                GUID := "guid-1" },
            Event.Save "database is locked", Event.mutex_unlock]
      ∧ (kopsik_delete_time_entry failingSaveExternals
        (sampleContext (some (sampleUser [stoppedTimeEntry] [] []))) "guid-1" 500 500).result
        = KOPSIK_API_FAILURE := by
  decide

/-- C12, amended: when `kopsik_delete_time_entry` gets past its checks (non-empty
GUID, logged in, entry `te` found), it emits the change record {"time_entry",
"delete", remote id of the entry, GUID of the entry} to the change callback after the
in-memory mutation and before the call of `ctx->Save()`, whatever `Save` returns:
the trace starts with the lock, the callback and `Save` in this order, and the call
succeeds exactly when that `Save` returned no error. -/
theorem kopsik_delete_time_entry_notifies_before_save (ext : Externals DB)
    (ctx : Context DB) (user : User) (guid : String) (te : TimeEntry) (now1 now2 : Nat)
    (hlaws : Contracts ext) (huser : ctx.user = some user) (hguid : guid ≠ "")
    (hte : user.deref (user.GetTimeEntryByGUID guid) = some te) :
    ∃ err rest,
      (kopsik_delete_time_entry ext ctx guid now1 now2).trace
          = [Event.mutex_lock,
              Event.change_callback KOPSIK_API_SUCCESS none
                { model_type := "time_entry", change_type := "delete", model_id := te.id,
                  GUID := guid },
              Event.Save err] ++ rest
        ∧ ((kopsik_delete_time_entry ext ctx guid now1 now2).result = KOPSIK_API_SUCCESS
            ↔ err = noError) := by
  obtain ⟨d1, h1⟩ := hlaws.SetDeletedAt te now1
  obtain ⟨d2, h2⟩ := hlaws.SetUIModifiedAt (ext.SetDeletedAt te now1) now2
  have hmc : deleteChange (ext.SetUIModifiedAt (ext.SetDeletedAt te now1) now2)
      = { model_type := "time_entry", change_type := "delete", model_id := te.id,
          GUID := guid } := by
    rw [h2, h1]
    simp only [deleteChange, guid_of_found user guid te hte]
  rw [kopsik_delete_time_entry_found ext ctx user guid now1 now2 te huser hguid hte, hmc]
  simp only [notify_save_and_sync]
  split
  · rename_i herr
    exact ⟨_, [Event.mutex_unlock], rfl, by simp [failure, herr]⟩
  · rename_i herr
    exact ⟨_, [Event.PartialSync, Event.mutex_unlock], rfl, by simpa [success] using herr⟩

/-- Witness of C12, amended: the deletion of "guid-1" in the concrete environment
whose `Save` fails. -/
theorem kopsik_delete_time_entry_notifies_before_save_witness :
    ∃ err rest,
      (kopsik_delete_time_entry failingSaveExternals
          (sampleContext (some (sampleUser [stoppedTimeEntry] [] []))) "guid-1" 500 501).trace
          = [Event.mutex_lock,
              Event.change_callback KOPSIK_API_SUCCESS none
                { model_type := "time_entry", change_type := "delete",
                  model_id := stoppedTimeEntry.id, GUID := "guid-1" },
              Event.Save err] ++ rest
        ∧ ((kopsik_delete_time_entry failingSaveExternals
              (sampleContext (some (sampleUser [stoppedTimeEntry] [] []))) "guid-1" 500 501).result
              = KOPSIK_API_SUCCESS
            ↔ err = noError) :=
  kopsik_delete_time_entry_notifies_before_save failingSaveExternals
    (sampleContext (some (sampleUser [stoppedTimeEntry] [] []))) (sampleUser [stoppedTimeEntry] [] [])
    "guid-1" stoppedTimeEntry 500 501 failingSaveExternals_contracts rfl (by decide)
    (by decide)

/-! ### The change callback and the mutex -/

theorem callbackCount_sync (ext : Externals DB) (ctx : Context DB) (te : TimeEntryPtr)
    (rest : List Event) :
    callbackCount (syncIfNeedsPush ext ctx te ++ rest) = callbackCount rest := by
  simp only [syncIfNeedsPush]
  split
  · rfl
  · split <;> rfl

theorem callbacksUnderLock_sync (ext : Externals DB) (ctx : Context DB) (te : TimeEntryPtr)
    (rest : List Event) (held : Bool) :
    callbacksUnderLock (syncIfNeedsPush ext ctx te ++ rest) held
      = callbacksUnderLock rest held := by
  simp only [syncIfNeedsPush]
  split
  · rfl
  · split <;> rfl

theorem set_time_entry_no_callback (ext : Externals DB) (ctx : Context DB) (guid : String)
    (now : Nat) (login_message : String) (set : User → TimeEntry → TimeEntry) :
    callbackCount (set_time_entry ext ctx guid now login_message set).trace = 0
      ∧ callbacksUnderLock (set_time_entry ext ctx guid now login_message set).trace false
          = 0 := by
  simp only [set_time_entry]
  repeat' split
  all_goals
    simp [failure, success, callbackCount, callbacksUnderLock, callbackCount_sync,
      callbacksUnderLock_sync]

theorem kopsik_delete_time_entry_callbacks (ext : Externals DB) (ctx : Context DB)
    (guid : String) (now1 now2 : Nat) :
    callbackCount (kopsik_delete_time_entry ext ctx guid now1 now2).trace
        = (if (MutationCall.delete_time_entry guid now1 now2).deletes ctx then 1 else 0)
      ∧ callbacksUnderLock (kopsik_delete_time_entry ext ctx guid now1 now2).trace false
        = callbackCount (kopsik_delete_time_entry ext ctx guid now1 now2).trace := by
  by_cases hg : guid = ""
  · cases hu : ctx.user <;>
      simp [kopsik_delete_time_entry, MutationCall.deletes, hg, hu, failure, callbackCount,
        callbacksUnderLock]
  · cases hu : ctx.user with
    | none =>
      simp [kopsik_delete_time_entry, MutationCall.deletes, hg, hu, failure, callbackCount,
        callbacksUnderLock]
    | some user =>
      cases hd : user.deref (user.GetTimeEntryByGUID guid) with
      | none =>
        simp [kopsik_delete_time_entry, MutationCall.deletes, hg, hu, hd, failure,
          callbackCount, callbacksUnderLock]
      | some te =>
        simp only [kopsik_delete_time_entry, MutationCall.deletes, hg, hu, hd, if_false]
        split <;> simp [failure, success, callbackCount, callbacksUnderLock, hg]

/-- C13, as stated, fails: in the logged-in context with the time entry "guid-1",
`kopsik_delete_time_entry` invokes the change callback once, and it does so between
the acquisition of the scoped lock and its release. -/
theorem kopsik_delete_time_entry_notifies_under_lock :
    (kopsik_delete_time_entry sampleExternals
        (sampleContext (some (sampleUser [stoppedTimeEntry] [] []))) "guid-1" 500 500).trace
        = [Event.mutex_lock,
            Event.change_callback KOPSIK_API_SUCCESS none
              { model_type := "time_entry", change_type := "delete", model_id := 9,
                GUID := "guid-1" },
            Event.Save noError, Event.PartialSync, Event.mutex_unlock]
      ∧ callbacksUnderLock (kopsik_delete_time_entry sampleExternals
        (sampleContext (some (sampleUser [stoppedTimeEntry] [] []))) "guid-1" 500 500).trace
        false = 1 := by
  decide

theorem set_time_entry_callbacks (ext : Externals DB) (ctx : Context DB) (guid : String)
    (now : Nat) (login_message : String) (set : User → TimeEntry → TimeEntry) :
    callbackCount (set_time_entry ext ctx guid now login_message set).trace = 0
      ∧ callbacksUnderLock (set_time_entry ext ctx guid now login_message set).trace false
          = callbackCount (set_time_entry ext ctx guid now login_message set).trace := by
  obtain ⟨h1, h2⟩ := set_time_entry_no_callback ext ctx guid now login_message set
  exact ⟨h1, h2.trans h1.symm⟩

/-- C13, amended: of the calls of the facade, only `kopsik_delete_time_entry` invokes
the change callback itself, exactly once when it gets past its checks, and every such
invocation happens while the scoped lock of `ctx->mutex` is held (between
`mutex_lock` and `mutex_unlock` in the trace); the traces of the other calls of the
mutation group, of the session calls and of the queries hold no invocation of the
change callback. -/
theorem change_callback_only_in_delete_and_under_lock (ext : Externals DB)
    (ctx : Context DB) (call : MutationCall) (email password json guid date : String)
    (include_time_entries include_tasks include_projects : Nat) :
    (callbackCount (call.run ext ctx).trace = (if call.deletes ctx then 1 else 0)
        ∧ callbacksUnderLock (call.run ext ctx).trace false
            = callbackCount (call.run ext ctx).trace)
      ∧ callbackCount (kopsik_login ext ctx email password).trace = 0
      ∧ callbackCount (kopsik_set_logged_in_user ext ctx json).trace = 0
      ∧ callbackCount (kopsik_time_entry_view_item_by_guid ext ctx guid).trace = 0
      ∧ callbackCount (kopsik_autocomplete_items ext ctx include_time_entries include_tasks
          include_projects).trace = 0
      ∧ callbackCount (kopsik_time_entry_view_items ext ctx).trace = 0
      ∧ callbackCount (kopsik_duration_for_date_header ext ctx date).trace = 0
      ∧ (kopsik_tags ctx).map (fun o => callbackCount o.trace)
          = (kopsik_tags ctx).map (fun _ => 0) := by
  refine ⟨?_, ?_, ?_, ?_, ?_, ?_, ?_, ?_⟩
  · cases call with
    | start description duration task_id project_id =>
      simp only [MutationCall.run, MutationCall.deletes, kopsik_start, Bool.false_eq_true, if_false]
      repeat' split
      all_goals
        simp [failure, success, callbackCount, callbacksUnderLock, callbackCount_sync,
          callbacksUnderLock_sync]
    | continue_ guid =>
      simp only [MutationCall.run, MutationCall.deletes, kopsik_continue, Bool.false_eq_true, if_false]
      repeat' split
      all_goals
        simp [failure, success, callbackCount, callbacksUnderLock, callbackCount_sync,
          callbacksUnderLock_sync]
    | continue_latest =>
      simp only [MutationCall.run, MutationCall.deletes, kopsik_continue_latest, Bool.false_eq_true, if_false]
      repeat' split
      all_goals
        simp [failure, success, callbackCount, callbacksUnderLock, callbackCount_sync,
          callbacksUnderLock_sync]
    | stop =>
      simp only [MutationCall.run, MutationCall.deletes, kopsik_stop, Bool.false_eq_true, if_false]
      repeat' split
      all_goals
        simp [failure, success, callbackCount, callbacksUnderLock, callbackCount_sync,
          callbacksUnderLock_sync]
    | stop_running_time_entry_at a =>
      simp only [MutationCall.run, MutationCall.deletes, kopsik_stop_running_time_entry_at, Bool.false_eq_true, if_false]
      repeat' split
      all_goals
        simp [failure, success, callbackCount, callbacksUnderLock, callbackCount_sync,
          callbacksUnderLock_sync]
    | split_running_time_entry_at a =>
      simp only [MutationCall.run, MutationCall.deletes, kopsik_split_running_time_entry_at, Bool.false_eq_true, if_false]
      repeat' split
      all_goals
        simp [failure, success, callbackCount, callbacksUnderLock, callbackCount_sync,
          callbacksUnderLock_sync]
    | delete_time_entry guid now1 now2 =>
      exact kopsik_delete_time_entry_callbacks ext ctx guid now1 now2
    | set_time_entry_duration guid value now =>
      simp only [MutationCall.run, MutationCall.deletes, kopsik_set_time_entry_duration, Bool.false_eq_true, if_false]
      exact set_time_entry_callbacks ext ctx guid now _ _
    | set_time_entry_project guid task_id project_id now =>
      simp only [MutationCall.run, MutationCall.deletes, kopsik_set_time_entry_project, Bool.false_eq_true, if_false]
      exact set_time_entry_callbacks ext ctx guid now _ _
    | set_time_entry_start_iso_8601 guid value now =>
      simp only [MutationCall.run, MutationCall.deletes, kopsik_set_time_entry_start_iso_8601, Bool.false_eq_true, if_false]
      exact set_time_entry_callbacks ext ctx guid now _ _
    | set_time_entry_end_iso_8601 guid value now =>
      simp only [MutationCall.run, MutationCall.deletes, kopsik_set_time_entry_end_iso_8601, Bool.false_eq_true, if_false]
      exact set_time_entry_callbacks ext ctx guid now _ _
    | set_time_entry_tags guid value now =>
      simp only [MutationCall.run, MutationCall.deletes, kopsik_set_time_entry_tags, Bool.false_eq_true, if_false]
      exact set_time_entry_callbacks ext ctx guid now _ _
    | set_time_entry_billable guid value now =>
      simp only [MutationCall.run, MutationCall.deletes, kopsik_set_time_entry_billable, Bool.false_eq_true, if_false]
      exact set_time_entry_callbacks ext ctx guid now _ _
    | set_time_entry_description guid value now =>
      simp only [MutationCall.run, MutationCall.deletes, kopsik_set_time_entry_description, Bool.false_eq_true, if_false]
      exact set_time_entry_callbacks ext ctx guid now _ _
  · simp only [kopsik_login]
    repeat' split
    all_goals simp [failure, success, callbackCount]
  · simp only [kopsik_set_logged_in_user]
    repeat' split
    all_goals simp [failure, success, callbackCount]
  · simp only [kopsik_time_entry_view_item_by_guid]
    repeat' split
    all_goals simp [failure, success, callbackCount]
  · simp only [kopsik_autocomplete_items]
    repeat' split
    all_goals simp [failure, success, callbackCount]
  · simp only [kopsik_time_entry_view_items]
    repeat' split
    all_goals simp [failure, success, callbackCount]
  · simp only [kopsik_duration_for_date_header]
    repeat' split
    all_goals simp [failure, success, callbackCount]
  · simp only [kopsik_tags]
    split <;> simp [success, callbackCount]

/-! ### Login -/

/-- C15, as stated, fails: with `oldUser` logged in, the stored API token "old-token"
and a store whose `Save` fails, `kopsik_login` with valid credentials returns
`KOPSIK_API_FAILURE` with the error of `Save`, after it has stored the new token and
replaced the session user: neither the session user nor the stored token is what it
was. -/
theorem kopsik_login_save_error_replaces_session :
    oldSessionContext.user = some oldUser
      ∧ oldSessionContext.db = "old-token"
      ∧ (kopsik_login failingSaveExternals oldSessionContext "new@example.com"
          "secret").result = KOPSIK_API_FAILURE
      ∧ (kopsik_login failingSaveExternals oldSessionContext "new@example.com"
          "secret").errmsg = some "database is locked"
      ∧ ((kopsik_login failingSaveExternals oldSessionContext "new@example.com"
          "secret").ctx.user.map fun u => u.email_) = some "new@example.com"
      ∧ (kopsik_login failingSaveExternals oldSessionContext "new@example.com"
          "secret").ctx.user ≠ some oldUser
      ∧ (kopsik_login failingSaveExternals oldSessionContext "new@example.com"
          "secret").ctx.db = "token" := by
  decide

/-! ### Selecting a project -/

theorem setUIModifiedAt_value (ext : Externals DB) (hlaws : Contracts ext) (x : TimeEntry)
    (v : Nat) : (ext.SetUIModifiedAt x v).ui_modified_at = v := by
  obtain ⟨d, hd⟩ := hlaws.SetUIModifiedAt x v
  rw [hd]

/-- C17, as stated, fails: the time entry "guid-1" was edited at the clock time 500
(`ui_modified_at = 500`); `kopsik_set_time_entry_description` called within the same
second changes the description and leaves the entry dirty, and
`kopsik_delete_time_entry` called within the same second sets `DeletedAt`, yet
`ui_modified_at` is 500 after either call: it has not grown. -/
theorem same_second_edit_keeps_ui_modified_at :
    editedTimeEntry.ui_modified_at = 500
      ∧ (kopsik_set_time_entry_description sampleExternals
          (sampleContext (some (sampleUser [editedTimeEntry] [] []))) "guid-1" "new text"
          500).ctx.deref (some 0)
        = some { editedTimeEntry with
            description := "new text", dirty := true, ui_modified_at := 500 }
      ∧ (kopsik_delete_time_entry sampleExternals
          (sampleContext (some (sampleUser [editedTimeEntry] [] []))) "guid-1" 500
          500).ctx.deref (some 0)
        = some { editedTimeEntry with deleted_at := 500, ui_modified_at := 500 } := by
  decide

theorem typedSetter_comp (f g : TimeEntry → TimeEntry) (hf : TypedSetter f)
    (hg : TypedSetter g) : TypedSetter fun te => g (f te) := by
  intro te
  obtain ⟨hf1, hf2⟩ := hf te
  obtain ⟨hg1, hg2⟩ := hg (f te)
  refine ⟨?_, hg2.trans hf2⟩
  show g (f te) = te ∨ (g (f te)).dirty = true
  rcases hg1 with hg1 | hg1
  · rw [hg1]
    exact hf1
  · exact Or.inr hg1

theorem typedSetter_id : TypedSetter fun te => te :=
  fun _ => ⟨Or.inl rfl, rfl⟩

theorem typedSetter_of_exact (f : TimeEntry → TimeEntry) (c : TimeEntry → Prop)
    [DecidablePred c] (g : TimeEntry → TimeEntry)
    (hf : ∀ te, f te = if c te then te else g te) (hg : ∀ te, (g te).dirty = true)
    (hui : ∀ te, (g te).ui_modified_at = te.ui_modified_at) : TypedSetter f := by
  intro te
  rw [hf te]
  by_cases h : c te
  · rw [if_pos h]
    exact ⟨Or.inl rfl, rfl⟩
  · rw [if_neg h]
    exact ⟨Or.inr (hg te), hui te⟩

theorem setterCall_typed_isTyped (ext : Externals DB) (hlaws : Contracts ext) (user : User)
    (call : SetterCall) : TypedSetter (call.typed ext user) := by
  have hTID : ∀ v, TypedSetter fun te => ext.SetTID te v := fun v =>
    typedSetter_of_exact _ (fun te => te.tid = v) _ (fun te => hlaws.SetTID te v)
      (fun _ => rfl) (fun _ => rfl)
  have hPID : ∀ v, TypedSetter fun te => ext.SetPID te v := fun v =>
    typedSetter_of_exact _ (fun te => te.pid = v) _ (fun te => hlaws.SetPID te v)
      (fun _ => rfl) (fun _ => rfl)
  have hBillable : ∀ v, TypedSetter fun te => ext.SetBillable te v := fun v =>
    typedSetter_of_exact _ (fun te => te.billable = v) _ (fun te => hlaws.SetBillable te v)
      (fun _ => rfl) (fun _ => rfl)
  cases call with
  | set_time_entry_duration value => exact hlaws.SetDurationString value
  | set_time_entry_project task_id project_id =>
    have hfirst : TypedSetter fun te =>
        if project_id ≠ 0 then
          match user.GetProjectByID project_id with
          | some p => ext.SetBillable te p.billable
          | none => te
        else te := by
      intro te
      beta_reduce
      by_cases hp : project_id ≠ 0
      · rw [if_pos hp]
        cases user.GetProjectByID project_id with
        | none => exact ⟨Or.inl rfl, rfl⟩
        | some p => exact hBillable p.billable te
      · rw [if_neg hp]
        exact ⟨Or.inl rfl, rfl⟩
    exact typedSetter_comp _ (fun te => ext.SetPID te project_id)
      (typedSetter_comp _ (fun te => ext.SetTID te task_id) hfirst (hTID task_id))
      (hPID project_id)
  | set_time_entry_start_iso_8601 value => exact hlaws.SetStartString value
  | set_time_entry_end_iso_8601 value => exact hlaws.SetStopString value
  | set_time_entry_tags value =>
    exact typedSetter_of_exact _ (fun te => te.tags = value) _
      (fun te => hlaws.SetTags te value) (fun _ => rfl) (fun _ => rfl)
  | set_time_entry_billable value =>
    intro te
    simp only [SetterCall.typed]
    by_cases hv : value ≠ 0
    · rw [if_pos hv]
      exact hBillable true te
    · rw [if_neg hv]
      exact hBillable false te
  | set_time_entry_description value =>
    exact typedSetter_of_exact _ (fun te => te.description = value) _
      (fun te => hlaws.SetDescription te value) (fun _ => rfl) (fun _ => rfl)

/-- C18, as stated, fails: the time entry "guid-1" is not dirty, has the project 7
and no task, and is not billable, while the project 7 is billable.
`kopsik_set_time_entry_project("guid-1", 0, 7)`, a call with the task and the
project that the entry already holds, runs `SetBillable` with the flag of the
project: the entry becomes billable and dirty, and `ui_modified_at` goes from 0 to
the clock value 500. -/
theorem reselecting_the_project_refreshes_ui_modified_at :
    projectTimeEntry.dirty = false ∧ projectTimeEntry.pid = 7 ∧ projectTimeEntry.tid = 0
      ∧ projectTimeEntry.ui_modified_at = 0
      ∧ (kopsik_set_time_entry_project sampleExternals
          (sampleContext (some (sampleUser [projectTimeEntry] [billableProject] [])))
          "guid-1" 0 7 500).ctx.deref (some 0)
        = some { projectTimeEntry with
            billable := true, dirty := true, ui_modified_at := 500 } := by
  decide

/-! ### The partial sync -/

theorem wrapInt64_of_range (x : Int) (hlo : -2 ^ 63 ≤ x) (hhi : x < 2 ^ 63) :
    wrapInt64 x = x := by
  simp only [wrapInt64]
  omega

theorem wrapInt64_idem (x : Int) : wrapInt64 (wrapInt64 x) = wrapInt64 x := by
  simp only [wrapInt64]
  omega

theorem wrapInt64_wrap_add (a b : Int) : wrapInt64 (wrapInt64 a + b) = wrapInt64 (a + b) := by
  simp only [wrapInt64]
  omega

theorem visibleEntries_cons (te : TimeEntry) (rest : List TimeEntry) :
    visibleEntries (te :: rest)
      = if 0 ≤ te.duration_in_seconds ∧ te.deleted_at = 0 then te :: visibleEntries rest
        else visibleEntries rest := by
  simp only [visibleEntries, List.filter_cons, decide_eq_true_eq]

theorem day_total_skip (ext : Externals DB) (te : TimeEntry) (rest : List TimeEntry)
    (date_header : String) (h : ¬ (0 ≤ te.duration_in_seconds ∧ te.deleted_at = 0)) :
    day_total ext (te :: rest) date_header = day_total ext rest date_header := by
  simp only [day_total, visibleEntries_cons, if_neg h]

theorem day_total_cons (ext : Externals DB) (te : TimeEntry) (rest : List TimeEntry)
    (date_header : String) (h : 0 ≤ te.duration_in_seconds ∧ te.deleted_at = 0) :
    day_total ext (te :: rest) date_header
      = if ext.DateHeaderString te = date_header then
          te.duration_in_seconds + day_total ext rest date_header
        else day_total ext rest date_header := by
  simp only [day_total, visibleEntries_cons, if_pos h, List.filter_cons, decide_eq_true_eq]
  split <;> simp

/-- The first loop of `kopsik_time_entry_view_items` over entries with GUID: it
appends the visible entries and adds, per date header and in 64-bit arithmetic, the
durations of the visible entries with that header. -/
theorem view_items_loop_spec (ext : Externals DB) (time_entries : List TimeEntry)
    (hguid : ∀ te ∈ time_entries, te.guid ≠ "") (visible : List TimeEntry)
    (date_durations : String → Int)
    (hrange : ∀ key, wrapInt64 (date_durations key) = date_durations key) :
    ∃ totals,
      view_items_loop ext time_entries (visible, date_durations)
          = some (visible ++ visibleEntries time_entries, totals)
        ∧ ∀ key, totals key
            = wrapInt64 (date_durations key + day_total ext time_entries key) := by
  induction time_entries generalizing visible date_durations with
  | nil =>
    refine ⟨date_durations, ?_, ?_⟩
    · simp [view_items_loop, visibleEntries]
    · intro key
      simp [day_total, visibleEntries, hrange key]
  | cons te rest ih =>
    have hte : te.guid ≠ "" := hguid te (List.mem_cons_self _ _)
    have hrest : ∀ e ∈ rest, e.guid ≠ "" := fun e he => hguid e (List.mem_cons_of_mem _ he)
    by_cases hdur : te.duration_in_seconds < 0
    · have hskip : ¬ (0 ≤ te.duration_in_seconds ∧ te.deleted_at = 0) := by omega
      obtain ⟨totals, h1, h2⟩ := ih hrest visible date_durations hrange
      refine ⟨totals, ?_, ?_⟩
      · simp only [view_items_loop, hte, if_false, hdur, if_true, visibleEntries_cons,
          if_neg hskip]
        exact h1
      · intro key
        rw [day_total_skip ext te rest key hskip]
        exact h2 key
    · by_cases hdel : te.DeletedAt > 0
      · have hskip : ¬ (0 ≤ te.duration_in_seconds ∧ te.deleted_at = 0) := by
          simp only [TimeEntry.DeletedAt] at hdel
          omega
        obtain ⟨totals, h1, h2⟩ := ih hrest visible date_durations hrange
        refine ⟨totals, ?_, ?_⟩
        · simp only [view_items_loop, hte, if_false, hdur, hdel, if_true, visibleEntries_cons,
            if_neg hskip]
          exact h1
        · intro key
          rw [day_total_skip ext te rest key hskip]
          exact h2 key
      · have hvis : 0 ≤ te.duration_in_seconds ∧ te.deleted_at = 0 := by
          simp only [TimeEntry.DeletedAt] at hdel
          omega
        have hrange1 : ∀ key,
            wrapInt64 (if key = ext.DateHeaderString te then
                wrapInt64 (date_durations (ext.DateHeaderString te) + te.duration_in_seconds)
              else date_durations key)
            = (if key = ext.DateHeaderString te then
                wrapInt64 (date_durations (ext.DateHeaderString te) + te.duration_in_seconds)
              else date_durations key) := by
          intro key
          by_cases hk : key = ext.DateHeaderString te
          · rw [if_pos hk, wrapInt64_idem]
          · rw [if_neg hk, hrange key]
        obtain ⟨totals, h1, h2⟩ := ih hrest (visible ++ [te]) _ hrange1
        refine ⟨totals, ?_, ?_⟩
        · simp only [view_items_loop, hte, if_false, hdur, hdel, visibleEntries_cons,
            if_pos hvis]
          rw [h1]
          simp
        · intro key
          rw [h2 key, day_total_cons ext te rest key hvis]
          by_cases hk : key = ext.DateHeaderString te
          · rw [if_pos hk, if_pos hk.symm, wrapInt64_wrap_add, hk]
            congr 1
            ring
          · rw [if_neg hk, if_neg (fun h => hk h.symm)]

/-- C20: `kopsik_time_entry_view_items`, for a logged-in user whose time entries all
have a GUID, succeeds and writes one view item per visible entry (duration at least
0, no local deletion mark) of the sorted graph, in that order; the per-day duration
of the item of `te` is `FormatDurationInSecondsHHMM(total, 2)` of the 64-bit sum
`total` of `DurationInSeconds` over the visible entries whose `DateHeaderString`
equals that of `te`, so it depends on the date header only; the 64-bit sum is the
exact sum whenever the exact sum fits into `Poco::Int64`. -/
theorem view_items_day_totals (ext : Externals DB) (ctx : Context DB) (user : User)
    (huser : ctx.user = some user)
    (hguid : ∀ te ∈ user.related.TimeEntries, te.guid ≠ "") :
    (kopsik_time_entry_view_items ext ctx).result = KOPSIK_API_SUCCESS
      ∧ (kopsik_time_entry_view_items ext ctx).out
          = (if visibleEntries user.SortTimeEntriesByStart.related.TimeEntries = [] then none
            else
              some ((visibleEntries user.SortTimeEntriesByStart.related.TimeEntries).map
                fun te =>
                  ext.time_entry_to_view_item (some te) (some user.SortTimeEntriesByStart)
                    (ext.FormatDurationInSecondsHHMM
                      (wrapInt64
                        (day_total ext user.SortTimeEntriesByStart.related.TimeEntries
                          (ext.DateHeaderString te))) 2)))
      ∧ ∀ date_header,
          -2 ^ 63 ≤ day_total ext user.SortTimeEntriesByStart.related.TimeEntries date_header →
          day_total ext user.SortTimeEntriesByStart.related.TimeEntries date_header < 2 ^ 63 →
          wrapInt64 (day_total ext user.SortTimeEntriesByStart.related.TimeEntries date_header)
            = day_total ext user.SortTimeEntriesByStart.related.TimeEntries date_header := by
  have hsorted : ∀ te ∈ user.SortTimeEntriesByStart.related.TimeEntries, te.guid ≠ "" := by
    intro te hte
    apply hguid te
    simp only [User.SortTimeEntriesByStart] at hte
    exact (List.perm_insertionSort _ _).mem_iff.mp hte
  obtain ⟨totals, h1, h2⟩ :=
    view_items_loop_spec ext user.SortTimeEntriesByStart.related.TimeEntries hsorted []
      (fun _ => 0) (fun _ => by simp [wrapInt64])
  simp only [List.nil_append] at h1
  simp only [zero_add] at h2
  refine ⟨?_, ?_, fun date_header hlo hhi => wrapInt64_of_range _ hlo hhi⟩
  · simp only [kopsik_time_entry_view_items, huser, h1]
    split <;> rfl
  · simp only [kopsik_time_entry_view_items, huser, h1]
    split
    · rfl
    · simp only [success, h2]

/-- Witness of C20: the five entries of `dayEntries` give three view items, newest
first, with the per-day durations of 300 seconds for day 1 and of 180 seconds for
day 0. -/
theorem view_items_day_totals_witness :
    (sampleContext (some (sampleUser dayEntries [] []))).user
        = some (sampleUser dayEntries [] [])
      ∧ (∀ te ∈ (sampleUser dayEntries [] []).related.TimeEntries, te.guid ≠ "")
      ∧ (kopsik_time_entry_view_items sampleExternals
          (sampleContext (some (sampleUser dayEntries [] [])))).result = KOPSIK_API_SUCCESS
      ∧ ((kopsik_time_entry_view_items sampleExternals
            (sampleContext (some (sampleUser dayEntries [] [])))).out.map
          fun items => items.map fun item => (item.GUID, item.DateDuration))
          = some [(some "guid-3", some "5 min"), (some "guid-2", some "3 min"),
              (some "guid-1", some "3 min")]
      ∧ day_total sampleExternals
          (sampleUser dayEntries [] []).SortTimeEntriesByStart.related.TimeEntries "day 0" = 180
      ∧ wrapInt64 (day_total sampleExternals
          (sampleUser dayEntries [] []).SortTimeEntriesByStart.related.TimeEntries "day 0")
          = day_total sampleExternals
              (sampleUser dayEntries [] []).SortTimeEntriesByStart.related.TimeEntries "day 0" :=
  ⟨rfl, by decide,
    (view_items_day_totals sampleExternals (sampleContext (some (sampleUser dayEntries [] [])))
      (sampleUser dayEntries [] []) rfl (by decide)).1,
    by decide, by decide,
    (view_items_day_totals sampleExternals (sampleContext (some (sampleUser dayEntries [] [])))
      (sampleUser dayEntries [] []) rfl (by decide)).2.2 "day 0" (by decide) (by decide)⟩

/-! ### The error buffer -/

theorem strncpy_length (dest src : List Char) (n : Nat) (buffer : List Char)
    (h : strncpy dest src n = some buffer) : buffer.length = dest.length := by
  simp only [strncpy] at h
  split at h
  · rename_i hn
    cases h
    simp only [List.length_append, List.length_take, List.length_replicate, List.length_drop]
    omega
  · cases h

theorem strncpy_take (dest src : List Char) (n : Nat) (hn : n ≤ dest.length) :
    ∃ buffer, strncpy dest src n = some buffer
      ∧ buffer.take n = src.take n ++ List.replicate (n - src.length) NUL
      ∧ buffer.drop n = dest.drop n := by
  have hlen : (src.take n ++ List.replicate (n - src.length) NUL).length = n := by
    simp only [List.length_append, List.length_take, List.length_replicate]
    omega
  refine ⟨src.take n ++ List.replicate (n - src.length) NUL ++ dest.drop n,
    by simp only [strncpy, if_pos hn], ?_, ?_⟩
  · rw [List.take_append_of_le_length (by omega), List.take_of_length_le (by omega)]
  · rw [List.drop_append_of_le_length (by omega), List.drop_of_length_le (by omega),
      List.nil_append]

theorem c_string_terminated (s : List Char) (k : Nat) (hs : NUL ∉ s) :
    c_string (s ++ List.replicate (k + 1) NUL) = some s := by
  have hmem : NUL ∈ s ++ List.replicate (k + 1) NUL := by
    simp [List.replicate_succ]
  have htake : ∀ l : List Char, NUL ∉ l →
      (l ++ List.replicate (k + 1) NUL).takeWhile (fun c => decide (c ≠ NUL)) = l := by
    intro l
    induction l with
    | nil => intro _; simp [List.replicate_succ, List.takeWhile]
    | cons a as ih =>
      intro h
      have ha : a ≠ NUL := fun e => h (by simp [e])
      have has : NUL ∉ as := fun e => h (List.mem_cons_of_mem _ e)
      have hih := ih has
      simp only [List.cons_append, List.takeWhile_cons, ha, ne_eq, not_false_eq_true,
        decide_True, if_true, List.cons.injEq, true_and]
      exact hih
  simp only [c_string, if_pos hmem, htake s hs]

/-- C21, as stated, fails: `kopsik_login` with an empty email fails with the message
"Empty email" (11 characters); handed an array of six characters 'x' and
`errlen = 4`, it leaves "Emptxx" in the array: the first four characters hold no
terminator, and the array holds no C string at all. -/
theorem strncpy_leaves_long_message_unterminated :
    (kopsik_login sampleExternals (sampleContext none) "" "secret").result
        = KOPSIK_API_FAILURE
      ∧ (kopsik_login sampleExternals (sampleContext none) "" "secret").errmsg
        = some "Empty email"
      ∧ (kopsik_login sampleExternals (sampleContext none) "" "secret").errmsgBuffer
          ['x', 'x', 'x', 'x', 'x', 'x'] 4
        = some ['E', 'm', 'p', 't', 'x', 'x']
      ∧ NUL ∉ ['E', 'm', 'p', 't']
      ∧ c_string ['E', 'm', 'p', 't', 'x', 'x'] = none := by
  decide

/-- C21, amended: a facade call that reports the message `message` (without NUL
character) into an array `errmsg` of at least `errlen` characters writes within the
first `errlen` characters only, and these start with the first `errlen` characters
of the message. When the message is shorter than `errlen`, the first `errlen`
characters hold the whole message as a NUL-terminated string; when the message has
`errlen` characters or more, they are the first `errlen` characters of the message
and hold no terminator. -/
theorem errmsg_buffer_after_failure {α : Type} (o : Outcome DB α) (message : String)
    (errmsg : List Char) (errlen : Nat) (hmessage : o.errmsg = some message)
    (hnul : NUL ∉ message.data) (hlen : errlen ≤ errmsg.length) :
    ∃ buffer,
      o.errmsgBuffer errmsg errlen = some buffer
        ∧ buffer.length = errmsg.length
        ∧ buffer.drop errlen = errmsg.drop errlen
        ∧ message.data.take errlen <+: buffer
        ∧ (message.data.length < errlen →
            c_string (buffer.take errlen) = some message.data)
        ∧ (errlen ≤ message.data.length →
            buffer.take errlen = message.data.take errlen ∧ NUL ∉ buffer.take errlen) := by
  obtain ⟨buffer, hb, htake, hdrop⟩ := strncpy_take errmsg message.data errlen hlen
  refine ⟨buffer, ?_, strncpy_length _ _ _ _ hb, hdrop, ?_, ?_, ?_⟩
  · simp only [Outcome.errmsgBuffer, hmessage, hb]
  · refine ⟨List.replicate (errlen - message.data.length) NUL ++ buffer.drop errlen, ?_⟩
    rw [← List.append_assoc, ← htake, List.take_append_drop]
  · intro hshort
    obtain ⟨k, hk⟩ : ∃ k, errlen - message.data.length = k + 1 :=
      ⟨errlen - message.data.length - 1, by omega⟩
    rw [htake, hk, List.take_of_length_le (by omega)]
    exact c_string_terminated _ _ hnul
  · intro hlong
    have h0 : errlen - message.data.length = 0 := by omega
    have heq : buffer.take errlen = message.data.take errlen := by
      rw [htake, h0, List.replicate_zero, List.append_nil]
    refine ⟨heq, ?_⟩
    rw [heq]
    exact fun h => hnul (List.mem_of_mem_take h)

/-- Witness of C21, amended: the message "Empty email" of `kopsik_login` in an array
of sixteen characters with `errlen = 16`. -/
theorem errmsg_buffer_after_failure_witness :
    ∃ buffer,
      (kopsik_login sampleExternals (sampleContext none) "" "secret").errmsgBuffer
          (List.replicate 16 'x') 16 = some buffer
        ∧ buffer.length = (List.replicate 16 'x').length
        ∧ buffer.drop 16 = (List.replicate 16 'x').drop 16
        ∧ "Empty email".data.take 16 <+: buffer
        ∧ ("Empty email".data.length < 16 →
            c_string (buffer.take 16) = some "Empty email".data)
        ∧ (16 ≤ "Empty email".data.length →
            buffer.take 16 = "Empty email".data.take 16 ∧ NUL ∉ buffer.take 16) :=
  errmsg_buffer_after_failure (kopsik_login sampleExternals (sampleContext none) "" "secret")
    "Empty email" (List.replicate 16 'x') 16 (by decide) (by decide) (by decide)

/-! ### Logout and the clearing of the cache -/

/-- C22: `kopsik_clear_cache` with the logged-in user `user` first calls
`Database::DeleteUser(user, true)` under the lock. It calls `kopsik_logout`
afterwards if and only if the delete returned no error, and then its result, its
error message and the context it leaves are exactly those of `kopsik_logout`. If the
delete fails, the call returns `KOPSIK_API_FAILURE` with the error of the store, a
user stays logged in, and neither `Shutdown` nor `ClearCurrentAPIToken` is called.
With no logged-in user the call returns `KOPSIK_API_SUCCESS` without any step and
leaves the context as it is. -/
theorem kopsik_clear_cache_deletes_then_logs_out (sx : SessionExternals DB)
    (ctx : Context DB) (user : User) (huser : ctx.user = some user) :
    (kopsik_clear_cache sx ctx).steps.take 3
        = [SessionStep.mutex_lock, SessionStep.DeleteUser true, SessionStep.mutex_unlock]
      ∧ (SessionStep.logout ∈ (kopsik_clear_cache sx ctx).steps
          ↔ (sx.DeleteUser ctx.db user true).1 = noError)
      ∧ ((sx.DeleteUser ctx.db user true).1 = noError →
          (kopsik_clear_cache sx ctx).result
              = (kopsik_logout sx (contextAfterDeleteUser sx ctx user)).result
            ∧ (kopsik_clear_cache sx ctx).errmsg
              = (kopsik_logout sx (contextAfterDeleteUser sx ctx user)).errmsg
            ∧ (kopsik_clear_cache sx ctx).ctx
              = (kopsik_logout sx (contextAfterDeleteUser sx ctx user)).ctx
            ∧ (kopsik_clear_cache sx ctx).steps
              = [SessionStep.mutex_lock, SessionStep.DeleteUser true,
                  SessionStep.mutex_unlock, SessionStep.logout]
                ++ (kopsik_logout sx (contextAfterDeleteUser sx ctx user)).steps)
      ∧ ((sx.DeleteUser ctx.db user true).1 ≠ noError →
          (kopsik_clear_cache sx ctx).result = KOPSIK_API_FAILURE
            ∧ (kopsik_clear_cache sx ctx).errmsg = some (sx.DeleteUser ctx.db user true).1
            ∧ (kopsik_clear_cache sx ctx).ctx.user.isSome = true
            ∧ (kopsik_clear_cache sx ctx).steps
              = [SessionStep.mutex_lock, SessionStep.DeleteUser true,
                  SessionStep.mutex_unlock])
      ∧ (kopsik_clear_cache sx { ctx with user := none }).result = KOPSIK_API_SUCCESS
      ∧ (kopsik_clear_cache sx { ctx with user := none }).errmsg = none
      ∧ (kopsik_clear_cache sx { ctx with user := none }).steps = []
      ∧ (kopsik_clear_cache sx { ctx with user := none }).ctx = { ctx with user := none } := by
  by_cases herr : (sx.DeleteUser ctx.db user true).1 = noError
  · have hrun : kopsik_clear_cache sx ctx
        = { kopsik_logout sx (contextAfterDeleteUser sx ctx user) with
            steps := [SessionStep.mutex_lock, SessionStep.DeleteUser true,
                SessionStep.mutex_unlock, SessionStep.logout]
              ++ (kopsik_logout sx (contextAfterDeleteUser sx ctx user)).steps } := by
      simp only [kopsik_clear_cache, huser, herr, ne_eq, not_true_eq_false, if_false,
        contextAfterDeleteUser]
    refine ⟨?_, ?_, ?_, ?_, rfl, rfl, rfl, rfl⟩
    · rw [hrun]
      rfl
    · rw [hrun]
      simp [herr]
    · intro _
      rw [hrun]
      exact ⟨rfl, rfl, rfl, rfl⟩
    · intro h
      exact absurd herr h
  · have hrun : kopsik_clear_cache sx ctx
        = { result := KOPSIK_API_FAILURE, errmsg := some (sx.DeleteUser ctx.db user true).1,
            ctx := contextAfterDeleteUser sx ctx user,
            steps := [SessionStep.mutex_lock, SessionStep.DeleteUser true,
                SessionStep.mutex_unlock] } := by
      simp only [kopsik_clear_cache, huser, herr, ne_eq, not_false_eq_true, if_true,
        contextAfterDeleteUser]
    refine ⟨?_, ?_, ?_, ?_, rfl, rfl, rfl, rfl⟩
    · rw [hrun]
      rfl
    · rw [hrun]
      simp [herr]
    · intro h
      exact absurd h herr
    · intro _
      rw [hrun]
      exact ⟨rfl, rfl, rfl, rfl⟩

/-- Witness of C22: the cache of the logged-in user is cleared over an unlocked
store; the user is deleted, `kopsik_logout` is called, clears the token and logs the
user out. -/
theorem kopsik_clear_cache_deletes_then_logs_out_witness :
    loggedInSessionContext.user = some (sampleUser [] [] [])
      ∧ (kopsik_clear_cache sampleSessionExternals loggedInSessionContext).steps.take 3
        = [SessionStep.mutex_lock, SessionStep.DeleteUser true, SessionStep.mutex_unlock]
      ∧ (SessionStep.logout
            ∈ (kopsik_clear_cache sampleSessionExternals loggedInSessionContext).steps
          ↔ (sampleSessionExternals.DeleteUser loggedInSessionContext.db
              (sampleUser [] [] []) true).1 = noError)
      ∧ (kopsik_clear_cache sampleSessionExternals loggedInSessionContext).result
        = KOPSIK_API_SUCCESS
      ∧ (kopsik_clear_cache sampleSessionExternals loggedInSessionContext).steps
        = [SessionStep.mutex_lock, SessionStep.DeleteUser true, SessionStep.mutex_unlock,
            SessionStep.logout, SessionStep.Shutdown, SessionStep.mutex_lock,
            SessionStep.ClearCurrentAPIToken, SessionStep.mutex_unlock]
      ∧ (kopsik_clear_cache sampleSessionExternals loggedInSessionContext).ctx.user = none
      ∧ (kopsik_clear_cache sampleSessionExternals loggedInSessionContext).ctx.db
        = { token := none, users := [], locked := false } :=
  ⟨rfl,
    (kopsik_clear_cache_deletes_then_logs_out sampleSessionExternals loggedInSessionContext
      (sampleUser [] [] []) rfl).1,
    (kopsik_clear_cache_deletes_then_logs_out sampleSessionExternals loggedInSessionContext
      (sampleUser [] [] []) rfl).2.1,
    by decide, by decide, by decide, by decide⟩

/-! ### Calls made while no user is logged in -/

/-- C23, divergence: with no user logged in, `kopsik_tags` and
`kopsik_timeline_toggle_recording` dereference the null `ctx->user` (no result is
defined), while `kopsik_timeline_is_recording_enabled`, `kopsik_autocomplete_items`,
`kopsik_time_entry_view_items` and `kopsik_duration_for_date_header` on the same
context test `ctx->user` first and return. -/
theorem kopsik_tags_and_toggle_recording_dereference_null_user :
    (sampleContext none).user = none
      ∧ (kopsik_tags (sampleContext none)).isNone = true
      ∧ (kopsik_timeline_toggle_recording sampleExternals sampleTimelineExternals
          (sampleContext none)).isNone = true
      ∧ kopsik_timeline_is_recording_enabled (some (sampleContext none)) = 0
      ∧ (kopsik_autocomplete_items sampleExternals (sampleContext none) 1 1 1).result
        = KOPSIK_API_SUCCESS
      ∧ (kopsik_time_entry_view_items sampleExternals (sampleContext none)).result
        = KOPSIK_API_SUCCESS
      ∧ (kopsik_duration_for_date_header sampleExternals (sampleContext none) "day 0").errmsg
        = some "Please login to access time entry" := by
  decide

/-! ### User-input errors and the networking classification -/

/-- The messages that the calls of the mutation group report when no user is logged
in or when the GUID is missing are among `userInputErrorLiterals`. -/
theorem mutation_call_message_is_literal (ext : Externals DB) (ctx : Context DB)
    (call : MutationCall) (huser : ctx.user = none) (hat : call.at_ ≠ some 0) :
    ∃ message ∈ userInputErrorLiterals, (call.run ext ctx).errmsg = some message := by
  have hset : ∀ (guid : String) (now : Nat) (login_message : String)
      (set : User → TimeEntry → TimeEntry), login_message ∈ userInputErrorLiterals →
      ∃ message ∈ userInputErrorLiterals,
        (set_time_entry ext ctx guid now login_message set).errmsg = some message := by
    intro guid now login_message set hin
    by_cases hg : guid = ""
    · subst hg
      rw [set_time_entry_missing_guid]
      exact ⟨"Missing GUID", by decide, rfl⟩
    · rw [set_time_entry_logged_out ext ctx guid now login_message set hg huser]
      exact ⟨login_message, hin, rfl⟩
  cases call with
  | start description duration task_id project_id =>
    exact ⟨"Please login to start time tracking", by decide,
      by simp [MutationCall.run, kopsik_start, huser, failure]⟩
  | continue_ guid =>
    by_cases hg : guid = ""
    · exact ⟨"Missing GUID", by decide, by simp [MutationCall.run, kopsik_continue, hg, failure]⟩
    · exact ⟨"Please login to continue time tracking", by decide,
        by simp [MutationCall.run, kopsik_continue, hg, huser, failure]⟩
  | continue_latest =>
    exact ⟨"Please login to continue tracking last time entry", by decide,
      by simp [MutationCall.run, kopsik_continue_latest, huser, failure]⟩
  | stop =>
    exact ⟨"Please login to stop time tracking", by decide,
      by simp [MutationCall.run, kopsik_stop, huser, failure]⟩
  | stop_running_time_entry_at a =>
    have ha : a ≠ 0 := fun h => hat (by simp [MutationCall.at_, h])
    exact ⟨"Please login to stop running time entry", by decide,
      by simp [MutationCall.run, kopsik_stop_running_time_entry_at, ha, huser, failure]⟩
  | split_running_time_entry_at a =>
    have ha : a ≠ 0 := fun h => hat (by simp [MutationCall.at_, h])
    exact ⟨"Please login to split time entry", by decide,
      by simp [MutationCall.run, kopsik_split_running_time_entry_at, ha, huser, failure]⟩
  | delete_time_entry guid now1 now2 =>
    by_cases hg : guid = ""
    · exact ⟨"Missing GUID", by decide,
        by simp [MutationCall.run, kopsik_delete_time_entry, hg, failure]⟩
    · exact ⟨"Please login to delete time entry", by decide,
        by simp [MutationCall.run, kopsik_delete_time_entry, hg, huser, failure]⟩
  | set_time_entry_duration guid value now =>
    simp only [MutationCall.run, kopsik_set_time_entry_duration]
    exact hset guid now _ _ (by decide)
  | set_time_entry_project guid task_id project_id now =>
    simp only [MutationCall.run, kopsik_set_time_entry_project]
    exact hset guid now _ _ (by decide)
  | set_time_entry_start_iso_8601 guid value now =>
    simp only [MutationCall.run, kopsik_set_time_entry_start_iso_8601]
    exact hset guid now _ _ (by decide)
  | set_time_entry_end_iso_8601 guid value now =>
    simp only [MutationCall.run, kopsik_set_time_entry_end_iso_8601]
    exact hset guid now _ _ (by decide)
  | set_time_entry_tags guid value now =>
    simp only [MutationCall.run, kopsik_set_time_entry_tags]
    exact hset guid now _ _ (by decide)
  | set_time_entry_billable guid value now =>
    simp only [MutationCall.run, kopsik_set_time_entry_billable]
    exact hset guid now _ _ (by decide)
  | set_time_entry_description guid value now =>
    simp only [MutationCall.run, kopsik_set_time_entry_description]
    exact hset guid now _ _ (by decide)

theorem userInputErrorLiterals_classified :
    userInputErrorLiterals.all (fun message => kopsik_is_networking_error message == 0)
      = true := by
  decide

/-- C24: every user-input error message that the facade holds as a literal ("Missing
GUID", "Empty email", "Empty password", "Missing topic", "Missing details" and the
nineteen "Please login ..." messages) is classified as not a networking error:
`kopsik_is_networking_error` returns 0 on it. -/
theorem user_input_error_is_not_networking_error (message : String)
    (hmessage : message ∈ userInputErrorLiterals) :
    kopsik_is_networking_error message = 0 := by
  have h := List.all_eq_true.mp userInputErrorLiterals_classified message hmessage
  exact beq_iff_eq.mp h

/-- Witness of C24: the message "Missing GUID" of scenario S7. -/
theorem user_input_error_is_not_networking_error_witness :
    "Missing GUID" ∈ userInputErrorLiterals ∧ kopsik_is_networking_error "Missing GUID" = 0 :=
  ⟨by decide, user_input_error_is_not_networking_error "Missing GUID" (by decide)⟩

/-! ### The fresh user -/

/-- C30, divergence: the constructor `User(app_name, app_version)` determines the
local id 0, the remote id 0, the empty API token, the default workspace id 0, since
0, not dirty, the empty full name and email and `record_timeline` false, and it
leaves `store_start_and_stop_time_` unassigned: `StoreStartAndStopTime()` of a fresh
user reads an indeterminate value, not the value false. -/
theorem fresh_user_leaves_store_start_and_stop_time_unassigned
    (app_name app_version : String) :
    (User.new app_name app_version).LocalID = 0
      ∧ (User.new app_name app_version).ID = 0
      ∧ (User.new app_name app_version).APIToken = ""
      ∧ (User.new app_name app_version).DefaultWID = 0
      ∧ (User.new app_name app_version).Since = 0
      ∧ (User.new app_name app_version).Dirty = false
      ∧ (User.new app_name app_version).Fullname = ""
      ∧ (User.new app_name app_version).Email = ""
      ∧ (User.new app_name app_version).RecordTimeline = false
      ∧ (User.new app_name app_version).StoreStartAndStopTime = none
      ∧ (User.new app_name app_version).StoreStartAndStopTime ≠ some false := by
  refine ⟨rfl, rfl, rfl, rfl, rfl, rfl, rfl, rfl, rfl, rfl, ?_⟩
  simp [User.new, User.StoreStartAndStopTime]

/-! ### The context after `kopsik_context_init` -/

/-- C25: right after `kopsik_context_init(app_name, app_version, ...)` the API base
URL of the context is "https://www.toggl.com", its websocket client is configured
with "https://stream.toggl.com", its timeline upload URL is
"https://timeline.toggl.com", and the three callbacks, the app name and the app
version are those passed in. `kopsik_set_api_url(ctx, u)`, on the fresh context and
on any other context `ctx`, makes the API base URL equal to `u` and changes no other
member: with the old URL put back, the context is the one before the call. -/
theorem kopsik_context_init_sets_defaults {ChangeCallback ErrorCallback UpdateCallback : Type}
    (fresh : Context DB) (app_name app_version : String) (change_callback : ChangeCallback)
    (on_error_callback : ErrorCallback) (check_updates_callback : UpdateCallback)
    (ctx : ContextObject DB ChangeCallback ErrorCallback UpdateCallback) (u : String) :
    (kopsik_context_init fresh app_name app_version change_callback on_error_callback
        check_updates_callback).api_url = "https://www.toggl.com"
      ∧ (kopsik_context_init fresh app_name app_version change_callback on_error_callback
        check_updates_callback).websocket_url = "https://stream.toggl.com"
      ∧ (kopsik_context_init fresh app_name app_version change_callback on_error_callback
        check_updates_callback).timeline_upload_url = "https://timeline.toggl.com"
      ∧ (kopsik_context_init fresh app_name app_version change_callback on_error_callback
        check_updates_callback).change_callback = change_callback
      ∧ (kopsik_context_init fresh app_name app_version change_callback on_error_callback
        check_updates_callback).on_error_callback = on_error_callback
      ∧ (kopsik_context_init fresh app_name app_version change_callback on_error_callback
        check_updates_callback).check_updates_callback = check_updates_callback
      ∧ (kopsik_context_init fresh app_name app_version change_callback on_error_callback
        check_updates_callback).app_name = app_name
      ∧ (kopsik_context_init fresh app_name app_version change_callback on_error_callback
        check_updates_callback).app_version = app_version
      ∧ (kopsik_set_api_url
          (kopsik_context_init fresh app_name app_version change_callback on_error_callback
            check_updates_callback) u).api_url = u
      ∧ (kopsik_set_api_url ctx u).api_url = u
      ∧ ({ kopsik_set_api_url ctx u with api_url := ctx.api_url } :
          ContextObject DB ChangeCallback ErrorCallback UpdateCallback) = ctx :=
  ⟨rfl, rfl, rfl, rfl, rfl, rfl, rfl, rfl, rfl, rfl, rfl⟩

/-! ### The autocomplete items -/

theorem append_ne_empty (a b : String) (h : a ≠ "") : a ++ b ≠ "" := by
  intro e
  apply h
  have hdata := congrArg String.data e
  rw [String.data_append] at hdata
  have ha : a.data = [] := (List.append_eq_nil.mp hdata).1
  exact String.ext ha

/-- The time entry loop of `kopsik_autocomplete_items` resolves the task, the project
and the client of the entry as the specification names them, and the item it pushes
is `timeEntryItem`. -/
theorem autocomplete_time_entry_item_eq (ext : Externals DB) (user : User) (te : TimeEntry) :
    autocomplete_time_entry_item ext user te
      = if te.DeletedAt ≠ 0 ∨ te.IsMarkedAsDeletedOnServer = true ∨ te.description = "" then
          none
        else if ((resolvedProject user te).map fun p => !p.active).getD false then none
        else some (timeEntryItem ext user te) := by
  have ht : (if te.tid ≠ 0 then user.GetTaskByID te.tid else none) = resolvedTask user te := by
    simp only [resolvedTask]
    by_cases h : te.tid = 0 <;> simp [h]
  have hp : (match resolvedTask user te with
      | some task =>
        if task.pid ≠ 0 then user.GetProjectByID task.pid
        else if te.pid ≠ 0 then user.GetProjectByID te.pid else none
      | none => if te.pid ≠ 0 then user.GetProjectByID te.pid else none)
      = resolvedProject user te := by
    simp only [resolvedProject, resolvedProjectID]
    cases resolvedTask user te with
    | none => by_cases h : te.pid = 0 <;> simp [h]
    | some task =>
      by_cases h1 : task.pid = 0
      · by_cases h : te.pid = 0 <;> simp [h1, h]
      · simp [h1]
  have hc : (match resolvedProject user te with
      | some project => if project.cid ≠ 0 then user.GetClientByID project.cid else none
      | none => none) = resolvedClient user te := by
    simp only [resolvedClient]
    cases resolvedProject user te with
    | none => rfl
    | some project => by_cases h : project.cid = 0 <;> simp [h]
  simp only [autocomplete_time_entry_item, ht, hp, hc]
  by_cases hskip : te.DeletedAt ≠ 0 ∨ te.IsMarkedAsDeletedOnServer = true ∨ te.description = ""
  · rw [if_pos hskip, if_pos hskip]
  · rw [if_neg hskip, if_neg hskip]
    have hd : te.description ≠ "" := fun h => hskip (Or.inr (Or.inr h))
    by_cases hact : ((resolvedProject user te).map fun p => !p.active).getD false = true
    · rw [if_pos hact, if_pos hact]
    · rw [if_neg hact, if_neg hact]
      by_cases hl : ext.JoinTaskName (resolvedTask user te) (resolvedProject user te)
          (resolvedClient user te) = ""
      · simp [timeEntryItem, timeEntryLabel, hl, hd]
      · have htext : te.description ++ " - "
            ++ ext.JoinTaskName (resolvedTask user te) (resolvedProject user te)
              (resolvedClient user te) ≠ "" := by
          rw [String.append_assoc]
          exact append_ne_empty _ _ hd
        simp [timeEntryItem, timeEntryLabel, hl, htext]

theorem getProjectByID_some (user : User) (id : Nat) (p : Project)
    (h : user.GetProjectByID id = some p) : p ∈ user.related.Projects ∧ p.id = id := by
  simp only [User.GetProjectByID] at h
  refine ⟨List.mem_of_find?_eq_some h, ?_⟩
  have := List.find?_some h
  simpa using this

theorem autocomplete_time_entry_item_some (ext : Externals DB) (user : User)
    (te : TimeEntry) (item : KopsikAutocompleteItem)
    (h : autocomplete_time_entry_item ext user te = some item) :
    te.description ≠ "" ∧ item = timeEntryItem ext user te
      ∧ ∀ p, resolvedProject user te = some p → p.active = true := by
  rw [autocomplete_time_entry_item_eq] at h
  by_cases hskip : te.DeletedAt ≠ 0 ∨ te.IsMarkedAsDeletedOnServer = true ∨ te.description = ""
  · rw [if_pos hskip] at h
    cases h
  · rw [if_neg hskip] at h
    by_cases hact : ((resolvedProject user te).map fun p => !p.active).getD false = true
    · rw [if_pos hact] at h
      cases h
    · rw [if_neg hact] at h
      refine ⟨fun hd => hskip (Or.inr (Or.inr hd)), (Option.some.inj h).symm, ?_⟩
      intro p hp
      rw [hp] at hact
      simpa using hact

theorem autocomplete_task_item_some (ext : Externals DB) (user : User) (t : Task)
    (item : KopsikAutocompleteItem) (h : autocomplete_task_item ext user t = some item) :
    item.Type_ = some KOPSIK_AUTOCOMPLETE_TASK
      ∧ (item.ProjectID ≠ 0 →
          ∃ p ∈ user.related.Projects, p.id = item.ProjectID ∧ p.active = true) := by
  simp only [autocomplete_task_item] at h
  by_cases hdel : t.IsMarkedAsDeletedOnServer = true
  · rw [if_pos hdel] at h
    cases h
  · rw [if_neg hdel] at h
    cases hp : (if t.pid ≠ 0 then user.GetProjectByID t.pid else none) with
    | none =>
      rw [hp] at h
      simp only [Option.map_none', Option.getD_none, Bool.false_eq_true, if_false] at h
      split_ifs at h
      cases h
      exact ⟨rfl, fun hne => absurd rfl hne⟩
    | some p =>
      rw [hp] at h
      simp only [Option.map_some', Option.getD_some] at h
      have hget : user.GetProjectByID t.pid = some p := by
        by_cases ht : t.pid = 0
        · simp [ht] at hp
        · simpa [ht] using hp
      obtain ⟨hmem, hid⟩ := getProjectByID_some user t.pid p hget
      by_cases hact : p.active = true
      · simp only [hact, Bool.not_true, Bool.false_eq_true, if_false] at h
        split_ifs at h <;> cases h <;> exact ⟨rfl, fun _ => ⟨p, hmem, rfl, hact⟩⟩
      · have hf : p.active = false := by simpa using hact
        simp [hf] at h

theorem autocomplete_project_item_some (ext : Externals DB) (user : User) (p : Project)
    (item : KopsikAutocompleteItem) (h : autocomplete_project_item ext user p = some item) :
    item.Type_ = some KOPSIK_AUTOCOMPLETE_PROJECT ∧ item.ProjectID = p.id
      ∧ p.active = true := by
  simp only [autocomplete_project_item] at h
  by_cases hact : p.active = false
  · rw [if_pos hact] at h
    cases h
  · rw [if_neg hact] at h
    have hact1 : p.active = true := by simpa using hact
    split_ifs at h <;> cases h <;> exact ⟨rfl, rfl, hact1⟩

/-- Every item that `kopsik_autocomplete_items` returns was pushed by one of its
three loops, and that loop was run. -/
theorem autocomplete_item_origin (ext : Externals DB) (user : User)
    (include_time_entries include_tasks include_projects : Nat)
    (item : KopsikAutocompleteItem)
    (h : item ∈ std_sort ext.compareAutocompleteItems
      (autocomplete_items_unsorted ext user include_time_entries include_tasks
        include_projects)) :
    (include_time_entries ≠ 0 ∧ ∃ te ∈ user.related.TimeEntries,
        autocomplete_time_entry_item ext user te = some item)
      ∨ (include_tasks ≠ 0 ∧ ∃ t ∈ user.related.Tasks,
        autocomplete_task_item ext user t = some item)
      ∨ (include_projects ≠ 0 ∧ ∃ p ∈ user.related.Projects,
        autocomplete_project_item ext user p = some item) := by
  rw [mem_std_sort] at h
  simp only [autocomplete_items_unsorted, List.mem_append] at h
  rcases h with (h | h) | h
  · left
    by_cases ha : include_time_entries = 0
    · simp [ha] at h
    · rw [if_pos ha] at h
      exact ⟨ha, List.mem_filterMap.mp h⟩
  · right; left
    by_cases ha : include_tasks = 0
    · simp [ha] at h
    · rw [if_pos ha] at h
      exact ⟨ha, List.mem_filterMap.mp h⟩
  · right; right
    by_cases ha : include_projects = 0
    · simp [ha] at h
    · rw [if_pos ha] at h
      exact ⟨ha, List.mem_filterMap.mp h⟩

theorem kopsik_autocomplete_items_out (ext : Externals DB) (ctx : Context DB) (user : User)
    (include_time_entries include_tasks include_projects : Nat)
    (huser : ctx.user = some user) :
    (kopsik_autocomplete_items ext ctx include_time_entries include_tasks
      include_projects).out
      = some (std_sort ext.compareAutocompleteItems
          (autocomplete_items_unsorted ext user include_time_entries include_tasks
            include_projects)) := by
  simp only [kopsik_autocomplete_items, huser, success]

/-- C26: `kopsik_autocomplete_items` for a logged-in user returns a list in which
every item of type TE was pushed for a time entry of the graph with a non-empty
description; the `Description` of the item is the description of the entry, its
`ProjectAndTaskLabel` is the label L that `JoinTaskName` joins from the resolved
task, project and client of the entry, and its `Text` is the description alone when L
is empty and the description, " - " and L otherwise. The same holds for every item
that the time entry loop pushes, and an entry with an empty description yields no
item. -/
theorem autocomplete_time_entry_items_carry_description_and_label (ext : Externals DB)
    (ctx : Context DB) (user : User)
    (include_time_entries include_tasks include_projects : Nat)
    (huser : ctx.user = some user) :
    (∃ items,
        (kopsik_autocomplete_items ext ctx include_time_entries include_tasks
          include_projects).out = some items
        ∧ ∀ item ∈ items, item.Type_ = some KOPSIK_AUTOCOMPLETE_TE →
            ∃ te ∈ user.related.TimeEntries,
              te.description ≠ ""
                ∧ item.Description = some te.description
                ∧ item.ProjectAndTaskLabel = some (timeEntryLabel ext user te)
                ∧ item.Text
                  = some (if timeEntryLabel ext user te = "" then te.description
                    else te.description ++ " - " ++ timeEntryLabel ext user te))
      ∧ (∀ te item, autocomplete_time_entry_item ext user te = some item →
          te.description ≠ ""
            ∧ item.Type_ = some KOPSIK_AUTOCOMPLETE_TE
            ∧ item.Description = some te.description
            ∧ item.ProjectAndTaskLabel = some (timeEntryLabel ext user te)
            ∧ item.Text
              = some (if timeEntryLabel ext user te = "" then te.description
                else te.description ++ " - " ++ timeEntryLabel ext user te))
      ∧ ∀ te, te.description = "" → autocomplete_time_entry_item ext user te = none := by
  have hitem : ∀ te item, autocomplete_time_entry_item ext user te = some item →
      te.description ≠ ""
        ∧ item.Type_ = some KOPSIK_AUTOCOMPLETE_TE
        ∧ item.Description = some te.description
        ∧ item.ProjectAndTaskLabel = some (timeEntryLabel ext user te)
        ∧ item.Text
          = some (if timeEntryLabel ext user te = "" then te.description
            else te.description ++ " - " ++ timeEntryLabel ext user te) := by
    intro te item h
    obtain ⟨hd, heq, _⟩ := autocomplete_time_entry_item_some ext user te item h
    subst heq
    exact ⟨hd, rfl, rfl, rfl, rfl⟩
  refine ⟨⟨_, kopsik_autocomplete_items_out ext ctx user _ _ _ huser, ?_⟩, hitem, ?_⟩
  · intro item hmem htype
    rcases autocomplete_item_origin ext user _ _ _ item hmem with
      ⟨_, te, hte, h⟩ | ⟨_, t, _, h⟩ | ⟨_, p, _, h⟩
    · obtain ⟨hd, _, h1, h2, h3⟩ := hitem te item h
      exact ⟨te, hte, hd, h1, h2, h3⟩
    · have := (autocomplete_task_item_some ext user t item h).1
      rw [this] at htype
      cases htype
    · have := (autocomplete_project_item_some ext user p item h).1
      rw [this] at htype
      cases htype
  · intro te hd
    rw [autocomplete_time_entry_item_eq, if_pos (Or.inr (Or.inr hd))]

/-- Witness of C26: on the graph `autocompleteRelated` the time entry loop returns
the items of "lunch" and "write spec"; the entry without description and the entry
whose task belongs to the inactive project yield no item. -/
theorem autocomplete_time_entry_items_carry_description_and_label_witness :
    (sampleContext (some autocompleteUser)).user = some autocompleteUser
      ∧ ((kopsik_autocomplete_items sampleExternals (sampleContext (some autocompleteUser))
            1 0 0).out.map
          fun items => items.map fun item =>
            (item.Description, item.ProjectAndTaskLabel, item.Text))
        = some [(some "lunch", some "", some "lunch"),
            (some "write spec", some "Billable project",
              some "write spec - Billable project")]
      ∧ ∀ te, te.description = "" →
          autocomplete_time_entry_item sampleExternals autocompleteUser te = none :=
  ⟨rfl, by decide,
    (autocomplete_time_entry_items_carry_description_and_label sampleExternals
      (sampleContext (some autocompleteUser)) autocompleteUser 1 0 0 rfl).2.2⟩

theorem resolvedProject_some (user : User) (te : TimeEntry) (p : Project)
    (h : resolvedProject user te = some p) :
    p ∈ user.related.Projects ∧ p.id = resolvedProjectID user te
      ∧ resolvedProjectID user te ≠ 0 := by
  simp only [resolvedProject] at h
  by_cases h0 : resolvedProjectID user te = 0
  · rw [if_pos h0] at h
    cases h
  · rw [if_neg h0] at h
    obtain ⟨hm, hid⟩ := getProjectByID_some user _ p h
    exact ⟨hm, hid, h0⟩

/-- C27: in `kopsik_autocomplete_items` the time entry loop looks the project of a
time entry up under the project id of its task when the task exists and has a
non-zero project id, and under the project id of the entry otherwise
(`resolvedProject`): it skips the entry when that project is inactive and pushes
`timeEntryItem`, which carries the id and the colour of that project, otherwise. For
a logged-in user every returned item (of type TE, TASK or PROJECT) whose `ProjectID`
is set carries the id of a project of the graph with `Active()` true. -/
theorem autocomplete_items_refer_to_active_projects (ext : Externals DB)
    (ctx : Context DB) (user : User)
    (include_time_entries include_tasks include_projects : Nat)
    (huser : ctx.user = some user) :
    (∀ te, autocomplete_time_entry_item ext user te
        = if te.DeletedAt ≠ 0 ∨ te.IsMarkedAsDeletedOnServer = true ∨ te.description = ""
          then none
          else if ((resolvedProject user te).map fun p => !p.active).getD false then none
          else some (timeEntryItem ext user te))
      ∧ (∀ te, (timeEntryItem ext user te).ProjectID
          = ((resolvedProject user te).map fun p => p.id).getD 0)
      ∧ ∃ items,
          (kopsik_autocomplete_items ext ctx include_time_entries include_tasks
            include_projects).out = some items
          ∧ ∀ item ∈ items, item.ProjectID ≠ 0 →
              ∃ p ∈ user.related.Projects, p.id = item.ProjectID ∧ p.active = true := by
  refine ⟨autocomplete_time_entry_item_eq ext user, fun _ => rfl,
    _, kopsik_autocomplete_items_out ext ctx user _ _ _ huser, ?_⟩
  intro item hmem hset
  rcases autocomplete_item_origin ext user _ _ _ item hmem with
    ⟨_, te, _, h⟩ | ⟨_, t, _, h⟩ | ⟨_, p, hp, h⟩
  · obtain ⟨_, heq, hactive⟩ := autocomplete_time_entry_item_some ext user te item h
    subst heq
    cases hres : resolvedProject user te with
    | none =>
      exfalso
      apply hset
      simp [timeEntryItem, hres]
    | some p =>
      obtain ⟨hm, _, _⟩ := resolvedProject_some user te p hres
      refine ⟨p, hm, ?_, hactive p hres⟩
      simp [timeEntryItem, hres]
  · exact (autocomplete_task_item_some ext user t item h).2 hset
  · obtain ⟨_, hid, hact⟩ := autocomplete_project_item_some ext user p item h
    exact ⟨p, hp, hid.symm, hact⟩

/-- Witness of C27: on the graph `autocompleteRelated` every returned item with a
project carries the id 7 of the active project; the entry "old work", whose task
belongs to the inactive project 8, the task 3 and the project 8 yield no item. -/
theorem autocomplete_items_refer_to_active_projects_witness :
    (sampleContext (some autocompleteUser)).user = some autocompleteUser
      ∧ ((kopsik_autocomplete_items sampleExternals (sampleContext (some autocompleteUser))
            1 1 1).out.map
          fun items => items.map fun item => (item.Text, item.ProjectID))
        = some [(some "Billable project", 7), (some "lunch", 0),
            (some "write spec - Billable project", 7)]
      ∧ ∀ te, (timeEntryItem sampleExternals autocompleteUser te).ProjectID
          = ((resolvedProject autocompleteUser te).map fun p => p.id).getD 0 :=
  ⟨rfl, by decide,
    (autocomplete_items_refer_to_active_projects sampleExternals
      (sampleContext (some autocompleteUser)) autocompleteUser 1 1 1 rfl).2.1⟩

/-! ### The frame of `kopsik_set_time_entry_project` -/

theorem setBillable_shape (ext : Externals DB) (hlaws : Contracts ext) (x : TimeEntry)
    (v : Bool) : ∃ d, ext.SetBillable x v = { x with billable := v, dirty := d } := by
  rw [hlaws.SetBillable]
  by_cases h : x.billable = v
  · rw [if_pos h]
    exact ⟨x.dirty, by subst h; rfl⟩
  · rw [if_neg h]
    exact ⟨true, rfl⟩

theorem setTID_shape (ext : Externals DB) (hlaws : Contracts ext) (x : TimeEntry)
    (v : Nat) : ∃ d, ext.SetTID x v = { x with tid := v, dirty := d } := by
  rw [hlaws.SetTID]
  by_cases h : x.tid = v
  · rw [if_pos h]
    exact ⟨x.dirty, by subst h; rfl⟩
  · rw [if_neg h]
    exact ⟨true, rfl⟩

theorem setPID_shape (ext : Externals DB) (hlaws : Contracts ext) (x : TimeEntry)
    (v : Nat) : ∃ d, ext.SetPID x v = { x with pid := v, dirty := d } := by
  rw [hlaws.SetPID]
  by_cases h : x.pid = v
  · rw [if_pos h]
    exact ⟨x.dirty, by subst h; rfl⟩
  · rw [if_neg h]
    exact ⟨true, rfl⟩

/-- The time entry that `kopsik_set_time_entry_project` hands to `ctx->Save()`, under
the contracts of the setters: the entry with the task id, the project id and the
billable flag replaced, with some `ui_modified_at` and some dirty flag. -/
theorem project_entry_shape (ext : Externals DB) (hlaws : Contracts ext) (user : User)
    (te : TimeEntry) (task_id project_id now : Nat) :
    ∃ u d,
      (EntryCall.setter (SetterCall.set_time_entry_project task_id project_id) now).entry
          ext user te
        = { te with billable := selectedBillable user te project_id, tid := task_id,
                    pid := project_id, ui_modified_at := u, dirty := d } := by
  have hfirst : ∃ d, (if project_id ≠ 0 then
        match user.GetProjectByID project_id with
        | some p => ext.SetBillable te p.billable
        | none => te
      else te)
      = { te with billable := selectedBillable user te project_id, dirty := d } := by
    simp only [selectedBillable]
    by_cases hp : project_id ≠ 0
    · rw [if_pos hp, if_pos hp]
      cases user.GetProjectByID project_id with
      | none => exact ⟨te.dirty, rfl⟩
      | some p => exact setBillable_shape ext hlaws te p.billable
    · rw [if_neg hp, if_neg hp]
      exact ⟨te.dirty, rfl⟩
  obtain ⟨d1, h1⟩ := hfirst
  have htyped : ∃ d, (SetterCall.set_time_entry_project task_id project_id).typed ext user te
      = { te with billable := selectedBillable user te project_id, tid := task_id,
                  pid := project_id, dirty := d } := by
    simp only [SetterCall.typed]
    rw [h1]
    obtain ⟨d2, h2⟩ := setTID_shape ext hlaws
      { te with billable := selectedBillable user te project_id, dirty := d1 } task_id
    rw [h2]
    obtain ⟨d3, h3⟩ := setPID_shape ext hlaws
      { te with billable := selectedBillable user te project_id, dirty := d2, tid := task_id }
      project_id
    exact ⟨d3, h3⟩
  obtain ⟨d, hd⟩ := htyped
  simp only [EntryCall.entry, set_time_entry_entry]
  rw [hd]
  by_cases hdirty : d = true
  · obtain ⟨d4, h4⟩ := hlaws.SetUIModifiedAt
      { te with billable := selectedBillable user te project_id, tid := task_id,
                pid := project_id, dirty := d } now
    simp only [hdirty, if_true] at h4 ⊢
    exact ⟨now, d4, h4⟩
  · have hf : d = false := by simpa using hdirty
    subst hf
    exact ⟨te.ui_modified_at, false, by simp⟩

/-! ### The two per-day sums -/

theorem lookup_eq_find (g : String) :
    ∀ l : List TimeEntry,
      ((indexOfGUID g l).bind fun i => l[i]?) = l.find? fun te => decide (te.guid = g)
  | [] => rfl
  | head :: rest => by
    have ih := lookup_eq_find g rest
    by_cases hg : head.guid = g
    · simp [indexOfGUID, hg]
    · rw [List.find?_cons_of_neg _ (by simpa using hg), ← ih]
      simp only [indexOfGUID, hg, if_false]
      cases indexOfGUID g rest with
      | none => rfl
      | some j => simp

theorem deref_lookup (u : User) (g : String) :
    u.deref (u.GetTimeEntryByGUID g)
      = u.related.TimeEntries.find? fun te => decide (te.guid = g) :=
  lookup_eq_find g u.related.TimeEntries

theorem indexOfGUID_modify (g : String) (e' : TimeEntry) :
    ∀ (l : List TimeEntry) (i : Nat) (e : TimeEntry),
      l[i]? = some e → e'.guid = e.guid →
        indexOfGUID g (l.modify (fun _ => e') i) = indexOfGUID g l
  | [], i, e => by intro h; simp at h
  | head :: rest, 0, e => by
    intro h hg
    simp only [List.getElem?_cons_zero, Option.some.injEq] at h
    subst h
    simp [List.modify, indexOfGUID, hg]
  | head :: rest, i + 1, e => by
    intro h hg
    simp only [List.getElem?_cons_succ] at h
    have ih := indexOfGUID_modify g e' rest i e h hg
    rw [List.modify_succ_cons]
    simp only [indexOfGUID, ih]

theorem update_lookup (u : User) (p : TimeEntryPtr) (e e' : TimeEntry) (g : String)
    (h : u.deref p = some e) (hg : e'.guid = e.guid) :
    (u.update p fun _ => e').GetTimeEntryByGUID g = u.GetTimeEntryByGUID g := by
  obtain ⟨i, rfl, hi⟩ := deref_some_ptr u p e h
  simp only [User.update, User.GetTimeEntryByGUID]
  exact indexOfGUID_modify g e' _ i e hi hg

theorem savedEntries_find (g : String) {l l' : List TimeEntry} (h : SavedEntries l l') :
    ∀ e, l.find? (fun te => decide (te.guid = g)) = some e → e.server_deleted_at = 0 →
      ∃ e', l'.find? (fun te => decide (te.guid = g)) = some e'
        ∧ e'.attributes = e.attributes
        ∧ (e.local_id ≠ 0 → e'.local_id = e.local_id) := by
  induction h with
  | nil =>
    intro e he
    simp at he
  | keep a b l l' hab hid _ ih =>
    intro e he hlive
    have hg : b.guid = a.guid := by
      have := congrArg (fun x : TimeEntry => x.guid) hab
      exact this
    by_cases ha : a.guid = g
    · rw [List.find?_cons_of_pos _ (by simpa using ha)] at he
      cases he
      exact ⟨b, List.find?_cons_of_pos _ (by simpa using hg.trans ha), hab, hid⟩
    · rw [List.find?_cons_of_neg _ (by simpa using ha)] at he
      obtain ⟨e', he', hattr⟩ := ih e he hlive
      refine ⟨e', ?_, hattr⟩
      rw [List.find?_cons_of_neg _ (by simpa [hg] using ha)]
      exact he'
  | drop a l l' hdel _ ih =>
    intro e he hlive
    by_cases ha : a.guid = g
    · rw [List.find?_cons_of_pos _ (by simpa using ha)] at he
      cases he
      omega
    · rw [List.find?_cons_of_neg _ (by simpa using ha)] at he
      exact ih e he hlive

theorem savedTimeEntries_saved :
    ∀ (l : List TimeEntry) (next : Nat), SavedEntries l (savedTimeEntries next l)
  | [], _ => SavedEntries.nil
  | te :: rest, next => by
    by_cases hdel : 0 < te.server_deleted_at
    · rw [savedTimeEntries, if_pos hdel]
      exact SavedEntries.drop te rest _ hdel (savedTimeEntries_saved rest next)
    · by_cases hid : te.local_id = 0
      · rw [savedTimeEntries, if_neg hdel, if_pos hid]
        exact SavedEntries.keep te _ rest _ rfl (fun h => absurd hid h)
          (savedTimeEntries_saved rest (next + 1))
      · rw [savedTimeEntries, if_neg hdel, if_neg hid]
        exact SavedEntries.keep te _ rest _ rfl (fun _ => rfl)
          (savedTimeEntries_saved rest next)

theorem specExternals_contracts : Contracts specExternals where
  SetDeletedAt := fun te _ => ⟨te.dirty, rfl⟩
  SetUIModifiedAt := fun te _ => ⟨te.dirty, rfl⟩
  SetTID := fun _ _ => rfl
  SetPID := fun _ _ => rfl
  SetBillable := fun _ _ => rfl
  SetTags := fun _ _ => rfl
  SetDescription := fun _ _ => rfl
  SetDurationString := fun _ _ => ⟨Or.inl rfl, rfl⟩
  SetStartString := fun _ _ => ⟨Or.inl rfl, rfl⟩
  SetStopString := fun _ _ => ⟨Or.inl rfl, rfl⟩
  Save := fun ctx user huser _ =>
    ⟨savedUser user, by simp [specExternals, specSave, huser],
      savedTimeEntries_saved _ _⟩

theorem sampleExternals_parsing : ParsingSetters sampleExternals where
  SetDurationString := fun _ _ => ⟨rfl, rfl⟩
  SetStartString := fun _ _ => ⟨rfl, rfl⟩
  SetStopString := fun _ _ => ⟨rfl, rfl⟩

theorem specExternals_parsing : ParsingSetters specExternals where
  SetDurationString := fun _ _ => ⟨rfl, rfl⟩
  SetStartString := fun _ _ => ⟨rfl, rfl⟩
  SetStopString := fun _ _ => ⟨rfl, rfl⟩

/-- The result of an entry call that found its entry is decided by `ctx->Save()` on
the context with the edited entry. -/
theorem entryCall_run_result (ext : Externals DB) (ctx : Context DB) (user : User)
    (guid : String) (te : TimeEntry) (call : EntryCall)
    (huser : ctx.user = some user) (hguid : guid ≠ "")
    (hte : user.deref (user.GetTimeEntryByGUID guid) = some te) :
    (call.run ext ctx guid).result
      = if (ext.Save { ctx with user := some (user.update (user.GetTimeEntryByGUID guid)
            fun _ => call.entry ext user te) }).1 ≠ noError
        then KOPSIK_API_FAILURE else KOPSIK_API_SUCCESS := by
  cases call with
  | setter call now =>
    obtain ⟨login_message, hrun⟩ := setterCall_run_eq ext ctx guid now call
    simp only [EntryCall.run, EntryCall.entry, hrun,
      set_time_entry_found ext ctx user guid now login_message _ te huser hguid hte,
      save_and_sync]
    split <;> rfl
  | delete now1 now2 =>
    simp only [EntryCall.run, EntryCall.entry,
      kopsik_delete_time_entry_found ext ctx user guid now1 now2 te huser hguid hte,
      notify_save_and_sync]
    split <;> rfl

theorem entryCall_success_save (ext : Externals DB) (ctx : Context DB) (user : User)
    (guid : String) (te : TimeEntry) (call : EntryCall)
    (huser : ctx.user = some user) (hguid : guid ≠ "")
    (hte : user.deref (user.GetTimeEntryByGUID guid) = some te)
    (hsuccess : (call.run ext ctx guid).result = KOPSIK_API_SUCCESS) :
    (ext.Save { ctx with user := some (user.update (user.GetTimeEntryByGUID guid)
        fun _ => call.entry ext user te) }).1 = noError := by
  rw [entryCall_run_result ext ctx user guid te call huser hguid hte] at hsuccess
  by_contra herr
  rw [if_pos herr] at hsuccess
  cases hsuccess

/-- The graph after a successful entry call, under the contracts of the setters and
of `Save`: the lookup of the GUID finds the entry that the call handed to `Save`,
with its attributes (and with its local id when that was assigned), provided the
call kept the GUID and the server has not confirmed the deletion of the entry. -/
theorem entryCall_saved_entry (ext : Externals DB) (ctx : Context DB) (user : User)
    (guid : String) (te : TimeEntry) (call : EntryCall) (hlaws : Contracts ext)
    (huser : ctx.user = some user) (hguid : guid ≠ "")
    (hte : user.deref (user.GetTimeEntryByGUID guid) = some te)
    (hid : (call.entry ext user te).guid = te.guid)
    (hlive : (call.entry ext user te).server_deleted_at = 0)
    (hsuccess : (call.run ext ctx guid).result = KOPSIK_API_SUCCESS) :
    ∃ user_after te_after,
      (call.run ext ctx guid).ctx.user = some user_after
        ∧ SavedEntries
            (user.update (user.GetTimeEntryByGUID guid)
              fun _ => call.entry ext user te).related.TimeEntries
            user_after.related.TimeEntries
        ∧ (call.run ext ctx guid).ctx.timeEntryByGUID guid = some te_after
        ∧ te_after.attributes = (call.entry ext user te).attributes
        ∧ ((call.entry ext user te).local_id ≠ 0
            → te_after.local_id = (call.entry ext user te).local_id) := by
  have hok := entryCall_success_save ext ctx user guid te call huser hguid hte hsuccess
  rw [entryCall_run_ctx ext ctx user guid te call huser hguid hte]
  obtain ⟨user_after, hafter, hsaved⟩ := hlaws.Save _ _ rfl hok
  have hhanded : (user.update (user.GetTimeEntryByGUID guid)
        fun _ => call.entry ext user te).deref
      ((user.update (user.GetTimeEntryByGUID guid)
        fun _ => call.entry ext user te).GetTimeEntryByGUID guid)
      = some (call.entry ext user te) := by
    rw [update_lookup user _ te _ guid hte hid]
    exact deref_update user _ te _ hte
  rw [deref_lookup] at hhanded
  obtain ⟨te_after, hfind, hattr, hlocal⟩ := savedEntries_find guid hsaved _ hhanded hlive
  refine ⟨user_after, te_after, hafter, hsaved, ?_, hattr, hlocal⟩
  simp only [Context.timeEntryByGUID, hafter, Option.some_bind]
  rw [deref_lookup]
  exact hfind

/-- The time entry that `kopsik_delete_time_entry` hands to `ctx->Save()`, under the
contracts of the setters: the entry with `deleted_at` and `ui_modified_at` replaced,
with some dirty flag. -/
theorem delete_entry_shape (ext : Externals DB) (hlaws : Contracts ext) (user : User)
    (te : TimeEntry) (now1 now2 : Nat) :
    ∃ d, (EntryCall.delete now1 now2).entry ext user te
      = { te with deleted_at := now1, ui_modified_at := now2, dirty := d } := by
  obtain ⟨d1, h1⟩ := hlaws.SetDeletedAt te now1
  obtain ⟨d2, h2⟩ := hlaws.SetUIModifiedAt (ext.SetDeletedAt te now1) now2
  refine ⟨d2, ?_⟩
  simp only [EntryCall.entry]
  rw [h2, h1]

/-! ### Deleting a time entry: the graph after the call -/

/-- C28, as stated, fails: the time entry "guid-1" has not been saved before (local
id 0); over a store that assigns the local id on first insert, a successful
`kopsik_set_time_entry_project("guid-1", 0, 7)` sets the project id, the billable
flag and `ui_modified_at`, and the entry comes back with the local id 1: a field
other than the task id, the project id, the billable flag and `ui_modified_at` has
changed. -/
theorem kopsik_set_time_entry_project_assigns_local_id :
    (kopsik_set_time_entry_project specExternals unsavedContext "guid-1" 0 7 500).result
        = KOPSIK_API_SUCCESS
      ∧ unsavedContext.timeEntryByGUID "guid-1" = some stoppedTimeEntry
      ∧ stoppedTimeEntry.local_id = 0
      ∧ (kopsik_set_time_entry_project specExternals unsavedContext "guid-1" 0 7
          500).ctx.timeEntryByGUID "guid-1"
        = some { stoppedTimeEntry with
            pid := 7, billable := true, ui_modified_at := 500, local_id := 1 } := by
  decide

/-- C28, amended: for a logged-in graph in which the lookup of the GUID finds the
time entry `te`, whose deletion the server has not confirmed, after a successful
`kopsik_set_time_entry_project(guid, task_id, project_id)` the lookup of the GUID
finds the entry with the task id `task_id` and the project id `project_id`; its
billable flag is that of the project with the id `project_id` when `project_id` is
non-zero and such a project exists, and the flag it had otherwise; no attribute
other than the task id, the project id, the billable flag and `ui_modified_at` has
changed, apart from the in-memory dirty flag and from the local id, which is as
before when it was assigned before. The setters and `Save` meet their contracts. -/
theorem kopsik_set_time_entry_project_frame (ext : Externals DB) (ctx : Context DB)
    (user : User) (guid : String) (te : TimeEntry) (task_id project_id now : Nat)
    (hlaws : Contracts ext) (huser : ctx.user = some user)
    (hte : user.deref (user.GetTimeEntryByGUID guid) = some te)
    (hlive : te.server_deleted_at = 0)
    (hsuccess : (kopsik_set_time_entry_project ext ctx guid task_id project_id now).result
      = KOPSIK_API_SUCCESS) :
    ∃ te_after,
      (kopsik_set_time_entry_project ext ctx guid task_id project_id now).ctx.timeEntryByGUID
          guid = some te_after
        ∧ te_after.tid = task_id
        ∧ te_after.pid = project_id
        ∧ te_after.billable = selectedBillable user te project_id
        ∧ ({ te_after with tid := te.tid, pid := te.pid, billable := te.billable,
                           ui_modified_at := te.ui_modified_at } : TimeEntry).attributes
            = te.attributes
        ∧ (te.local_id ≠ 0 → te_after.local_id = te.local_id) := by
  have hguid : guid ≠ "" := by
    intro h
    subst h
    simp only [kopsik_set_time_entry_project, set_time_entry_missing_guid, failure] at hsuccess
    cases hsuccess
  obtain ⟨u, d, hshape⟩ := project_entry_shape ext hlaws user te task_id project_id now
  obtain ⟨user_after, te_after, _, _, hfound, hattr, hlocal⟩ :=
    entryCall_saved_entry ext ctx user guid te
      (EntryCall.setter (SetterCall.set_time_entry_project task_id project_id) now)
      hlaws huser hguid hte (by rw [hshape]) (by rw [hshape]; exact hlive) hsuccess
  rw [hshape] at hattr hlocal
  refine ⟨te_after, hfound, ?_, ?_, ?_, ?_, hlocal⟩
  · have := congrArg (fun x : TimeEntry => x.tid) hattr
    exact this
  · have := congrArg (fun x : TimeEntry => x.pid) hattr
    exact this
  · have := congrArg (fun x : TimeEntry => x.billable) hattr
    exact this
  · have := congrArg (fun x : TimeEntry =>
      ({ x with tid := te.tid, pid := te.pid, billable := te.billable,
                ui_modified_at := te.ui_modified_at } : TimeEntry)) hattr
    exact this

/-- Witness of C28, amended: the billable project 7 and no task are selected for the
time entry "guid-1", stored under the local id 4, at the clock time 500, over the
store that assigns local ids. -/
theorem kopsik_set_time_entry_project_frame_witness :
    ∃ te_after,
      (kopsik_set_time_entry_project specExternals storedContext "guid-1" 0 7
          500).ctx.timeEntryByGUID "guid-1" = some te_after
        ∧ te_after.tid = 0
        ∧ te_after.pid = 7
        ∧ te_after.billable
          = selectedBillable (sampleUser [storedTimeEntry, otherTimeEntry] [billableProject] [])
              storedTimeEntry 7
        ∧ ({ te_after with tid := storedTimeEntry.tid, pid := storedTimeEntry.pid,
                           billable := storedTimeEntry.billable,
                           ui_modified_at := storedTimeEntry.ui_modified_at }
            : TimeEntry).attributes = storedTimeEntry.attributes
        ∧ (storedTimeEntry.local_id ≠ 0 → te_after.local_id = storedTimeEntry.local_id) :=
  kopsik_set_time_entry_project_frame specExternals storedContext
    (sampleUser [storedTimeEntry, otherTimeEntry] [billableProject] []) "guid-1"
    storedTimeEntry 0 7 500 specExternals_contracts rfl (by decide) (by decide) (by decide)

/-! ### `ui_modified_at` after the call -/

theorem keepsIdentity_comp (f g : TimeEntry → TimeEntry) (hf : KeepsIdentity f)
    (hg : KeepsIdentity g) : KeepsIdentity fun te => g (f te) :=
  fun te => ⟨(hg (f te)).1.trans (hf te).1, (hg (f te)).2.trans (hf te).2⟩

theorem keepsIdentity_of_exact (f : TimeEntry → TimeEntry) (c : TimeEntry → Prop)
    [DecidablePred c] (g : TimeEntry → TimeEntry)
    (hf : ∀ te, f te = if c te then te else g te)
    (hg : ∀ te, (g te).guid = te.guid ∧ (g te).server_deleted_at = te.server_deleted_at) :
    KeepsIdentity f := by
  intro te
  rw [hf te]
  by_cases h : c te
  · rw [if_pos h]
    exact ⟨rfl, rfl⟩
  · rw [if_neg h]
    exact hg te

/-- The typed setters of a setter call keep the GUID and the deletion mark of the
server, under the contracts of the setters. -/
theorem setterCall_typed_keepsIdentity (ext : Externals DB) (hlaws : Contracts ext)
    (hparse : ParsingSetters ext) (user : User) (call : SetterCall) :
    KeepsIdentity (call.typed ext user) := by
  have hTID : ∀ v, KeepsIdentity fun te => ext.SetTID te v := fun v =>
    keepsIdentity_of_exact _ (fun te => te.tid = v) _ (fun te => hlaws.SetTID te v)
      (fun _ => ⟨rfl, rfl⟩)
  have hPID : ∀ v, KeepsIdentity fun te => ext.SetPID te v := fun v =>
    keepsIdentity_of_exact _ (fun te => te.pid = v) _ (fun te => hlaws.SetPID te v)
      (fun _ => ⟨rfl, rfl⟩)
  have hBillable : ∀ v, KeepsIdentity fun te => ext.SetBillable te v := fun v =>
    keepsIdentity_of_exact _ (fun te => te.billable = v) _ (fun te => hlaws.SetBillable te v)
      (fun _ => ⟨rfl, rfl⟩)
  cases call with
  | set_time_entry_duration value => exact hparse.SetDurationString value
  | set_time_entry_project task_id project_id =>
    have hfirst : KeepsIdentity fun te =>
        if project_id ≠ 0 then
          match user.GetProjectByID project_id with
          | some p => ext.SetBillable te p.billable
          | none => te
        else te := by
      intro te
      beta_reduce
      by_cases hp : project_id ≠ 0
      · rw [if_pos hp]
        cases user.GetProjectByID project_id with
        | none => exact ⟨rfl, rfl⟩
        | some p => exact hBillable p.billable te
      · rw [if_neg hp]
        exact ⟨rfl, rfl⟩
    exact keepsIdentity_comp _ (fun te => ext.SetPID te project_id)
      (keepsIdentity_comp _ (fun te => ext.SetTID te task_id) hfirst (hTID task_id))
      (hPID project_id)
  | set_time_entry_start_iso_8601 value => exact hparse.SetStartString value
  | set_time_entry_end_iso_8601 value => exact hparse.SetStopString value
  | set_time_entry_tags value =>
    exact keepsIdentity_of_exact _ (fun te => te.tags = value) _
      (fun te => hlaws.SetTags te value) (fun _ => ⟨rfl, rfl⟩)
  | set_time_entry_billable value =>
    intro te
    simp only [SetterCall.typed]
    by_cases hv : value ≠ 0
    · rw [if_pos hv]
      exact hBillable true te
    · rw [if_neg hv]
      exact hBillable false te
  | set_time_entry_description value =>
    exact keepsIdentity_of_exact _ (fun te => te.description = value) _
      (fun te => hlaws.SetDescription te value) (fun _ => ⟨rfl, rfl⟩)

/-- The entry that an entry call hands to `ctx->Save()` has the GUID and the deletion
mark of the server that the entry had, under the contracts of the setters. -/
theorem entryCall_entry_identity (ext : Externals DB) (hlaws : Contracts ext)
    (hparse : ParsingSetters ext) (user : User) (te : TimeEntry) (call : EntryCall) :
    (call.entry ext user te).guid = te.guid
      ∧ (call.entry ext user te).server_deleted_at = te.server_deleted_at := by
  cases call with
  | setter call now =>
    have htyped := setterCall_typed_keepsIdentity ext hlaws hparse user call te
    simp only [EntryCall.entry, set_time_entry_entry]
    split
    · obtain ⟨d, hd⟩ := hlaws.SetUIModifiedAt (call.typed ext user te) now
      rw [hd]
      exact htyped
    · exact htyped
  | delete now1 now2 =>
    obtain ⟨d, hd⟩ := delete_entry_shape ext hlaws user te now1 now2
    rw [hd]
    exact ⟨rfl, rfl⟩

/-- The value of `ui_modified_at` in the entry that an entry call hands to
`ctx->Save()`, when the call leaves the entry dirty: the clock value of the call. -/
theorem entryCall_entry_clock (ext : Externals DB) (hlaws : Contracts ext) (user : User)
    (te : TimeEntry) (call : EntryCall) (hdirty : call.leavesDirty ext user te = true) :
    (call.entry ext user te).ui_modified_at = call.clock := by
  cases call with
  | setter call now =>
    simp only [EntryCall.leavesDirty] at hdirty
    simp only [EntryCall.entry, EntryCall.clock, set_time_entry_entry, hdirty, if_true]
    exact setUIModifiedAt_value ext hlaws _ _
  | delete now1 now2 =>
    simp only [EntryCall.entry, EntryCall.clock]
    exact setUIModifiedAt_value ext hlaws _ _

/-- C17, amended: for a logged-in graph in which the lookup of the GUID finds the
time entry `te`, whose deletion the server has not confirmed, a setter call that
leaves the entry dirty, and `kopsik_delete_time_entry`, hand the entry to
`ctx->Save()` with `ui_modified_at` set to the clock value that the call read (for
the deletion: the second reading), whatever the value was before; and after a
successful call the lookup of the GUID finds the entry with that `ui_modified_at`,
so that it is greater than the value before the call exactly when the clock value
is greater than the value before the call. The setters and `Save` meet their
contracts. -/
theorem entry_call_stamps_clock (ext : Externals DB) (ctx : Context DB) (user : User)
    (guid : String) (te : TimeEntry) (call : EntryCall) (hlaws : Contracts ext)
    (hparse : ParsingSetters ext) (huser : ctx.user = some user) (hguid : guid ≠ "")
    (hte : user.deref (user.GetTimeEntryByGUID guid) = some te)
    (hlive : te.server_deleted_at = 0)
    (hdirty : call.leavesDirty ext user te = true) :
    (call.entry ext user te).ui_modified_at = call.clock
      ∧ (call.run ext ctx guid).ctx
          = (ext.Save { ctx with user := some (user.update (user.GetTimeEntryByGUID guid)
              fun _ => call.entry ext user te) }).2
      ∧ ((call.run ext ctx guid).result = KOPSIK_API_SUCCESS →
          ∃ te_after,
            (call.run ext ctx guid).ctx.timeEntryByGUID guid = some te_after
              ∧ te_after.ui_modified_at = call.clock
              ∧ (te.ui_modified_at < te_after.ui_modified_at
                  ↔ te.ui_modified_at < call.clock)) := by
  have hclock := entryCall_entry_clock ext hlaws user te call hdirty
  refine ⟨hclock, entryCall_run_ctx ext ctx user guid te call huser hguid hte, ?_⟩
  intro hsuccess
  obtain ⟨hid, hdel⟩ := entryCall_entry_identity ext hlaws hparse user te call
  obtain ⟨user_after, te_after, _, _, hfound, hattr, _⟩ :=
    entryCall_saved_entry ext ctx user guid te call hlaws huser hguid hte hid
      (hdel.trans hlive) hsuccess
  have hui : te_after.ui_modified_at = call.clock := by
    have := congrArg (fun x : TimeEntry => x.ui_modified_at) hattr
    exact this.trans hclock
  exact ⟨te_after, hfound, hui, by rw [hui]⟩

/-- Witness of C17, amended: the deletion of the time entry "guid-1", edited at 500,
with the clock readings 600 and 601, over the store that assigns local ids. -/
theorem entry_call_stamps_clock_witness :
    ((EntryCall.delete 600 601).entry specExternals (sampleUser [editedTimeEntry] [] [])
          editedTimeEntry).ui_modified_at = (EntryCall.delete 600 601).clock
      ∧ ∃ te_after,
          ((EntryCall.delete 600 601).run specExternals
              (sampleContext (some (sampleUser [editedTimeEntry] [] [])))
              "guid-1").ctx.timeEntryByGUID "guid-1" = some te_after
            ∧ te_after.ui_modified_at = (EntryCall.delete 600 601).clock
            ∧ (editedTimeEntry.ui_modified_at < te_after.ui_modified_at
                ↔ editedTimeEntry.ui_modified_at < (EntryCall.delete 600 601).clock) :=
  ⟨(entry_call_stamps_clock specExternals
      (sampleContext (some (sampleUser [editedTimeEntry] [] [])))
      (sampleUser [editedTimeEntry] [] []) "guid-1" editedTimeEntry (EntryCall.delete 600 601)
      specExternals_contracts specExternals_parsing rfl (by decide) (by decide) (by decide)
      rfl).1,
    (entry_call_stamps_clock specExternals
      (sampleContext (some (sampleUser [editedTimeEntry] [] [])))
      (sampleUser [editedTimeEntry] [] []) "guid-1" editedTimeEntry (EntryCall.delete 600 601)
      specExternals_contracts specExternals_parsing rfl (by decide) (by decide) (by decide)
      rfl).2.2 (by decide)⟩

/-- C18, amended: for a logged-in graph in which the lookup of the GUID finds the
time entry `te`, not dirty before the call and not confirmed deleted by the server,
the typed setters that a setter of the facade runs change the entry exactly when the
entry is dirty after they ran; the setter hands the entry to `ctx->Save()` with
`ui_modified_at` as it was when the typed setters left the entry as it was, and set
to the clock value `now` otherwise; and after a successful call the lookup of the
GUID finds the entry with that `ui_modified_at`. The typed setters of
`kopsik_set_time_entry_project` are `SetBillable` with the flag of the selected
project, `SetTID` and `SetPID`, so that a call with the task and project the entry
already holds changes the entry when the flag of the project differs from that of
the entry. The setters and `Save` meet their contracts. -/
theorem setter_refreshes_ui_modified_at_iff_changed (ext : Externals DB)
    (ctx : Context DB) (user : User) (guid : String) (te : TimeEntry) (now : Nat)
    (call : SetterCall) (hlaws : Contracts ext) (hparse : ParsingSetters ext)
    (huser : ctx.user = some user) (hguid : guid ≠ "")
    (hte : user.deref (user.GetTimeEntryByGUID guid) = some te)
    (hlive : te.server_deleted_at = 0) (hclean : te.dirty = false) :
    (call.typed ext user te = te ↔ (call.typed ext user te).dirty = false)
      ∧ (set_time_entry_entry ext now (call.typed ext user) te).ui_modified_at
          = (if call.typed ext user te = te then te.ui_modified_at else now)
      ∧ (call.run ext ctx guid now).ctx
          = (ext.Save { ctx with user := some (user.update (user.GetTimeEntryByGUID guid)
              fun _ => set_time_entry_entry ext now (call.typed ext user) te) }).2
      ∧ ((call.run ext ctx guid now).result = KOPSIK_API_SUCCESS →
          ∃ te_after,
            (call.run ext ctx guid now).ctx.timeEntryByGUID guid = some te_after
              ∧ te_after.ui_modified_at
                  = (if call.typed ext user te = te then te.ui_modified_at else now)) := by
  obtain ⟨htyped, _⟩ := setterCall_typed_isTyped ext hlaws user call te
  have hiff : call.typed ext user te = te ↔ (call.typed ext user te).dirty = false := by
    constructor
    · intro h
      rw [h]
      exact hclean
    · intro h
      rcases htyped with htyped | htyped
      · exact htyped
      · rw [h] at htyped
        exact absurd htyped (by decide)
  have hhanded : (set_time_entry_entry ext now (call.typed ext user) te).ui_modified_at
      = (if call.typed ext user te = te then te.ui_modified_at else now) := by
    by_cases h : call.typed ext user te = te
    · simp [set_time_entry_entry, h, hclean]
    · have hd : (call.typed ext user te).dirty = true := by
        cases hx : (call.typed ext user te).dirty with
        | true => rfl
        | false => exact absurd (hiff.mpr hx) h
      simp only [set_time_entry_entry, hd, h, if_true, if_false]
      exact setUIModifiedAt_value ext hlaws _ _
  refine ⟨hiff, hhanded,
    entryCall_run_ctx ext ctx user guid te (EntryCall.setter call now) huser hguid hte, ?_⟩
  intro hsuccess
  obtain ⟨hid, hdel⟩ :=
    entryCall_entry_identity ext hlaws hparse user te (EntryCall.setter call now)
  obtain ⟨user_after, te_after, _, _, hfound, hattr, _⟩ :=
    entryCall_saved_entry ext ctx user guid te (EntryCall.setter call now) hlaws huser hguid
      hte hid (hdel.trans hlive) hsuccess
  refine ⟨te_after, hfound, ?_⟩
  have := congrArg (fun x : TimeEntry => x.ui_modified_at) hattr
  exact this.trans hhanded

/-- Witness of C18, amended: `kopsik_set_time_entry_description` with the description
that the time entry "guid-1" already holds, over the store that assigns local ids. -/
theorem setter_refreshes_ui_modified_at_iff_changed_witness :
    ((SetterCall.set_time_entry_description "write spec").typed specExternals
          (sampleUser [stoppedTimeEntry] [] []) stoppedTimeEntry = stoppedTimeEntry
        ↔ ((SetterCall.set_time_entry_description "write spec").typed specExternals
          (sampleUser [stoppedTimeEntry] [] []) stoppedTimeEntry).dirty = false)
      ∧ ∃ te_after,
          ((SetterCall.set_time_entry_description "write spec").run specExternals
              (sampleContext (some (sampleUser [stoppedTimeEntry] [] []))) "guid-1"
              500).ctx.timeEntryByGUID "guid-1" = some te_after
            ∧ te_after.ui_modified_at
                = (if (SetterCall.set_time_entry_description "write spec").typed specExternals
                      (sampleUser [stoppedTimeEntry] [] []) stoppedTimeEntry = stoppedTimeEntry
                    then stoppedTimeEntry.ui_modified_at else 500) :=
  ⟨(setter_refreshes_ui_modified_at_iff_changed specExternals
      (sampleContext (some (sampleUser [stoppedTimeEntry] [] [])))
      (sampleUser [stoppedTimeEntry] [] []) "guid-1" stoppedTimeEntry 500
      (SetterCall.set_time_entry_description "write spec") specExternals_contracts
      specExternals_parsing rfl (by decide) (by decide) (by decide) rfl).1,
    (setter_refreshes_ui_modified_at_iff_changed specExternals
      (sampleContext (some (sampleUser [stoppedTimeEntry] [] [])))
      (sampleUser [stoppedTimeEntry] [] []) "guid-1" stoppedTimeEntry 500
      (SetterCall.set_time_entry_description "write spec") specExternals_contracts
      specExternals_parsing rfl (by decide) (by decide) (by decide) rfl).2.2.2 (by decide)⟩

/-! ### A failing `Save` -/

/-- C15, amended: the context after `kopsik_login`, by the step that fails. On empty
input, on an HTTP login error, on a login response without user id and on a
`LoadUserByID` error the call returns `KOPSIK_API_FAILURE` and the context, session
user and store, is the context before the call. On a `SetCurrentAPIToken` error it
returns `KOPSIK_API_FAILURE`, the session user is the one before the call and the
store is the store as the failed `SetCurrentAPIToken` left it, so that the context is
the context before the call when a failed `SetCurrentAPIToken` leaves the store
alone. On a `Save` error it returns `KOPSIK_API_FAILURE` with the error of `Save`,
and the context is what `Save` left when it was called on the context in which the
new token is stored and the session user is the newly logged-in user; nothing is
restored. When no step fails the call returns `KOPSIK_API_SUCCESS`. -/
theorem kopsik_login_failure_by_cause (ext : Externals DB) (ctx : Context DB)
    (email password : String) :
    (email = "" ∨ password = "" →
        (kopsik_login ext ctx email password).result = KOPSIK_API_FAILURE
          ∧ (kopsik_login ext ctx email password).ctx = ctx)
      ∧ (email ≠ "" → password ≠ "" →
          ((loginResponse ext ctx email password).1 ≠ noError →
              (kopsik_login ext ctx email password).result = KOPSIK_API_FAILURE
                ∧ (kopsik_login ext ctx email password).errmsg
                    = some (loginResponse ext ctx email password).1
                ∧ (kopsik_login ext ctx email password).ctx = ctx)
            ∧ ((loginResponse ext ctx email password).1 = noError →
                (loginResponse ext ctx email password).2.ID = 0 →
                (kopsik_login ext ctx email password).result = KOPSIK_API_FAILURE
                  ∧ (kopsik_login ext ctx email password).ctx = ctx)
            ∧ ((loginResponse ext ctx email password).1 = noError →
                (loginResponse ext ctx email password).2.ID ≠ 0 →
                (loginLoadedUser ext ctx email password).1 ≠ noError →
                (kopsik_login ext ctx email password).result = KOPSIK_API_FAILURE
                  ∧ (kopsik_login ext ctx email password).errmsg
                      = some (loginLoadedUser ext ctx email password).1
                  ∧ (kopsik_login ext ctx email password).ctx = ctx)
            ∧ ((loginResponse ext ctx email password).1 = noError →
                (loginResponse ext ctx email password).2.ID ≠ 0 →
                (loginLoadedUser ext ctx email password).1 = noError →
                (loginStoredToken ext ctx email password).1 ≠ noError →
                (kopsik_login ext ctx email password).result = KOPSIK_API_FAILURE
                  ∧ (kopsik_login ext ctx email password).errmsg
                      = some (loginStoredToken ext ctx email password).1
                  ∧ (kopsik_login ext ctx email password).ctx.user = ctx.user
                  ∧ (kopsik_login ext ctx email password).ctx
                      = { ctx with db := (loginStoredToken ext ctx email password).2 }
                  ∧ ((loginStoredToken ext ctx email password).2 = ctx.db →
                      (kopsik_login ext ctx email password).ctx = ctx))
            ∧ ((loginResponse ext ctx email password).1 = noError →
                (loginResponse ext ctx email password).2.ID ≠ 0 →
                (loginLoadedUser ext ctx email password).1 = noError →
                (loginStoredToken ext ctx email password).1 = noError →
                (ext.Save (loginCommitContext ext ctx email password)).1 ≠ noError →
                (kopsik_login ext ctx email password).result = KOPSIK_API_FAILURE
                  ∧ (kopsik_login ext ctx email password).errmsg
                      = some (ext.Save (loginCommitContext ext ctx email password)).1
                  ∧ (kopsik_login ext ctx email password).ctx
                      = (ext.Save (loginCommitContext ext ctx email password)).2)
            ∧ ((loginResponse ext ctx email password).1 = noError →
                (loginResponse ext ctx email password).2.ID ≠ 0 →
                (loginLoadedUser ext ctx email password).1 = noError →
                (loginStoredToken ext ctx email password).1 = noError →
                (ext.Save (loginCommitContext ext ctx email password)).1 = noError →
                (kopsik_login ext ctx email password).result = KOPSIK_API_SUCCESS
                  ∧ (kopsik_login ext ctx email password).ctx
                      = (ext.Save (loginCommitContext ext ctx email password)).2)) := by
  refine ⟨?_, fun hemail hpassword => ⟨?_, ?_, ?_, ?_, ?_, ?_⟩⟩
  · rintro (h | h)
    · simp [kopsik_login, h, failure]
    · by_cases he : email = ""
      · simp [kopsik_login, he, failure]
      · simp [kopsik_login, h, he, failure]
  · intro h1
    simp only [loginResponse] at h1
    simp [kopsik_login, loginResponse, failure, hemail, hpassword, h1]
  · intro h1 h2
    simp only [loginResponse] at h1 h2
    simp [kopsik_login, failure, hemail, hpassword, h1, h2]
  · intro h1 h2 h3
    simp only [loginResponse, loginLoadedUser] at h1 h2 h3
    simp [kopsik_login, loginResponse, loginLoadedUser, failure, hemail, hpassword, h1, h2, h3]
  · intro h1 h2 h3 h4
    simp only [loginResponse, loginLoadedUser, loginStoredToken] at h1 h2 h3 h4
    refine ⟨?_, ?_, ?_, ?_, ?_⟩
    · simp [kopsik_login, failure, hemail, hpassword, h1, h2, h3, h4]
    · simp [kopsik_login, loginResponse, loginLoadedUser, loginStoredToken, failure, hemail,
        hpassword, h1, h2, h3, h4]
    · simp [kopsik_login, failure, hemail, hpassword, h1, h2, h3, h4]
    · simp [kopsik_login, loginResponse, loginLoadedUser, loginStoredToken, failure, hemail,
        hpassword, h1, h2, h3, h4]
    · intro h5
      simp only [loginResponse, loginLoadedUser, loginStoredToken] at h5
      simp [kopsik_login, failure, hemail, hpassword, h1, h2, h3, h4, h5]
  · intro h1 h2 h3 h4 h5
    simp only [loginResponse, loginLoadedUser, loginStoredToken, loginCommitContext]
      at h1 h2 h3 h4 h5
    simp [kopsik_login, loginResponse, loginLoadedUser, loginStoredToken, loginCommitContext,
      failure, hemail, hpassword, h1, h2, h3, h4, h5]
  · intro h1 h2 h3 h4 h5
    simp only [loginResponse, loginLoadedUser, loginStoredToken, loginCommitContext]
      at h1 h2 h3 h4 h5
    simp [kopsik_login, loginResponse, loginLoadedUser, loginStoredToken, loginCommitContext,
      failure, success, hemail, hpassword, h1, h2, h3, h4, h5]

/-- Witness of C15, amended: `kopsik_login` with valid credentials in the context in
which `oldUser` is logged in and the stored token is "old-token", in the four
environments in which the HTTP login, `LoadUserByID`, `SetCurrentAPIToken` and `Save`
fail. -/
theorem kopsik_login_failure_by_cause_witness :
    ((kopsik_login failingLoginExternals oldSessionContext "new@example.com"
          "secret").result = KOPSIK_API_FAILURE
        ∧ (kopsik_login failingLoginExternals oldSessionContext "new@example.com"
          "secret").ctx = oldSessionContext)
      ∧ ((kopsik_login failingLoadExternals oldSessionContext "new@example.com"
          "secret").result = KOPSIK_API_FAILURE
        ∧ (kopsik_login failingLoadExternals oldSessionContext "new@example.com"
          "secret").ctx = oldSessionContext)
      ∧ ((kopsik_login failingTokenExternals oldSessionContext "new@example.com"
          "secret").result = KOPSIK_API_FAILURE
        ∧ (kopsik_login failingTokenExternals oldSessionContext "new@example.com"
          "secret").ctx = oldSessionContext)
      ∧ ((kopsik_login failingSaveExternals oldSessionContext "new@example.com"
          "secret").result = KOPSIK_API_FAILURE
        ∧ (kopsik_login failingSaveExternals oldSessionContext "new@example.com"
          "secret").ctx
          = (failingSaveExternals.Save (loginCommitContext failingSaveExternals
              oldSessionContext "new@example.com" "secret")).2
        ∧ (loginCommitContext failingSaveExternals oldSessionContext "new@example.com"
            "secret").db = "token"
        ∧ ((loginCommitContext failingSaveExternals oldSessionContext "new@example.com"
            "secret").user.map fun u => u.email_) = some "new@example.com") :=
  ⟨⟨(((kopsik_login_failure_by_cause failingLoginExternals oldSessionContext
        "new@example.com" "secret").2 (by decide) (by decide)).1 (by decide)).1,
      (((kopsik_login_failure_by_cause failingLoginExternals oldSessionContext
        "new@example.com" "secret").2 (by decide) (by decide)).1 (by decide)).2.2⟩,
    ⟨(((kopsik_login_failure_by_cause failingLoadExternals oldSessionContext
        "new@example.com" "secret").2 (by decide) (by decide)).2.2.1 (by decide) (by decide)
        (by decide)).1,
      (((kopsik_login_failure_by_cause failingLoadExternals oldSessionContext
        "new@example.com" "secret").2 (by decide) (by decide)).2.2.1 (by decide) (by decide)
        (by decide)).2.2⟩,
    ⟨(((kopsik_login_failure_by_cause failingTokenExternals oldSessionContext
        "new@example.com" "secret").2 (by decide) (by decide)).2.2.2.1 (by decide) (by decide)
        (by decide) (by decide)).1,
      (((kopsik_login_failure_by_cause failingTokenExternals oldSessionContext
        "new@example.com" "secret").2 (by decide) (by decide)).2.2.2.1 (by decide) (by decide)
        (by decide) (by decide)).2.2.2.2 (by decide)⟩,
    ⟨(((kopsik_login_failure_by_cause failingSaveExternals oldSessionContext
        "new@example.com" "secret").2 (by decide) (by decide)).2.2.2.2.1 (by decide)
        (by decide) (by decide) (by decide) (by decide)).1,
      (((kopsik_login_failure_by_cause failingSaveExternals oldSessionContext
        "new@example.com" "secret").2 (by decide) (by decide)).2.2.2.2.1 (by decide)
        (by decide) (by decide) (by decide) (by decide)).2.2,
      by decide, by decide⟩⟩

end FacadeTheorems

end Kopsik
